import Mathlib

/-!
# ImguiVulkanHelper: a shallow embedding

The member functions of `ImguiVulkanHelper` (imgui_vulkan_helper.cpp) are embedded as
functions on an explicit state (the private fields of the class).  Every call into Vulkan,
GLFW or ImGui is answered by an environment record passed as an argument and is appended,
together with its arguments and its answer, to the `calls` log of the state.

Machine integers are natural numbers; `uint32_t` arithmetic that can wrap is reduced
modulo `2 ^ 32` explicitly.  Handles are natural numbers, `VK_NULL_HANDLE` is `0`.
-/

namespace Warbler

/-! ## Vulkan constants (vulkan_core.h) -/

abbrev VkResult := Int
abbrev VK_SUCCESS : VkResult := 0
abbrev VK_SUBOPTIMAL_KHR : VkResult := 1000001003
abbrev VK_ERROR_OUT_OF_DATE_KHR : VkResult := -1000001004
abbrev VK_ERROR_DEVICE_LOST : VkResult := -4

abbrev Handle := Nat
abbrev VK_NULL_HANDLE : Handle := 0

abbrev UINT32_MAX : Nat := 0xFFFFFFFF
abbrev BAD_MEMORY_TYPE : Nat := 0xFFFFFFFF

abbrev VK_FORMAT_UNDEFINED : Nat := 0
abbrev VK_FORMAT_R8G8B8A8_SRGB : Nat := 43
abbrev VK_FORMAT_B8G8R8A8_SRGB : Nat := 50
abbrev VK_COLOR_SPACE_SRGB_NONLINEAR_KHR : Nat := 0
abbrev VK_PRESENT_MODE_MAILBOX_KHR : Nat := 1
abbrev VK_PRESENT_MODE_FIFO_KHR : Nat := 2
abbrev VK_SHARING_MODE_EXCLUSIVE : Nat := 0
abbrev VK_SHARING_MODE_CONCURRENT : Nat := 1
abbrev VK_QUEUE_GRAPHICS_BIT : Nat := 1

abbrev VK_IMAGE_LAYOUT_UNDEFINED : Nat := 0
abbrev VK_IMAGE_LAYOUT_SHADER_READ_ONLY_OPTIMAL : Nat := 5
abbrev VK_IMAGE_LAYOUT_TRANSFER_DST_OPTIMAL : Nat := 7
abbrev VK_ACCESS_SHADER_READ_BIT : Nat := 0x20
abbrev VK_ACCESS_TRANSFER_WRITE_BIT : Nat := 0x1000
abbrev VK_PIPELINE_STAGE_TOP_OF_PIPE_BIT : Nat := 0x1
abbrev VK_PIPELINE_STAGE_FRAGMENT_SHADER_BIT : Nat := 0x80
abbrev VK_PIPELINE_STAGE_TRANSFER_BIT : Nat := 0x1000

/-! ## Data model (imgui_vulkan_helper.h and the Vulkan structures it uses) -/

structure VkExtent2D where
  width : Nat
  height : Nat
deriving DecidableEq, Repr, Inhabited

structure VkSurfaceFormatKHR where
  format : Nat
  colorSpace : Nat
deriving DecidableEq, Repr, Inhabited

structure VkSurfaceCapabilitiesKHR where
  minImageCount : Nat
  maxImageCount : Nat
  currentExtent : VkExtent2D
  minImageExtent : VkExtent2D
  maxImageExtent : VkExtent2D
  currentTransform : Nat
deriving DecidableEq, Repr, Inhabited

structure SwapChainSupportDetails where
  capabilities : VkSurfaceCapabilitiesKHR
  formats : List VkSurfaceFormatKHR
  presentModes : List Nat
deriving DecidableEq, Repr, Inhabited

structure QueueFamilyIndices where
  graphicsFamily : Int
  presentFamily : Int
deriving DecidableEq, Repr, Inhabited

/-- One entry of `vkGetPhysicalDeviceQueueFamilyProperties`, together with the answer of
`vkGetPhysicalDeviceSurfaceSupportKHR` for that family. -/
structure QueueFamily where
  queueFlags : Nat
  presentSupport : Bool
deriving DecidableEq, Repr, Inhabited

structure UserTextureImage where
  image : Handle
  imageMemory : Handle
  imageView : Handle
  sampler : Handle
deriving DecidableEq, Repr, Inhabited

structure VkMemoryType where
  propertyFlags : Nat
  heapIndex : Nat
deriving DecidableEq, Repr, Inhabited

structure VkMemoryRequirements where
  size : Nat
  alignment : Nat
  memoryTypeBits : Nat
deriving DecidableEq, Repr, Inhabited

/-- The fields of `VkSwapchainCreateInfoKHR` that `createSwapChain` fills in from its
computations. -/
structure VkSwapchainCreateInfoKHR where
  surface : Handle
  minImageCount : Nat
  imageFormat : Nat
  imageColorSpace : Nat
  imageExtent : VkExtent2D
  imageSharingMode : Nat
  queueFamilyIndices : List Nat
  preTransform : Nat
  presentMode : Nat
deriving DecidableEq, Repr, Inhabited

/-- The fields of `VkImageMemoryBarrier` set by `transitionImageLayout`. -/
structure VkImageMemoryBarrier where
  oldLayout : Nat
  newLayout : Nat
  image : Handle
  srcAccessMask : Nat
  dstAccessMask : Nat
deriving DecidableEq, Repr, Inhabited

/-- A call made while the session is set up or torn down: the creation and the destruction
of the instance, of the pools, of the render pass and of the sync objects. -/
inductive SetupCall where
  | vkCreateInstance (extensions : List String) (layers : List String) (debugInfo : Bool)
      (ret : VkResult) (instance_ : Handle)
  | vkGetInstanceProcAddr (instance_ : Handle) (name : String) (found : Bool)
  | vkCreateDebugUtilsMessengerEXT (instance_ : Handle) (ret : VkResult) (messenger : Handle)
  | vkCreateRenderPass (format : Nat) (ret : VkResult) (renderPass : Handle)
  | vkCreateCommandPool (queueFamily : Nat) (ret : VkResult) (commandPool : Handle)
  | vkCreateDescriptorPool (maxSets : Nat) (ret : VkResult) (descriptorPool : Handle)
  | vkCreateSemaphore (ret : VkResult) (semaphore : Handle)
  | vkCreateFence (signaled : Bool) (ret : VkResult) (fence : Handle)
  | vkDestroyRenderPass (renderPass : Handle)
  | vkDestroyDescriptorPool (descriptorPool : Handle)
  | vkDestroySemaphore (semaphore : Handle)
  | vkDestroyFence (fence : Handle)
  | vkDestroyCommandPool (commandPool : Handle)
  | vkDestroyDevice (device : Handle)
  | vkDestroySurfaceKHR (instance_ : Handle) (surface : Handle)
  | vkDestroyDebugUtilsMessengerEXT (instance_ : Handle) (messenger : Handle)
  | vkDestroyInstance (instance_ : Handle)
  | glfwDestroyWindow (window : Handle)
  | glfwTerminate
deriving DecidableEq, Repr

/-- A call made by the helper into Vulkan or ImGui, with its arguments and, where the call
has one, its answer. The calls of session setup and teardown are carried by `setup`; each of
them has an abbreviation of the same name below and is written like the other calls. -/
inductive Call where
  | vkDeviceWaitIdle (device : Handle)
  | vkCreateSwapchainKHR (info : VkSwapchainCreateInfoKHR) (ret : VkResult) (swapChain : Handle)
  | vkGetSwapchainImagesKHR (swapChain : Handle) (images : List Handle)
  | vkDestroySwapchainKHR (swapChain : Handle)
  | vkCreateImageView (image : Handle) (format : Nat) (ret : VkResult) (view : Handle)
  | vkDestroyImageView (view : Handle)
  | vkCreateFramebuffer (renderPass : Handle) (attachment : Handle) (extent : VkExtent2D)
      (ret : VkResult) (framebuffer : Handle)
  | vkDestroyFramebuffer (framebuffer : Handle)
  | vkAllocateCommandBuffers (commandPool : Handle) (count : Nat) (ret : VkResult)
      (commandBuffers : List Handle)
  | vkFreeCommandBuffers (commandPool : Handle) (commandBuffers : List Handle)
  | vkAcquireNextImageKHR (swapChain : Handle) (semaphore : Handle) (ret : VkResult)
      (imageIndex : Nat)
  | vkWaitForFences (fence : Handle)
  | vkResetFences (fence : Handle)
  | vkBeginCommandBuffer (commandBuffer : Handle) (ret : VkResult)
  | vkCmdBeginRenderPass (commandBuffer : Handle) (renderPass : Handle) (framebuffer : Handle)
      (extent : VkExtent2D)
  | ImGui_ImplVulkan_RenderDrawData (commandBuffer : Handle)
  | vkCmdEndRenderPass (commandBuffer : Handle)
  | vkEndCommandBuffer (commandBuffer : Handle) (ret : VkResult)
  | vkQueueSubmit (queue : Handle) (waitSemaphores : List Handle) (commandBuffers : List Handle)
      (signalSemaphores : List Handle) (fence : Handle) (ret : VkResult)
  | vkQueuePresentKHR (queue : Handle) (waitSemaphores : List Handle) (swapChain : Handle)
      (imageIndex : Nat) (ret : VkResult)
  | vkQueueWaitIdle (queue : Handle) (ret : VkResult)
  | vkCmdPipelineBarrier (commandBuffer : Handle) (sourceStage : Nat) (destinationStage : Nat)
      (barrier : VkImageMemoryBarrier)
  | vkCreateBuffer (size : Nat) (usage : Nat) (ret : VkResult) (buffer : Handle)
  | vkDestroyBuffer (buffer : Handle)
  | vkCreateImage (width : Nat) (height : Nat) (format : Nat) (tiling : Nat) (usage : Nat)
      (ret : VkResult) (image : Handle)
  | vkDestroyImage (image : Handle)
  | vkAllocateMemory (allocationSize : Nat) (memoryTypeIndex : Nat) (ret : VkResult)
      (memory : Handle)
  | vkFreeMemory (memory : Handle)
  | vkBindBufferMemory (buffer : Handle) (memory : Handle)
  | vkBindImageMemory (image : Handle) (memory : Handle)
  | vkMapMemory (memory : Handle) (size : Nat)
  | memcpy (size : Nat)
  | vkUnmapMemory (memory : Handle)
  | vkCmdCopyBufferToImage (commandBuffer : Handle) (buffer : Handle) (image : Handle)
      (width : Nat) (height : Nat)
  | vkCreateSampler (ret : VkResult) (sampler : Handle)
  | vkDestroySampler (sampler : Handle)
  | ImGui_ImplVulkan_AddTexture (sampler : Handle) (imageView : Handle) (textureId : Handle)
  | glfwCreateWindowSurface (instance_ : Handle) (window : Handle) (ret : VkResult)
      (surface : Handle)
  | vkCreateDevice (physicalDevice : Handle) (queueFamilies : List Int) (ret : VkResult)
      (device : Handle)
  | vkGetDeviceQueue (device : Handle) (queueFamily : Nat) (queue : Handle)
  | setup (c : SetupCall)
deriving DecidableEq, Repr

/-- The call `vkCreateInstance`, as a `Call`. -/
@[match_pattern] abbrev Call.vkCreateInstance
    (extensions : List String) (layers : List String) (debugInfo : Bool) (ret : VkResult)
    (instance_ : Handle) : Call :=
  .setup (.vkCreateInstance extensions layers debugInfo ret instance_)

/-- The call `vkGetInstanceProcAddr`, as a `Call`. -/
@[match_pattern] abbrev Call.vkGetInstanceProcAddr
    (instance_ : Handle) (name : String) (found : Bool) : Call :=
  .setup (.vkGetInstanceProcAddr instance_ name found)

/-- The call `vkCreateDebugUtilsMessengerEXT`, as a `Call`. -/
@[match_pattern] abbrev Call.vkCreateDebugUtilsMessengerEXT
    (instance_ : Handle) (ret : VkResult) (messenger : Handle) : Call :=
  .setup (.vkCreateDebugUtilsMessengerEXT instance_ ret messenger)

/-- The call `vkCreateRenderPass`, as a `Call`. -/
@[match_pattern] abbrev Call.vkCreateRenderPass
    (format : Nat) (ret : VkResult) (renderPass : Handle) : Call :=
  .setup (.vkCreateRenderPass format ret renderPass)

/-- The call `vkCreateCommandPool`, as a `Call`. -/
@[match_pattern] abbrev Call.vkCreateCommandPool
    (queueFamily : Nat) (ret : VkResult) (commandPool : Handle) : Call :=
  .setup (.vkCreateCommandPool queueFamily ret commandPool)

/-- The call `vkCreateDescriptorPool`, as a `Call`. -/
@[match_pattern] abbrev Call.vkCreateDescriptorPool
    (maxSets : Nat) (ret : VkResult) (descriptorPool : Handle) : Call :=
  .setup (.vkCreateDescriptorPool maxSets ret descriptorPool)

/-- The call `vkCreateSemaphore`, as a `Call`. -/
@[match_pattern] abbrev Call.vkCreateSemaphore (ret : VkResult) (semaphore : Handle) : Call :=
  .setup (.vkCreateSemaphore ret semaphore)

/-- The call `vkCreateFence`, as a `Call`. -/
@[match_pattern] abbrev Call.vkCreateFence
    (signaled : Bool) (ret : VkResult) (fence : Handle) : Call :=
  .setup (.vkCreateFence signaled ret fence)

/-- The call `vkDestroyRenderPass`, as a `Call`. -/
@[match_pattern] abbrev Call.vkDestroyRenderPass (renderPass : Handle) : Call :=
  .setup (.vkDestroyRenderPass renderPass)

/-- The call `vkDestroyDescriptorPool`, as a `Call`. -/
@[match_pattern] abbrev Call.vkDestroyDescriptorPool (descriptorPool : Handle) : Call :=
  .setup (.vkDestroyDescriptorPool descriptorPool)

/-- The call `vkDestroySemaphore`, as a `Call`. -/
@[match_pattern] abbrev Call.vkDestroySemaphore (semaphore : Handle) : Call :=
  .setup (.vkDestroySemaphore semaphore)

/-- The call `vkDestroyFence`, as a `Call`. -/
@[match_pattern] abbrev Call.vkDestroyFence (fence : Handle) : Call :=
  .setup (.vkDestroyFence fence)

/-- The call `vkDestroyCommandPool`, as a `Call`. -/
@[match_pattern] abbrev Call.vkDestroyCommandPool (commandPool : Handle) : Call :=
  .setup (.vkDestroyCommandPool commandPool)

/-- The call `vkDestroyDevice`, as a `Call`. -/
@[match_pattern] abbrev Call.vkDestroyDevice (device : Handle) : Call :=
  .setup (.vkDestroyDevice device)

/-- The call `vkDestroySurfaceKHR`, as a `Call`. -/
@[match_pattern] abbrev Call.vkDestroySurfaceKHR (instance_ : Handle) (surface : Handle) : Call :=
  .setup (.vkDestroySurfaceKHR instance_ surface)

/-- The call `vkDestroyDebugUtilsMessengerEXT`, as a `Call`. -/
@[match_pattern] abbrev Call.vkDestroyDebugUtilsMessengerEXT
    (instance_ : Handle) (messenger : Handle) : Call :=
  .setup (.vkDestroyDebugUtilsMessengerEXT instance_ messenger)

/-- The call `vkDestroyInstance`, as a `Call`. -/
@[match_pattern] abbrev Call.vkDestroyInstance (instance_ : Handle) : Call :=
  .setup (.vkDestroyInstance instance_)

/-- The call `glfwDestroyWindow`, as a `Call`. -/
@[match_pattern] abbrev Call.glfwDestroyWindow (window : Handle) : Call :=
  .setup (.glfwDestroyWindow window)

/-- The call `glfwTerminate`, as a `Call`. -/
@[match_pattern] abbrev Call.glfwTerminate : Call :=
  .setup (.glfwTerminate)

/-- The private fields of `class ImguiVulkanHelper`, and the log of the calls made so far. -/
structure ImguiVulkanHelper where
  framebufferResized : Bool := false
  terminated : Bool := false
  currentFrame : Nat := 0
  window : Handle
  instance_ : Handle
  debugMessenger : Handle
  surface : Handle
  physicalDevice : Handle := VK_NULL_HANDLE
  device : Handle
  graphicsQueue : Handle
  presentQueue : Handle
  swapChain : Handle
  swapChainImages : List Handle
  imageCount : Nat
  swapChainImageFormat : Nat
  swapChainExtent : VkExtent2D
  swapChainImageViews : List Handle
  renderPass : Handle
  swapChainFramebuffers : List Handle
  commandPool : Handle
  descriptorPool : Handle
  commandBuffers : List Handle
  imageAvailableSemaphores : List Handle
  renderFinishedSemaphores : List Handle
  swapChainImageFences : List Handle
  userTextureImages : List UserTextureImage
  calls : List Call := []
deriving DecidableEq, Repr

/-! ## Helpers of the embedding -/

/-- Append one call to the log. -/
def ImguiVulkanHelper.log (s : ImguiVulkanHelper) (c : Call) : ImguiVulkanHelper :=
  { s with calls := s.calls ++ [c] }

/-- Embeds `std::vector<T>::resize(n)` on a vector of handles: the first `n` elements are kept, new
elements are value-initialised (null). -/
def resize (v : List Handle) (n : Nat) : List Handle :=
  v.take n ++ List.replicate (n - v.length) VK_NULL_HANDLE

/-- Embeds `v[i]` on a vector of handles.  Reading past the end is undefined in C++; the embedding
yields the null handle there. -/
def at_ (v : List Handle) (i : Nat) : Handle :=
  v.getD i VK_NULL_HANDLE

/-- Embeds `static_cast<uint32_t>` of an `int`. -/
def toUint32 (i : Int) : Nat :=
  (i % 2 ^ 32).toNat

/-! ## Device queries -/

/-- Embeds `QueueFamilyIndices::isComplete` -/
def QueueFamilyIndices.isComplete (indices : QueueFamilyIndices) : Bool :=
  indices.graphicsFamily != -1 && indices.presentFamily != -1

/-- The range-for loop of `findQueueFamilies`, from family number `i` on. -/
def findQueueFamilies.loop : List QueueFamily → Int → QueueFamilyIndices → QueueFamilyIndices
  | [], _, indices => indices
  | queueFamily :: rest, i, indices =>
    let indices1 : QueueFamilyIndices :=
      if queueFamily.queueFlags &&& VK_QUEUE_GRAPHICS_BIT ≠ 0 then
        { indices with graphicsFamily := i } else indices
    let indices2 : QueueFamilyIndices :=
      if queueFamily.presentSupport then { indices1 with presentFamily := i } else indices1
    if indices2.isComplete then indices2
    else findQueueFamilies.loop rest (i + 1) indices2

/-- Embeds `ImguiVulkanHelper::findQueueFamilies`, on the queue families the device reports. -/
def findQueueFamilies (queueFamilies : List QueueFamily) : QueueFamilyIndices :=
  findQueueFamilies.loop queueFamilies 0 { graphicsFamily := -1, presentFamily := -1 }

/-- The required device extensions, `deviceExtensionsRequired`: the one name
`VK_KHR_SWAPCHAIN_EXTENSION_NAME`. -/
def deviceExtensionsRequired : List String :=
  ["VK_KHR_swapchain"]

/-- The terminating character of a C string. -/
def NUL : Char :=
  Char.ofNat 0

/-- C `strlen`, on a string given by its characters before the terminating NUL. -/
def strlen (s : List Char) : Nat :=
  s.length

/-- C `strncmp`, on strings given by their characters before the terminating NUL: at most `n`
characters are compared, as unsigned bytes, and the comparison stops at the first difference
or at a terminating NUL. -/
def strncmp : List Char → List Char → Nat → Int
  | _, _, 0 => 0
  | s1, s2, n + 1 =>
    if s1.headD NUL ≠ s2.headD NUL then
      ((s1.headD NUL).toNat : Int) - ((s2.headD NUL).toNat : Int)
    else if s1.headD NUL = NUL then 0
    else strncmp s1.tail s2.tail n

/-- The validation layers required, `validationLayersRequired`: four layers in a build that
defines `DEBUG`, none otherwise. -/
def validationLayersRequired (DEBUG : Bool) : List String :=
  if DEBUG then
    ["VK_LAYER_LUNARG_parameter_validation", "VK_LAYER_LUNARG_object_tracker",
      "VK_LAYER_LUNARG_core_validation", "VK_LAYER_LUNARG_standard_validation"]
  else []

/-- C `strcmp`, on strings given by their characters before the terminating NUL. -/
def strcmp : List Char → List Char → Int
  | [], s2 => ((NUL).toNat : Int) - ((s2.headD NUL).toNat : Int)
  | c :: s1, s2 =>
    if c ≠ s2.headD NUL then (c.toNat : Int) - ((s2.headD NUL).toNat : Int)
    else if c = NUL then 0
    else strcmp s1 s2.tail

/-- Embeds `ImguiVulkanHelper::checkValidationLayerSupport`, on the layer names that
`vkEnumerateInstanceLayerProperties` reports. -/
def checkValidationLayerSupport (DEBUG : Bool) (availableLayers : List String) : Bool :=
  (validationLayersRequired DEBUG).all fun layerName =>
    availableLayers.any fun layerProperties =>
      strcmp layerName.toList layerProperties.toList == 0

/-- What the environment answers during one `createInstance`. -/
structure InstanceEnv where
  /-- whether the build defines `DEBUG` -/
  DEBUG : Bool
  /-- the extension names given by `glfwGetRequiredInstanceExtensions` -/
  glfwExtensions : List String
  /-- the layer names reported by `vkEnumerateInstanceLayerProperties` -/
  availableLayers : List String
  /-- the return value of `vkCreateInstance` -/
  createRet : VkResult
  /-- the instance written by `vkCreateInstance` on success -/
  instance_ : Handle
  /-- whether `vkGetInstanceProcAddr` finds `vkCreateDebugUtilsMessengerEXT` (a non-null
  function pointer) -/
  messengerEntryPoint : Bool
  /-- the return value of `vkCreateDebugUtilsMessengerEXT` -/
  messengerRet : VkResult
  /-- the messenger written by `vkCreateDebugUtilsMessengerEXT` on success -/
  debugMessenger : Handle

/-- Embeds `ImguiVulkanHelper::createInstance`.  The application name and version only fill
`VkApplicationInfo` and are left out. -/
def createInstance (env : InstanceEnv) (s : ImguiVulkanHelper) : Bool × ImguiVulkanHelper :=
  let extensions := env.glfwExtensions
  if (validationLayersRequired env.DEBUG).length > 0 ∧
      checkValidationLayerSupport env.DEBUG env.availableLayers = false then (false, s)
  else
    let extensions1 :=
      if (validationLayersRequired env.DEBUG).length > 0 then
        extensions ++ ["VK_EXT_debug_utils"]
      else extensions
    let enabledLayers :=
      if (validationLayersRequired env.DEBUG).length > 0 then validationLayersRequired env.DEBUG
      else []
    let pNext := decide ((validationLayersRequired env.DEBUG).length > 0)
    let s1 := s.log (.vkCreateInstance extensions1 enabledLayers pNext env.createRet
      env.instance_)
    if env.createRet ≠ VK_SUCCESS then (false, s1)
    else
      let s2 := { s1 with instance_ := env.instance_ }
      let s3 := s2.log (.vkGetInstanceProcAddr s2.instance_ "vkCreateDebugUtilsMessengerEXT"
        env.messengerEntryPoint)
      if env.messengerEntryPoint then
        let s4 := s3.log (.vkCreateDebugUtilsMessengerEXT s3.instance_ env.messengerRet
          env.debugMessenger)
        if env.messengerRet ≠ VK_SUCCESS then (false, s4)
        else (true, { s4 with debugMessenger := env.debugMessenger })
      else (false, s3)

/-- What the queries about one physical device answer: its queue families (with the present
support for the surface), the names of its extensions, its swapchain support for the surface
and whether it has the sampler-anisotropy feature. -/
structure PhysicalDeviceInfo where
  queueFamilies : List QueueFamily
  extensions : List String
  swapChainSupport : SwapChainSupportDetails
  samplerAnisotropy : Bool

/-- Embeds `ImguiVulkanHelper::checkDeviceExtensionSupport`, on the extension names the device
reports: every required name must be found by `strncmp` over `strlen` of the required
name. -/
def checkDeviceExtensionSupport (availableExtensions : List String) : Bool :=
  deviceExtensionsRequired.all fun ext_need =>
    availableExtensions.any fun ext_available =>
      strncmp ext_need.toList ext_available.toList (strlen ext_need.toList) == 0

/-- Embeds `ImguiVulkanHelper::isDeviceSuitable`. -/
def isDeviceSuitable (device : PhysicalDeviceInfo) : Bool :=
  let indices := findQueueFamilies device.queueFamilies
  let extensionsSupported := checkDeviceExtensionSupport device.extensions
  let swapChainAdequate :=
    if extensionsSupported then
      !device.swapChainSupport.formats.isEmpty && !device.swapChainSupport.presentModes.isEmpty
    else false
  indices.isComplete && extensionsSupported && swapChainAdequate && device.samplerAnisotropy

/-- What the environment answers during one `createDevice`. -/
structure DeviceEnv where
  /-- the return value of `glfwCreateWindowSurface` -/
  surfaceRet : VkResult
  /-- the surface written by `glfwCreateWindowSurface` on success -/
  surface : Handle
  /-- the physical devices enumerated by `vkEnumeratePhysicalDevices`, in order -/
  devices : List Handle
  /-- the answers of the queries about each physical device -/
  info : Handle → PhysicalDeviceInfo
  /-- the return value of `vkCreateDevice` -/
  createRet : VkResult
  /-- the device written by `vkCreateDevice` on success -/
  device : Handle
  /-- the queue returned by `vkGetDeviceQueue` for each queue family -/
  queue : Nat → Handle

/-- The selection loop of `createDevice`: the first suitable device is stored in
`physicalDevice` and the loop ends; without a suitable device `physicalDevice` keeps its
value. -/
def createDevice.select (suitable : Handle → Bool) : List Handle → Handle → Handle
  | [], physicalDevice => physicalDevice
  | device :: rest, physicalDevice =>
    if suitable device then device else createDevice.select suitable rest physicalDevice

/-- The elements of the `std::set<int>` built from the two queue families: without
duplicates, in increasing order. -/
def createDevice.uniqueFamilies (indices : QueueFamilyIndices) : List Int :=
  if indices.graphicsFamily = indices.presentFamily then [indices.graphicsFamily]
  else if indices.graphicsFamily < indices.presentFamily then
    [indices.graphicsFamily, indices.presentFamily]
  else [indices.presentFamily, indices.graphicsFamily]

/-- Embeds `ImguiVulkanHelper::createDevice`. -/
def createDevice (env : DeviceEnv) (s : ImguiVulkanHelper) : Bool × ImguiVulkanHelper :=
  let s1 := s.log (.glfwCreateWindowSurface s.instance_ s.window env.surfaceRet env.surface)
  if env.surfaceRet ≠ VK_SUCCESS then (false, s1)
  else
    let s2 := { s1 with surface := env.surface }
    if env.devices.length = 0 then (false, s2)
    else
      let s3 := { s2 with
        physicalDevice := createDevice.select (fun device => isDeviceSuitable (env.info device))
          env.devices s2.physicalDevice }
      if s3.physicalDevice = VK_NULL_HANDLE then (false, s3)
      else
        let queue_families := findQueueFamilies (env.info s3.physicalDevice).queueFamilies
        let s4 := s3.log (.vkCreateDevice s3.physicalDevice
          (createDevice.uniqueFamilies queue_families) env.createRet env.device)
        if env.createRet ≠ VK_SUCCESS then (false, s4)
        else
          let s5 := { s4 with device := env.device }
          let graphicsQueue := env.queue (toUint32 queue_families.graphicsFamily)
          let presentQueue := env.queue (toUint32 queue_families.presentFamily)
          let s6 := s5.log (.vkGetDeviceQueue env.device
            (toUint32 queue_families.graphicsFamily) graphicsQueue)
          let s7 := s6.log (.vkGetDeviceQueue env.device
            (toUint32 queue_families.presentFamily) presentQueue)
          (true, { s7 with graphicsQueue := graphicsQueue, presentQueue := presentQueue })

/-! ## Swapchain manager -/

/-- Embeds `ImguiVulkanHelper::chooseSwapSurfaceFormat`.  `none` is the out-of-bounds read of
`availableFormats[0]` on an empty vector. -/
def chooseSwapSurfaceFormat (availableFormats : List VkSurfaceFormatKHR) :
    Option VkSurfaceFormatKHR :=
  match availableFormats.find? (fun availableFormat =>
      availableFormat.format == VK_FORMAT_B8G8R8A8_SRGB &&
      availableFormat.colorSpace == VK_COLOR_SPACE_SRGB_NONLINEAR_KHR) with
  | some availableFormat => some availableFormat
  | none => availableFormats[0]?

/-- Embeds `ImguiVulkanHelper::chooseSwapPresentMode`; `VSYNC` tells whether the build defines the
`VSYNC` flag. -/
def chooseSwapPresentMode (VSYNC : Bool) (availablePresentModes : List Nat) : Nat :=
  if VSYNC then VK_PRESENT_MODE_FIFO_KHR
  else
    match availablePresentModes.find? (fun availablePresentMode =>
        availablePresentMode == VK_PRESENT_MODE_MAILBOX_KHR) with
    | some availablePresentMode => availablePresentMode
    | none => VK_PRESENT_MODE_FIFO_KHR

/-- Embeds `ImguiVulkanHelper::chooseSwapExtent`; `framebufferSize` is the answer of
`glfwGetFramebufferSize`. -/
def chooseSwapExtent (capabilities : VkSurfaceCapabilitiesKHR) (framebufferSize : Int × Int) :
    VkExtent2D :=
  if capabilities.currentExtent.width ≠ UINT32_MAX then capabilities.currentExtent
  else
    let actualExtent : VkExtent2D :=
      { width := toUint32 framebufferSize.1, height := toUint32 framebufferSize.2 }
    { width := max capabilities.minImageExtent.width
        (min capabilities.maxImageExtent.width actualExtent.width),
      height := max capabilities.minImageExtent.height
        (min capabilities.maxImageExtent.height actualExtent.height) }

/-- What the environment answers during one `createSwapChain`. -/
structure SwapChainEnv where
  /-- whether the build defines `VSYNC` -/
  VSYNC : Bool
  /-- the answer of `querySwapChainSupport(physicalDevice)` -/
  support : SwapChainSupportDetails
  /-- the size reported by `glfwGetFramebufferSize` -/
  framebufferSize : Int × Int
  /-- the queue families seen by `findQueueFamilies(physicalDevice)` -/
  queueFamilies : List QueueFamily
  /-- the return value of `vkCreateSwapchainKHR` -/
  createRet : VkResult
  /-- the swapchain handle written by `vkCreateSwapchainKHR` on success -/
  swapChain : Handle
  /-- the images reported by `vkGetSwapchainImagesKHR` -/
  images : List Handle

/-- The image count `createSwapChain` asks for. -/
def createSwapChain.imageCount (capabilities : VkSurfaceCapabilitiesKHR) : Nat :=
  let imageCount := (capabilities.minImageCount + 1) % 2 ^ 32
  if capabilities.maxImageCount > 0 ∧ imageCount > capabilities.maxImageCount then
    capabilities.maxImageCount
  else imageCount

/-- The create-info `createSwapChain` builds.  Reading `availableFormats[0]` of an empty
format list is undefined in C++; the embedding takes the zero format there. -/
def createSwapChain.createInfo (env : SwapChainEnv) (s : ImguiVulkanHelper) :
    VkSwapchainCreateInfoKHR :=
  let surfaceFormat := (chooseSwapSurfaceFormat env.support.formats).getD ⟨0, 0⟩
  let presentMode := chooseSwapPresentMode env.VSYNC env.support.presentModes
  let extent := chooseSwapExtent env.support.capabilities env.framebufferSize
  let indices := findQueueFamilies env.queueFamilies
  let queueFamilyIndices := [toUint32 indices.graphicsFamily, toUint32 indices.presentFamily]
  { surface := s.surface
    minImageCount := createSwapChain.imageCount env.support.capabilities
    imageFormat := surfaceFormat.format
    imageColorSpace := surfaceFormat.colorSpace
    imageExtent := extent
    imageSharingMode :=
      if indices.graphicsFamily ≠ indices.presentFamily then VK_SHARING_MODE_CONCURRENT
      else VK_SHARING_MODE_EXCLUSIVE
    queueFamilyIndices :=
      if indices.graphicsFamily ≠ indices.presentFamily then queueFamilyIndices else []
    preTransform := env.support.capabilities.currentTransform
    presentMode := presentMode }

/-- Embeds `ImguiVulkanHelper::createSwapChain` -/
def createSwapChain (env : SwapChainEnv) (s : ImguiVulkanHelper) : Bool × ImguiVulkanHelper :=
  let createInfo := createSwapChain.createInfo env s
  let s1 := s.log (.vkCreateSwapchainKHR createInfo env.createRet env.swapChain)
  if env.createRet ≠ VK_SUCCESS then (false, s1)
  else
    let s2 := { s1 with swapChain := env.swapChain }
    let s3 := s2.log (.vkGetSwapchainImagesKHR s2.swapChain env.images)
    (true, { s3 with
      swapChainImages := env.images
      swapChainImageFormat := createInfo.imageFormat
      swapChainExtent := createInfo.imageExtent
      imageCount := env.images.length })

/-- Embeds `ImguiVulkanHelper::createImageView`; `ans` is the answer of `vkCreateImageView`. -/
def createImageView (ans : VkResult × Handle) (image : Handle) (format : Nat)
    (s : ImguiVulkanHelper) : Handle × ImguiVulkanHelper :=
  let s1 := s.log (.vkCreateImageView image format ans.1 ans.2)
  if ans.1 ≠ VK_SUCCESS then (VK_NULL_HANDLE, s1) else (ans.2, s1)

/-- The loop of `createImageViews` from index `i = imageCount - n` on; `ans i` is the answer
of the `vkCreateImageView` call made for index `i`. -/
def createImageViews.loop (ans : Nat → VkResult × Handle) :
    Nat → Nat → ImguiVulkanHelper → Bool × ImguiVulkanHelper
  | 0, _, s => (true, s)
  | n + 1, i, s =>
    let r := createImageView (ans i) (at_ s.swapChainImages i) s.swapChainImageFormat s
    let s1 := { r.2 with swapChainImageViews := r.2.swapChainImageViews.set i r.1 }
    if r.1 = VK_NULL_HANDLE then (false, s1)
    else createImageViews.loop ans n (i + 1) s1

/-- Embeds `ImguiVulkanHelper::createImageViews` -/
def createImageViews (ans : Nat → VkResult × Handle) (s : ImguiVulkanHelper) :
    Bool × ImguiVulkanHelper :=
  let s1 := { s with swapChainImageViews := resize s.swapChainImageViews s.imageCount }
  createImageViews.loop ans s1.imageCount 0 s1

/-- The loop of `createFramebuffers` from index `i = imageCount - n` on; `ans i` is the answer
of the `vkCreateFramebuffer` call made for index `i`, whose handle is stored on success. -/
def createFramebuffers.loop (ans : Nat → VkResult × Handle) :
    Nat → Nat → ImguiVulkanHelper → Bool × ImguiVulkanHelper
  | 0, _, s => (true, s)
  | n + 1, i, s =>
    let s1 := s.log (.vkCreateFramebuffer s.renderPass (at_ s.swapChainImageViews i)
      s.swapChainExtent (ans i).1 (ans i).2)
    if (ans i).1 ≠ VK_SUCCESS then (false, s1)
    else createFramebuffers.loop ans n (i + 1)
      { s1 with swapChainFramebuffers := s1.swapChainFramebuffers.set i (ans i).2 }

/-- Embeds `ImguiVulkanHelper::createFramebuffers` -/
def createFramebuffers (ans : Nat → VkResult × Handle) (s : ImguiVulkanHelper) :
    Bool × ImguiVulkanHelper :=
  let s1 := { s with swapChainFramebuffers := resize s.swapChainFramebuffers s.imageCount }
  createFramebuffers.loop ans s1.imageCount 0 s1

/-- Embeds `ImguiVulkanHelper::createCommandBuffers`; `ans` is the answer of
`vkAllocateCommandBuffers`: its return value, and the handle it writes at each index on
success. -/
def createCommandBuffers (ans : VkResult × (Nat → Handle)) (s : ImguiVulkanHelper) :
    Bool × ImguiVulkanHelper :=
  let s1 := { s with commandBuffers := resize s.commandBuffers s.swapChainFramebuffers.length }
  let count := s1.commandBuffers.length % 2 ^ 32
  let allocated := (List.range count).map ans.2
  let s2 := s1.log (.vkAllocateCommandBuffers s1.commandPool count ans.1 allocated)
  if ans.1 ≠ VK_SUCCESS then (false, s2)
  else (true, { s2 with commandBuffers := allocated ++ s2.commandBuffers.drop count })

/-- Embeds `ImguiVulkanHelper::cleanupSwapChain` -/
def cleanupSwapChain (s : ImguiVulkanHelper) : ImguiVulkanHelper :=
  let s1 := s.swapChainFramebuffers.foldl (fun st fb => st.log (.vkDestroyFramebuffer fb)) s
  let s2 := s1.log (.vkFreeCommandBuffers s1.commandPool
    (s1.commandBuffers.take (s1.commandBuffers.length % 2 ^ 32)))
  let s3 := s2.swapChainImageViews.foldl
    (fun st imageView => st.log (.vkDestroyImageView imageView)) s2
  s3.log (.vkDestroySwapchainKHR s3.swapChain)

/-- Embeds `ImguiVulkanHelper::setFramebufferResized`, which `framebufferResizeCallback`
calls on the helper registered as the user pointer of the window. -/
def setFramebufferResized (s : ImguiVulkanHelper) : ImguiVulkanHelper :=
  { s with framebufferResized := true }

/-- One turn of the wait loop of `recreateSwapChain`. -/
structure WaitRound where
  /-- the size written by the `glfwGetFramebufferSize` call of this turn -/
  framebufferSize : Int × Int
  /-- whether GLFW ran `framebufferResizeCallback` during the `glfwWaitEvents` call of this
  turn -/
  resized : Bool
deriving DecidableEq, Repr

/-- What the environment answers during one `recreateSwapChain`. -/
structure RecreateEnv where
  /-- the size written by the `glfwGetFramebufferSize` call before the wait loop -/
  firstSize : Int × Int
  /-- the turns of the wait loop, in order -/
  waitRounds : List WaitRound
  swapChain : SwapChainEnv
  /-- the answer of the `vkCreateImageView` call for each index -/
  imageViews : Nat → VkResult × Handle
  /-- the answer of the `vkCreateFramebuffer` call for each index -/
  framebuffers : Nat → VkResult × Handle
  /-- the answer of `vkAllocateCommandBuffers` -/
  commandBuffers : VkResult × (Nat → Handle)

/-- The wait loop of `recreateSwapChain`,
`while (width == 0 || height == 0) { glfwGetFramebufferSize(...); glfwWaitEvents(); }`,
entered with the size last read.  Each turn reads the size and blocks in `glfwWaitEvents`,
during which GLFW may run `framebufferResizeCallback`, that is `setFramebufferResized`; the
size read in the turn is tested afterwards.  The two GLFW calls are not logged.  The
environment lists the turns the call goes through; a list that ends while the size is still
zero stands for a call that is still waiting (see `RecreateEnv.waitEnds`). -/
def recreateSwapChain.wait : List WaitRound → Int × Int → ImguiVulkanHelper → ImguiVulkanHelper
  | [], _, s => s
  | round :: rest, size, s =>
    if size.1 = 0 ∨ size.2 = 0 then
      recreateSwapChain.wait rest round.framebufferSize
        (if round.resized then setFramebufferResized s else s)
    else s

/-- Embeds `ImguiVulkanHelper::recreateSwapChain`.  The function first waits until the window
reports a framebuffer of non-zero size (`recreateSwapChain.wait`);
`env.swapChain.framebufferSize` is the size read afterwards by `chooseSwapExtent`.  The
results of the four creation steps are ignored, as in the source. -/
def recreateSwapChain (env : RecreateEnv) (s : ImguiVulkanHelper) : ImguiVulkanHelper :=
  let s0 := recreateSwapChain.wait env.waitRounds env.firstSize s
  let s1 := s0.log (.vkDeviceWaitIdle s0.device)
  let s2 := cleanupSwapChain s1
  let s3 := (createSwapChain env.swapChain s2).2
  let s4 := (createImageViews env.imageViews s3).2
  let s5 := (createFramebuffers env.framebuffers s4).2
  (createCommandBuffers env.commandBuffers s5).2

/-! ## Session setup and teardown -/

/-- Embeds `ImguiVulkanHelper::createRenderPass`; `ans` is the answer of
`vkCreateRenderPass`. -/
def createRenderPass (ans : VkResult × Handle) (s : ImguiVulkanHelper) :
    Bool × ImguiVulkanHelper :=
  let s1 := s.log (.vkCreateRenderPass s.swapChainImageFormat ans.1 ans.2)
  if ans.1 ≠ VK_SUCCESS then (false, s1)
  else (true, { s1 with renderPass := ans.2 })

/-- Embeds `ImguiVulkanHelper::createCommandPool`; `queueFamilies` are the queue families seen
by `findQueueFamilies(physicalDevice)` and `ans` is the answer of `vkCreateCommandPool`. -/
def createCommandPool (queueFamilies : List QueueFamily) (ans : VkResult × Handle)
    (s : ImguiVulkanHelper) : Bool × ImguiVulkanHelper :=
  let queueFamilyIndices := findQueueFamilies queueFamilies
  let s1 := s.log (.vkCreateCommandPool (toUint32 queueFamilyIndices.graphicsFamily) ans.1
    ans.2)
  if ans.1 ≠ VK_SUCCESS then (false, s1)
  else (true, { s1 with commandPool := ans.2 })

/-- Embeds `ImguiVulkanHelper::createDescriptorPool`; `ans` is the answer of
`vkCreateDescriptorPool`. -/
def createDescriptorPool (ans : VkResult × Handle) (s : ImguiVulkanHelper) :
    Bool × ImguiVulkanHelper :=
  let s1 := s.log (.vkCreateDescriptorPool (s.imageCount % 2 ^ 32) ans.1 ans.2)
  if ans.1 ≠ VK_SUCCESS then (false, s1)
  else (true, { s1 with descriptorPool := ans.2 })

/-- What the environment answers during one `createSyncObjects`: for each index, the answers
of the two `vkCreateSemaphore` calls and of the `vkCreateFence` call. -/
structure SyncEnv where
  imageAvailable : Nat → VkResult × Handle
  renderFinished : Nat → VkResult × Handle
  fences : Nat → VkResult × Handle

/-- The loop of `createSyncObjects` from index `i = imageCount - n` on.  Every fence is
created with `VK_FENCE_CREATE_SIGNALED_BIT`; a handle is stored when its creation
succeeds. -/
def createSyncObjects.loop (env : SyncEnv) :
    Nat → Nat → ImguiVulkanHelper → Bool × ImguiVulkanHelper
  | 0, _, s => (true, s)
  | n + 1, i, s =>
    let s1 := s.log (.vkCreateSemaphore (env.imageAvailable i).1 (env.imageAvailable i).2)
    if (env.imageAvailable i).1 ≠ VK_SUCCESS then (false, s1)
    else
      let s2 := { s1 with
        imageAvailableSemaphores := s1.imageAvailableSemaphores.set i (env.imageAvailable i).2 }
      let s3 := s2.log (.vkCreateSemaphore (env.renderFinished i).1 (env.renderFinished i).2)
      if (env.renderFinished i).1 ≠ VK_SUCCESS then (false, s3)
      else
        let s4 := { s3 with
          renderFinishedSemaphores :=
            s3.renderFinishedSemaphores.set i (env.renderFinished i).2 }
        let s5 := s4.log (.vkCreateFence true (env.fences i).1 (env.fences i).2)
        if (env.fences i).1 ≠ VK_SUCCESS then (false, s5)
        else
          createSyncObjects.loop env n (i + 1)
            { s5 with swapChainImageFences := s5.swapChainImageFences.set i (env.fences i).2 }

/-- Embeds `ImguiVulkanHelper::createSyncObjects` -/
def createSyncObjects (env : SyncEnv) (s : ImguiVulkanHelper) : Bool × ImguiVulkanHelper :=
  let s1 := { s with
    imageAvailableSemaphores := resize s.imageAvailableSemaphores s.imageCount
    renderFinishedSemaphores := resize s.renderFinishedSemaphores s.imageCount
    swapChainImageFences := resize s.swapChainImageFences s.imageCount }
  createSyncObjects.loop env s1.imageCount 0 s1

/-- What the environment answers during one `initVulkan`. -/
structure InitEnv where
  instance_ : InstanceEnv
  device : DeviceEnv
  swapChain : SwapChainEnv
  /-- the answer of the `vkCreateImageView` call for each index -/
  imageViews : Nat → VkResult × Handle
  /-- the answer of `vkCreateRenderPass` -/
  renderPass : VkResult × Handle
  /-- the answer of the `vkCreateFramebuffer` call for each index -/
  framebuffers : Nat → VkResult × Handle
  /-- the answer of `vkCreateCommandPool` -/
  commandPool : VkResult × Handle
  /-- the answer of `vkCreateDescriptorPool` -/
  descriptorPool : VkResult × Handle
  /-- the answer of `vkAllocateCommandBuffers` -/
  commandBuffers : VkResult × (Nat → Handle)
  sync : SyncEnv

/-- Embeds `ImguiVulkanHelper::initVulkan`: ten steps, each under `CHECK_RET`
(`if ((exp) == false) return false;`). -/
def initVulkan (env : InitEnv) (s : ImguiVulkanHelper) : Bool × ImguiVulkanHelper :=
  let r1 := createInstance env.instance_ s
  if r1.1 = false then (false, r1.2) else
  let r2 := createDevice env.device r1.2
  if r2.1 = false then (false, r2.2) else
  let r3 := createSwapChain env.swapChain r2.2
  if r3.1 = false then (false, r3.2) else
  let r4 := createImageViews env.imageViews r3.2
  if r4.1 = false then (false, r4.2) else
  let r5 := createRenderPass env.renderPass r4.2
  if r5.1 = false then (false, r5.2) else
  let r6 := createFramebuffers env.framebuffers r5.2
  if r6.1 = false then (false, r6.2) else
  let r7 := createCommandPool env.swapChain.queueFamilies env.commandPool r6.2
  if r7.1 = false then (false, r7.2) else
  let r8 := createDescriptorPool env.descriptorPool r7.2
  if r8.1 = false then (false, r8.2) else
  let r9 := createCommandBuffers env.commandBuffers r8.2
  if r9.1 = false then (false, r9.2) else
  let r10 := createSyncObjects env.sync r9.2
  if r10.1 = false then (false, r10.2) else
  (true, r10.2)

/-- What the environment answers during one `cleanup`. -/
structure CleanupEnv where
  /-- whether the build defines `DEBUG` -/
  DEBUG : Bool
  /-- whether `vkGetInstanceProcAddr` finds `vkDestroyDebugUtilsMessengerEXT` -/
  messengerEntryPoint : Bool

/-- The body of the texture loop of `cleanup`, for one registry entry. -/
def cleanup.destroyTexture (s : ImguiVulkanHelper) (uti : UserTextureImage) :
    ImguiVulkanHelper :=
  let s1 := s.log (.vkDestroySampler uti.sampler)
  let s2 := s1.log (.vkDestroyImageView uti.imageView)
  let s3 := s2.log (.vkDestroyImage uti.image)
  s3.log (.vkFreeMemory uti.imageMemory)

/-- The body of the sync-object loop of `cleanup`, for index `i`. -/
def cleanup.destroySync (s : ImguiVulkanHelper) (i : Nat) : ImguiVulkanHelper :=
  let s1 := s.log (.vkDestroySemaphore (at_ s.renderFinishedSemaphores i))
  let s2 := s1.log (.vkDestroySemaphore (at_ s1.imageAvailableSemaphores i))
  s2.log (.vkDestroyFence (at_ s2.swapChainImageFences i))

/-- Embeds `ImguiVulkanHelper::cleanup`, which the destructor calls. -/
def cleanup (env : CleanupEnv) (s : ImguiVulkanHelper) : ImguiVulkanHelper :=
  if s.terminated then s
  else
    let s1 := cleanupSwapChain s
    let s2 := s1.userTextureImages.foldl cleanup.destroyTexture s1
    let s3 := { s2 with userTextureImages := [] }
    let s4 := s3.log (.vkDestroyRenderPass s3.renderPass)
    let s5 := s4.log (.vkDestroyDescriptorPool s4.descriptorPool)
    let s6 := (List.range s5.imageCount).foldl cleanup.destroySync s5
    let s7 := s6.log (.vkDestroyCommandPool s6.commandPool)
    let s8 := s7.log (.vkDestroyDevice s7.device)
    let s9 := s8.log (.vkDestroySurfaceKHR s8.instance_ s8.surface)
    let s10 :=
      if (validationLayersRequired env.DEBUG).length > 0 then
        let s91 := s9.log (.vkGetInstanceProcAddr s9.instance_ "vkDestroyDebugUtilsMessengerEXT"
          env.messengerEntryPoint)
        if env.messengerEntryPoint then
          s91.log (.vkDestroyDebugUtilsMessengerEXT s91.instance_ s91.debugMessenger)
        else s91
      else s9
    let s11 := s10.log (.vkDestroyInstance s10.instance_)
    let s12 := if s11.window ≠ 0 then s11.log (.glfwDestroyWindow s11.window) else s11
    let s13 := s12.log .glfwTerminate
    { s13 with terminated := true }

/-! ## Synchronization and frame pacing -/

/-- What the environment answers during one `drawFrame`. -/
structure DrawFrameEnv where
  /-- the return value of `vkAcquireNextImageKHR` -/
  acquireRet : VkResult
  /-- the image index written by `vkAcquireNextImageKHR` -/
  imageIndex : Nat
  /-- the return value of `vkBeginCommandBuffer` -/
  beginRet : VkResult
  /-- the return value of `vkEndCommandBuffer` -/
  endRet : VkResult
  /-- the return value of `vkQueueSubmit` -/
  submitRet : VkResult
  /-- the return value of `vkQueuePresentKHR` -/
  presentRet : VkResult
  /-- the answers given during `recreateSwapChain`, when the call recreates -/
  recreate : RecreateEnv

/-- The code at the label `out` of `drawFrame`.  `currentFrame + 1` is computed in
`uint32_t`; the remainder by an `imageCount` of zero is undefined in C++ (Lean gives the
dividend). -/
def drawFrame.out (s : ImguiVulkanHelper) : ImguiVulkanHelper :=
  { s with currentFrame := (s.currentFrame + 1) % 2 ^ 32 % s.imageCount }

/-- Embeds `ImguiVulkanHelper::drawFrame`.  The members read while the frame is built
(`currentFrame`, the per-slot vectors, the queues, the swapchain) are those of the state `s`
at the call: logging a call changes none of them. -/
def drawFrame (env : DrawFrameEnv) (s : ImguiVulkanHelper) : ImguiVulkanHelper :=
  let s1 := s.log (.vkAcquireNextImageKHR s.swapChain
    (at_ s.imageAvailableSemaphores s.currentFrame) env.acquireRet env.imageIndex)
  if env.acquireRet = VK_ERROR_OUT_OF_DATE_KHR then
    { recreateSwapChain env.recreate s1 with currentFrame := 0 }
  else if env.acquireRet ≠ VK_SUCCESS ∧ env.acquireRet ≠ VK_SUBOPTIMAL_KHR then
    s1
  else
    let s2 := s1.log (.vkWaitForFences (at_ s.swapChainImageFences s.currentFrame))
    let cb := at_ s.commandBuffers s.currentFrame
    let s3 := s2.log (.vkBeginCommandBuffer cb env.beginRet)
    if env.beginRet ≠ VK_SUCCESS then drawFrame.out s3
    else
      let s4 := s3.log (.vkCmdBeginRenderPass cb s.renderPass
        (at_ s.swapChainFramebuffers s.currentFrame) s.swapChainExtent)
      let s5 := s4.log (.ImGui_ImplVulkan_RenderDrawData cb)
      let s6 := s5.log (.vkCmdEndRenderPass cb)
      let s7 := s6.log (.vkEndCommandBuffer cb env.endRet)
      if env.endRet ≠ VK_SUCCESS then drawFrame.out s7
      else
        let s8 := s7.log (.vkResetFences (at_ s.swapChainImageFences s.currentFrame))
        let s9 := s8.log (.vkQueueSubmit s.graphicsQueue
          [at_ s.imageAvailableSemaphores s.currentFrame] [cb]
          [at_ s.renderFinishedSemaphores s.currentFrame]
          (at_ s.swapChainImageFences s.currentFrame) env.submitRet)
        if env.submitRet ≠ VK_SUCCESS then drawFrame.out s9
        else
          let s10 := s9.log (.vkQueuePresentKHR s.presentQueue
            [at_ s.renderFinishedSemaphores s.currentFrame] s.swapChain env.imageIndex
            env.presentRet)
          if env.presentRet = VK_ERROR_OUT_OF_DATE_KHR ∨ env.presentRet = VK_SUBOPTIMAL_KHR ∨
              s.framebufferResized = true then
            let s11 := { s10 with framebufferResized := false }
            { recreateSwapChain env.recreate s11 with currentFrame := 0 }
          else drawFrame.out s10

/-- One turn of the render loop of `main`: while events are polled the resize callback may
call `setFramebufferResized`; then a frame is drawn. -/
structure FrameStep where
  /-- whether the resize callback ran before this frame -/
  resized : Bool
  /-- the answers given during the `drawFrame` call -/
  env : DrawFrameEnv

/-- A run of the render loop, one `drawFrame` call per step. -/
def drawFrames : List FrameStep → ImguiVulkanHelper → ImguiVulkanHelper
  | [], s => s
  | step :: rest, s =>
    drawFrames rest (drawFrame step.env (if step.resized then setFramebufferResized s else s))

/-! ## Transient resource uploader -/

/-- The loop of `findMemoryType` from index `i` on, over the memory types not yet visited.
`1 << i` is reduced to 32 bits. -/
def findMemoryType.loop (typeFilter properties : Nat) : List VkMemoryType → Nat → Nat
  | [], _ => BAD_MEMORY_TYPE
  | t :: rest, i =>
    if typeFilter &&& ((1 <<< i) % 2 ^ 32) ≠ 0 ∧ t.propertyFlags &&& properties = properties
    then i
    else findMemoryType.loop typeFilter properties rest (i + 1)

/-- Embeds `ImguiVulkanHelper::findMemoryType`; `memoryTypes` are the `memoryTypeCount` memory types
that `vkGetPhysicalDeviceMemoryProperties` reports. -/
def findMemoryType (memoryTypes : List VkMemoryType) (typeFilter properties : Nat) : Nat :=
  findMemoryType.loop typeFilter properties memoryTypes 0

/-- What the environment answers during one `createBuffer` or `createImage`. -/
structure CreateEnv where
  /-- the return value of `vkCreateBuffer` / `vkCreateImage` -/
  createRet : VkResult
  /-- the handle written by `vkCreateBuffer` / `vkCreateImage` on success -/
  object : Handle
  /-- the answer of `vkGetBufferMemoryRequirements` / `vkGetImageMemoryRequirements` -/
  memRequirements : VkMemoryRequirements
  /-- the memory types reported by `vkGetPhysicalDeviceMemoryProperties` -/
  memoryTypes : List VkMemoryType
  /-- the return value of `vkAllocateMemory` -/
  allocateRet : VkResult
  /-- the handle written by `vkAllocateMemory` on success -/
  memory : Handle

/-- The result of `createBuffer` / `createImage`: the return value, the two reference
parameters as they stand at return, and the state. -/
structure CreateResult where
  ok : Bool
  object : Handle
  memory : Handle
  state : ImguiVulkanHelper

/-- Embeds `ImguiVulkanHelper::createBuffer`; `buffer` and `bufferMemory` are the reference
parameters as they stand at the call. -/
def createBuffer (env : CreateEnv) (size usage properties : Nat) (buffer bufferMemory : Handle)
    (s : ImguiVulkanHelper) : CreateResult :=
  let s1 := s.log (.vkCreateBuffer size usage env.createRet env.object)
  if env.createRet ≠ VK_SUCCESS then
    { ok := false, object := buffer, memory := bufferMemory, state := s1 }
  else
    let buffer1 := env.object
    let memoryTypeIndex :=
      findMemoryType env.memoryTypes env.memRequirements.memoryTypeBits properties
    if memoryTypeIndex = BAD_MEMORY_TYPE then
      { ok := false, object := buffer1, memory := bufferMemory, state := s1 }
    else
      let s2 := s1.log (.vkAllocateMemory env.memRequirements.size memoryTypeIndex
        env.allocateRet env.memory)
      if env.allocateRet ≠ VK_SUCCESS then
        { ok := false, object := buffer1, memory := bufferMemory,
          state := s2.log (.vkDestroyBuffer buffer1) }
      else
        { ok := true, object := buffer1, memory := env.memory,
          state := s2.log (.vkBindBufferMemory buffer1 env.memory) }

/-- Embeds `ImguiVulkanHelper::createImage`; `image` and `imageMemory` are the reference parameters
as they stand at the call. -/
def createImage (env : CreateEnv) (width height format tiling usage properties : Nat)
    (image imageMemory : Handle) (s : ImguiVulkanHelper) : CreateResult :=
  let s1 := s.log (.vkCreateImage width height format tiling usage env.createRet env.object)
  if env.createRet ≠ VK_SUCCESS then
    { ok := false, object := image, memory := imageMemory, state := s1 }
  else
    let image1 := env.object
    let memoryTypeIndex :=
      findMemoryType env.memoryTypes env.memRequirements.memoryTypeBits properties
    if memoryTypeIndex = BAD_MEMORY_TYPE then
      { ok := false, object := image1, memory := imageMemory, state := s1 }
    else
      let s2 := s1.log (.vkAllocateMemory env.memRequirements.size memoryTypeIndex
        env.allocateRet env.memory)
      if env.allocateRet ≠ VK_SUCCESS then
        { ok := false, object := image1, memory := imageMemory,
          state := s2.log (.vkDestroyImage image1) }
      else
        { ok := true, object := image1, memory := env.memory,
          state := s2.log (.vkBindImageMemory image1 env.memory) }

/-- What the environment answers during one one-shot command buffer
(`beginSingleTimeCommands` followed by `endSingleTimeCommands`). -/
structure OneShotEnv where
  /-- the return value of `vkAllocateCommandBuffers` -/
  allocateRet : VkResult
  /-- the handle written by `vkAllocateCommandBuffers` on success -/
  commandBuffer : Handle
  /-- the return value of `vkBeginCommandBuffer` -/
  beginRet : VkResult
  /-- the return value of `vkEndCommandBuffer` -/
  endRet : VkResult
  /-- the return value of `vkQueueSubmit` -/
  submitRet : VkResult
  /-- the return value of `vkQueueWaitIdle` -/
  waitIdleRet : VkResult

/-- Embeds `ImguiVulkanHelper::beginSingleTimeCommands` -/
def beginSingleTimeCommands (env : OneShotEnv) (s : ImguiVulkanHelper) :
    Handle × ImguiVulkanHelper :=
  let s1 := s.log (.vkAllocateCommandBuffers s.commandPool 1 env.allocateRet [env.commandBuffer])
  if env.allocateRet ≠ VK_SUCCESS then (VK_NULL_HANDLE, s1)
  else
    let commandBuffer := env.commandBuffer
    let s2 := s1.log (.vkBeginCommandBuffer commandBuffer env.beginRet)
    if env.beginRet ≠ VK_SUCCESS then
      (VK_NULL_HANDLE, s2.log (.vkFreeCommandBuffers s2.commandPool [commandBuffer]))
    else (commandBuffer, s2)

/-- Embeds `ImguiVulkanHelper::endSingleTimeCommands` -/
def endSingleTimeCommands (env : OneShotEnv) (commandBuffer : Handle) (s : ImguiVulkanHelper) :
    Bool × ImguiVulkanHelper :=
  let out := fun (result : Bool) (st : ImguiVulkanHelper) =>
    (result, st.log (.vkFreeCommandBuffers st.commandPool [commandBuffer]))
  let s1 := s.log (.vkEndCommandBuffer commandBuffer env.endRet)
  if env.endRet ≠ VK_SUCCESS then out false s1
  else
    let s2 := s1.log (.vkQueueSubmit s1.graphicsQueue [] [commandBuffer] [] VK_NULL_HANDLE
      env.submitRet)
    if env.submitRet ≠ VK_SUCCESS then out false s2
    else
      let s3 := s2.log (.vkQueueWaitIdle s2.graphicsQueue env.waitIdleRet)
      if env.waitIdleRet ≠ VK_SUCCESS then out false s3
      else out true s3

/-- Embeds `ImguiVulkanHelper::transitionImageLayout` -/
def transitionImageLayout (env : OneShotEnv) (image : Handle) (_format oldLayout newLayout : Nat)
    (s : ImguiVulkanHelper) : Bool × ImguiVulkanHelper :=
  let r := beginSingleTimeCommands env s
  let commandBuffer := r.1
  let s1 := r.2
  if commandBuffer = VK_NULL_HANDLE then
    (false, s1.log (.vkFreeCommandBuffers s1.commandPool [commandBuffer]))
  else if oldLayout = VK_IMAGE_LAYOUT_UNDEFINED ∧
      newLayout = VK_IMAGE_LAYOUT_TRANSFER_DST_OPTIMAL then
    let barrier : VkImageMemoryBarrier :=
      { oldLayout := oldLayout, newLayout := newLayout, image := image,
        srcAccessMask := 0, dstAccessMask := VK_ACCESS_TRANSFER_WRITE_BIT }
    let s2 := s1.log (.vkCmdPipelineBarrier commandBuffer VK_PIPELINE_STAGE_TOP_OF_PIPE_BIT
      VK_PIPELINE_STAGE_TRANSFER_BIT barrier)
    endSingleTimeCommands env commandBuffer s2
  else if oldLayout = VK_IMAGE_LAYOUT_TRANSFER_DST_OPTIMAL ∧
      newLayout = VK_IMAGE_LAYOUT_SHADER_READ_ONLY_OPTIMAL then
    let barrier : VkImageMemoryBarrier :=
      { oldLayout := oldLayout, newLayout := newLayout, image := image,
        srcAccessMask := VK_ACCESS_TRANSFER_WRITE_BIT,
        dstAccessMask := VK_ACCESS_SHADER_READ_BIT }
    let s2 := s1.log (.vkCmdPipelineBarrier commandBuffer VK_PIPELINE_STAGE_TRANSFER_BIT
      VK_PIPELINE_STAGE_FRAGMENT_SHADER_BIT barrier)
    endSingleTimeCommands env commandBuffer s2
  else
    (false, s1.log (.vkFreeCommandBuffers s1.commandPool [commandBuffer]))

/-! ## Texture loading -/

abbrev VK_BUFFER_USAGE_TRANSFER_SRC_BIT : Nat := 0x1
abbrev VK_IMAGE_USAGE_TRANSFER_DST_BIT : Nat := 0x2
abbrev VK_IMAGE_USAGE_SAMPLED_BIT : Nat := 0x4
abbrev VK_MEMORY_PROPERTY_DEVICE_LOCAL_BIT : Nat := 0x1
abbrev VK_MEMORY_PROPERTY_HOST_VISIBLE_BIT : Nat := 0x2
abbrev VK_MEMORY_PROPERTY_HOST_COHERENT_BIT : Nat := 0x4
abbrev VK_IMAGE_TILING_OPTIMAL : Nat := 0

/-- Embeds `ImguiVulkanHelper::copyBufferToImage`. -/
def copyBufferToImage (env : OneShotEnv) (buffer image : Handle) (width height : Nat)
    (s : ImguiVulkanHelper) : Bool × ImguiVulkanHelper :=
  let r := beginSingleTimeCommands env s
  let commandBuffer := r.1
  let s1 := r.2
  if commandBuffer = VK_NULL_HANDLE then
    (false, s1.log (.vkFreeCommandBuffers s1.commandPool [commandBuffer]))
  else
    let s2 := s1.log (.vkCmdCopyBufferToImage commandBuffer buffer image width height)
    endSingleTimeCommands env commandBuffer s2

/-- The value of an `int` expression that left the range of `int`: signed overflow is
undefined in C++; the embedding wraps in two's complement, as the target machines do. -/
def toInt32 (i : Int) : Int :=
  Int.bmod i (2 ^ 32)

/-- The conversion of an `int` to `VkDeviceSize` (`uint64_t`). -/
def toUint64 (i : Int) : Nat :=
  (i % 2 ^ 64).toNat

/-- The byte size `loadImage` computes: `texWidth * texHeight * 4`, evaluated in `int` and
then converted to `VkDeviceSize`. -/
def loadImage.imageSize (texWidth texHeight : Int) : Nat :=
  toUint64 (toInt32 (toInt32 (texWidth * texHeight) * 4))

/-- What the environment answers during one `loadImage`. -/
structure LoadImageEnv where
  /-- the answer of `stbi_load`: `none` when it yields no pixels, else the width and the
  height of the decoded image -/
  decoded : Option (Int × Int)
  /-- the answers during `createBuffer` for the staging buffer -/
  staging : CreateEnv
  /-- the answers during `createImage` for the texture image -/
  image : CreateEnv
  /-- the answers during the transition to TRANSFER_DST_OPTIMAL -/
  toTransferDst : OneShotEnv
  /-- the answers during `copyBufferToImage` -/
  copy : OneShotEnv
  /-- the answers during the transition to SHADER_READ_ONLY_OPTIMAL -/
  toShaderRead : OneShotEnv
  /-- the answer of `vkCreateImageView` -/
  imageView : VkResult × Handle
  /-- the return value of `vkCreateSampler` -/
  samplerRet : VkResult
  /-- the sampler written by `vkCreateSampler` on success -/
  sampler : Handle
  /-- the identifier returned by `ImGui_ImplVulkan_AddTexture` (0 is `NULL`) -/
  textureId : Handle
  /-- the indeterminate value of the local `stagingBuffer` before it is written -/
  stagingBuffer0 : Handle
  /-- the indeterminate value of the local `stagingBufferMemory` before it is written -/
  stagingBufferMemory0 : Handle
  /-- the indeterminate value of the local `textureImage` before it is written -/
  textureImage0 : Handle
  /-- the indeterminate value of the local `textureImageMemory` before it is written -/
  textureImageMemory0 : Handle
  /-- the indeterminate value of the local `textureImageView` before it is written -/
  textureImageView0 : Handle
  /-- the indeterminate value of the local `textureSampler` before it is written -/
  textureSampler0 : Handle

/-- The result of `loadImage`: the identifier returned (0 is `NULL`), the integers behind the
`width` and `height` pointers (`none` for a null pointer), and the state. -/
structure LoadImageResult where
  result : Handle
  width : Option Int
  height : Option Int
  state : ImguiVulkanHelper

/-- The code at the label `out` of `loadImage`, with the locals as they stand at the jump. -/
def loadImage.out (result stagingBuffer stagingBufferMemory textureImageView textureImage
    textureImageMemory textureSampler : Handle) (s : ImguiVulkanHelper) : ImguiVulkanHelper :=
  let s1 := s.log (.vkDestroyBuffer stagingBuffer)
  let s2 := s1.log (.vkFreeMemory stagingBufferMemory)
  let s3 := if textureImageView ≠ VK_NULL_HANDLE ∧ result = 0 then
    s2.log (.vkDestroyImageView textureImageView) else s2
  let s4 := if textureImage ≠ VK_NULL_HANDLE ∧ result = 0 then
    s3.log (.vkDestroyImage textureImage) else s3
  let s5 := if textureImageMemory ≠ VK_NULL_HANDLE ∧ result = 0 then
    s4.log (.vkFreeMemory textureImageMemory) else s4
  if textureSampler ≠ VK_NULL_HANDLE ∧ result = 0 then
    s5.log (.vkDestroySampler textureSampler) else s5

/-- Embeds `ImguiVulkanHelper::loadImage`; `width` and `height` are the integers behind the
two pointers at the call (`none` for a null pointer).  Locals that the source reads before
writing them have the indeterminate values given by the environment. -/
def loadImage (env : LoadImageEnv) (width height : Option Int) (s : ImguiVulkanHelper) :
    LoadImageResult :=
  match env.decoded with
  | none => { result := 0, width := width, height := height, state := s }
  | some (texWidth, texHeight) =>
    let imageSize := loadImage.imageSize texWidth texHeight
    let staging := createBuffer env.staging imageSize VK_BUFFER_USAGE_TRANSFER_SRC_BIT
      (VK_MEMORY_PROPERTY_HOST_VISIBLE_BIT ||| VK_MEMORY_PROPERTY_HOST_COHERENT_BIT)
      env.stagingBuffer0 env.stagingBufferMemory0 s
    if staging.ok = false then
      { result := 0, width := width, height := height, state := staging.state }
    else
      let stagingBuffer := staging.object
      let stagingBufferMemory := staging.memory
      let s1 := staging.state.log (.vkMapMemory stagingBufferMemory imageSize)
      let s2 := s1.log (.memcpy imageSize)
      let s3 := s2.log (.vkUnmapMemory stagingBufferMemory)
      let fail := fun (textureImageView textureImage textureImageMemory textureSampler : Handle)
          (st : ImguiVulkanHelper) =>
        ({ result := 0, width := width, height := height,
           state := loadImage.out 0 stagingBuffer stagingBufferMemory textureImageView
             textureImage textureImageMemory textureSampler st } : LoadImageResult)
      let created := createImage env.image (toUint32 texWidth) (toUint32 texHeight)
        VK_FORMAT_R8G8B8A8_SRGB VK_IMAGE_TILING_OPTIMAL
        (VK_IMAGE_USAGE_TRANSFER_DST_BIT ||| VK_IMAGE_USAGE_SAMPLED_BIT)
        VK_MEMORY_PROPERTY_DEVICE_LOCAL_BIT env.textureImage0 env.textureImageMemory0 s3
      let textureImage := created.object
      let textureImageMemory := created.memory
      if created.ok = false then
        fail env.textureImageView0 textureImage textureImageMemory env.textureSampler0
          created.state
      else
        let t1 := transitionImageLayout env.toTransferDst textureImage VK_FORMAT_R8G8B8A8_SRGB
          VK_IMAGE_LAYOUT_UNDEFINED VK_IMAGE_LAYOUT_TRANSFER_DST_OPTIMAL created.state
        if t1.1 = false then
          fail env.textureImageView0 textureImage textureImageMemory env.textureSampler0 t1.2
        else
          let c := copyBufferToImage env.copy stagingBuffer textureImage (toUint32 texWidth)
            (toUint32 texHeight) t1.2
          if c.1 = false then
            fail env.textureImageView0 textureImage textureImageMemory env.textureSampler0 c.2
          else
            let t2 := transitionImageLayout env.toShaderRead textureImage
              VK_FORMAT_R8G8B8A8_SRGB VK_IMAGE_LAYOUT_TRANSFER_DST_OPTIMAL
              VK_IMAGE_LAYOUT_SHADER_READ_ONLY_OPTIMAL c.2
            if t2.1 = false then
              fail env.textureImageView0 textureImage textureImageMemory env.textureSampler0
                t2.2
            else
              let v := createImageView env.imageView textureImage VK_FORMAT_R8G8B8A8_SRGB t2.2
              let textureImageView := v.1
              if textureImageView = VK_NULL_HANDLE then
                fail textureImageView textureImage textureImageMemory env.textureSampler0 v.2
              else
                let s4 := v.2.log (.vkCreateSampler env.samplerRet env.sampler)
                if env.samplerRet ≠ VK_SUCCESS then
                  fail textureImageView textureImage textureImageMemory env.textureSampler0 s4
                else
                  let textureSampler := env.sampler
                  let result := env.textureId
                  let s5 := s4.log
                    (.ImGui_ImplVulkan_AddTexture textureSampler textureImageView result)
                  if result = 0 then
                    fail textureImageView textureImage textureImageMemory textureSampler s5
                  else
                    let uti : UserTextureImage :=
                      { image := textureImage, imageMemory := textureImageMemory,
                        imageView := textureImageView, sampler := textureSampler }
                    let s6 := { s5 with userTextureImages := s5.userTextureImages ++ [uti] }
                    { result := result,
                      width := width.map (fun _ => texWidth),
                      height := height.map (fun _ => texHeight),
                      state := loadImage.out result stagingBuffer stagingBufferMemory
                        textureImageView textureImage textureImageMemory textureSampler s6 }

/-! ## Observing the log -/

/-- The calls logged between two states of one run. -/
def callsDuring (before after : ImguiVulkanHelper) : List Call :=
  after.calls.drop before.calls.length

/-- The calls made by `recreateSwapChain`: the device wait, the destruction of the
swapchain-derived objects and their creation. -/
def Call.isSwapChainRebuild : Call → Bool
  | .vkDeviceWaitIdle _ => true
  | .vkCreateSwapchainKHR _ _ _ => true
  | .vkGetSwapchainImagesKHR _ _ => true
  | .vkDestroySwapchainKHR _ => true
  | .vkCreateImageView _ _ _ _ => true
  | .vkDestroyImageView _ => true
  | .vkCreateFramebuffer _ _ _ _ _ => true
  | .vkDestroyFramebuffer _ => true
  | .vkAllocateCommandBuffers _ _ _ _ => true
  | .vkFreeCommandBuffers _ _ => true
  | _ => false

/-- A `vkCreateSwapchainKHR` call. -/
def Call.isCreateSwapchain : Call → Bool
  | .vkCreateSwapchainKHR _ _ _ => true
  | _ => false

/-- A wait on a fence. -/
def Call.isFenceWait : Call → Bool
  | .vkWaitForFences _ => true
  | _ => false

/-- A reset of a fence. -/
def Call.isFenceReset : Call → Bool
  | .vkResetFences _ => true
  | _ => false

/-- A call that records into a command buffer (begin, commands, end). -/
def Call.isRecording : Call → Bool
  | .vkBeginCommandBuffer _ _ => true
  | .vkCmdBeginRenderPass _ _ _ _ => true
  | .ImGui_ImplVulkan_RenderDrawData _ => true
  | .vkCmdEndRenderPass _ => true
  | .vkEndCommandBuffer _ _ => true
  | .vkCmdPipelineBarrier _ _ _ _ => true
  | _ => false

/-- A queue submission. -/
def Call.isSubmit : Call → Bool
  | .vkQueueSubmit _ _ _ _ _ _ => true
  | _ => false

/-- A present. -/
def Call.isPresent : Call → Bool
  | .vkQueuePresentKHR _ _ _ _ _ => true
  | _ => false

/-- A recorded pipeline barrier. -/
def Call.isBarrier : Call → Bool
  | .vkCmdPipelineBarrier _ _ _ _ => true
  | _ => false

/-- A `vkBeginCommandBuffer` that did not return `VK_SUCCESS`. -/
def Call.isFailedBegin : Call → Bool
  | .vkBeginCommandBuffer _ ret => ret != VK_SUCCESS
  | _ => false

/-- A `vkEndCommandBuffer` that did not return `VK_SUCCESS`. -/
def Call.isFailedEnd : Call → Bool
  | .vkEndCommandBuffer _ ret => ret != VK_SUCCESS
  | _ => false

/-- A `vkQueueSubmit` that did not return `VK_SUCCESS`. -/
def Call.isFailedSubmit : Call → Bool
  | .vkQueueSubmit _ _ _ _ _ ret => ret != VK_SUCCESS
  | _ => false

/-- The swapchain was recreated between the two states: a `vkCreateSwapchainKHR` call was
made (every `recreateSwapChain` makes one, through `createSwapChain`). -/
def recreated (before after : ImguiVulkanHelper) : Bool :=
  (callsDuring before after).any Call.isCreateSwapchain

/-- The command buffers freed by a call. -/
def Call.freedCommandBuffers : Call → List Handle
  | .vkFreeCommandBuffers _ commandBuffers => commandBuffers
  | _ => []

/-- The buffers created (successfully) by a call. -/
def Call.createdBuffers : Call → List Handle
  | .vkCreateBuffer _ _ ret buffer => if ret = VK_SUCCESS then [buffer] else []
  | _ => []

/-- The buffers destroyed by a call. -/
def Call.destroyedBuffers : Call → List Handle
  | .vkDestroyBuffer buffer => [buffer]
  | _ => []

/-- The images created (successfully) by a call. -/
def Call.createdImages : Call → List Handle
  | .vkCreateImage _ _ _ _ _ ret image => if ret = VK_SUCCESS then [image] else []
  | _ => []

/-- The images destroyed by a call. -/
def Call.destroyedImages : Call → List Handle
  | .vkDestroyImage image => [image]
  | _ => []

/-- The memory objects allocated (successfully) by a call. -/
def Call.allocatedMemory : Call → List Handle
  | .vkAllocateMemory _ _ ret memory => if ret = VK_SUCCESS then [memory] else []
  | _ => []

/-- The memory objects freed by a call. -/
def Call.freedMemory : Call → List Handle
  | .vkFreeMemory memory => [memory]
  | _ => []

/-- The buffers or images bound to memory by a call. -/
def Call.boundObjects : Call → List Handle
  | .vkBindBufferMemory buffer _ => [buffer]
  | .vkBindImageMemory image _ => [image]
  | _ => []

/-- A step of the swapchain rebuild that leaves the frame fields alone: `currentFrame`,
`framebufferResized` and `imageCount` are kept and only rebuild calls are logged. -/
def Quiet (s t : ImguiVulkanHelper) : Prop :=
  t.currentFrame = s.currentFrame ∧ t.framebufferResized = s.framebufferResized ∧
  t.imageCount = s.imageCount ∧
  ∃ new, t.calls = s.calls ++ new ∧ ∀ c ∈ new, c.isSwapChainRebuild = true

/-- The calls of one `drawFrame` in which nothing fails and nothing is recreated, in the order
of the source: acquire, fence wait, begin, render pass begin, draw data, render pass end,
end, fence reset, submit, present.  Every call of `drawFrame` logs an initial segment of this
list, followed by the calls of `recreateSwapChain` when it recreates. -/
def frameCalls (env : DrawFrameEnv) (s : ImguiVulkanHelper) : List Call :=
  let cb := at_ s.commandBuffers s.currentFrame
  [ .vkAcquireNextImageKHR s.swapChain (at_ s.imageAvailableSemaphores s.currentFrame)
      env.acquireRet env.imageIndex,
    .vkWaitForFences (at_ s.swapChainImageFences s.currentFrame),
    .vkBeginCommandBuffer cb env.beginRet,
    .vkCmdBeginRenderPass cb s.renderPass (at_ s.swapChainFramebuffers s.currentFrame)
      s.swapChainExtent,
    .ImGui_ImplVulkan_RenderDrawData cb,
    .vkCmdEndRenderPass cb,
    .vkEndCommandBuffer cb env.endRet,
    .vkResetFences (at_ s.swapChainImageFences s.currentFrame),
    .vkQueueSubmit s.graphicsQueue [at_ s.imageAvailableSemaphores s.currentFrame] [cb]
      [at_ s.renderFinishedSemaphores s.currentFrame]
      (at_ s.swapChainImageFences s.currentFrame) env.submitRet,
    .vkQueuePresentKHR s.presentQueue [at_ s.renderFinishedSemaphores s.currentFrame]
      s.swapChain env.imageIndex env.presentRet ]

/-- Whether `framebufferResizeCallback` ran in one of the turns the wait loop of
`recreateSwapChain` goes through, entered with the size last read. -/
def waitLoopResized : List WaitRound → Int × Int → Bool
  | [], _ => false
  | round :: rest, size =>
    if size.1 = 0 ∨ size.2 = 0 then round.resized || waitLoopResized rest round.framebufferSize
    else false

/-- Whether the resize callback ran while this `recreateSwapChain` waited for a framebuffer of
non-zero size. -/
def RecreateEnv.resizedWhileWaiting (env : RecreateEnv) : Bool :=
  waitLoopResized env.waitRounds env.firstSize

/-- Whether the wait loop, entered with the size last read, ends within the listed turns: a
size that is non-zero in both components is read. -/
def waitLoopEnds : List WaitRound → Int × Int → Bool
  | [], size => !(decide (size.1 = 0) || decide (size.2 = 0))
  | round :: rest, size =>
    if size.1 = 0 ∨ size.2 = 0 then waitLoopEnds rest round.framebufferSize else true

/-- The wait of this `recreateSwapChain` ends: the call returns. -/
def RecreateEnv.waitEnds (env : RecreateEnv) : Bool :=
  waitLoopEnds env.waitRounds env.firstSize

/-- The image count in force after a `recreateSwapChain`: the number of images of the new
swapchain, or the old count when `vkCreateSwapchainKHR` failed. -/
def imageCountAfterRecreate (env : RecreateEnv) (s : ImguiVulkanHelper) : Nat :=
  if env.swapChain.createRet = VK_SUCCESS then env.swapChain.images.length else s.imageCount

/-- The ways through one `drawFrame`. -/
inductive FramePath where
  | acquireOutOfDate
  | acquireError
  | beginFailed
  | endFailed
  | submitFailed
  | presentRecreate
  | presented
deriving DecidableEq, Repr

/-- What one way through `drawFrame` leaves behind: the frame fields and the calls logged. -/
def FramePath.Holds (env : DrawFrameEnv) (s t : ImguiVulkanHelper) : FramePath → Prop
  | .acquireOutOfDate =>
    env.acquireRet = VK_ERROR_OUT_OF_DATE_KHR ∧
    t.currentFrame = 0 ∧
    t.framebufferResized = (s.framebufferResized || env.recreate.resizedWhileWaiting) ∧
    t.imageCount = imageCountAfterRecreate env.recreate s ∧
    ∃ new, callsDuring s t = (frameCalls env s).take 1 ++ new ∧
      (∀ c ∈ new, c.isSwapChainRebuild = true) ∧ new.any Call.isCreateSwapchain = true
  | .acquireError =>
    env.acquireRet ≠ VK_ERROR_OUT_OF_DATE_KHR ∧ env.acquireRet ≠ VK_SUCCESS ∧
    env.acquireRet ≠ VK_SUBOPTIMAL_KHR ∧
    t.currentFrame = s.currentFrame ∧ t.framebufferResized = s.framebufferResized ∧
    t.imageCount = s.imageCount ∧ callsDuring s t = (frameCalls env s).take 1
  | .beginFailed =>
    (env.acquireRet = VK_SUCCESS ∨ env.acquireRet = VK_SUBOPTIMAL_KHR) ∧
    env.beginRet ≠ VK_SUCCESS ∧
    t.currentFrame = (s.currentFrame + 1) % 2 ^ 32 % s.imageCount ∧
    t.framebufferResized = s.framebufferResized ∧
    t.imageCount = s.imageCount ∧ callsDuring s t = (frameCalls env s).take 3
  | .endFailed =>
    (env.acquireRet = VK_SUCCESS ∨ env.acquireRet = VK_SUBOPTIMAL_KHR) ∧
    env.beginRet = VK_SUCCESS ∧ env.endRet ≠ VK_SUCCESS ∧
    t.currentFrame = (s.currentFrame + 1) % 2 ^ 32 % s.imageCount ∧
    t.framebufferResized = s.framebufferResized ∧
    t.imageCount = s.imageCount ∧ callsDuring s t = (frameCalls env s).take 7
  | .submitFailed =>
    (env.acquireRet = VK_SUCCESS ∨ env.acquireRet = VK_SUBOPTIMAL_KHR) ∧
    env.beginRet = VK_SUCCESS ∧ env.endRet = VK_SUCCESS ∧ env.submitRet ≠ VK_SUCCESS ∧
    t.currentFrame = (s.currentFrame + 1) % 2 ^ 32 % s.imageCount ∧
    t.framebufferResized = s.framebufferResized ∧
    t.imageCount = s.imageCount ∧ callsDuring s t = (frameCalls env s).take 9
  | .presentRecreate =>
    (env.acquireRet = VK_SUCCESS ∨ env.acquireRet = VK_SUBOPTIMAL_KHR) ∧
    env.beginRet = VK_SUCCESS ∧ env.endRet = VK_SUCCESS ∧ env.submitRet = VK_SUCCESS ∧
    (env.presentRet = VK_ERROR_OUT_OF_DATE_KHR ∨ env.presentRet = VK_SUBOPTIMAL_KHR ∨
      s.framebufferResized = true) ∧
    t.currentFrame = 0 ∧ t.framebufferResized = env.recreate.resizedWhileWaiting ∧
    t.imageCount = imageCountAfterRecreate env.recreate s ∧
    ∃ new, callsDuring s t = frameCalls env s ++ new ∧
      (∀ c ∈ new, c.isSwapChainRebuild = true) ∧ new.any Call.isCreateSwapchain = true
  | .presented =>
    (env.acquireRet = VK_SUCCESS ∨ env.acquireRet = VK_SUBOPTIMAL_KHR) ∧
    env.beginRet = VK_SUCCESS ∧ env.endRet = VK_SUCCESS ∧ env.submitRet = VK_SUCCESS ∧
    env.presentRet ≠ VK_ERROR_OUT_OF_DATE_KHR ∧ env.presentRet ≠ VK_SUBOPTIMAL_KHR ∧
    s.framebufferResized = false ∧
    t.currentFrame = (s.currentFrame + 1) % 2 ^ 32 % s.imageCount ∧
    t.framebufferResized = s.framebufferResized ∧
    t.imageCount = s.imageCount ∧ callsDuring s t = frameCalls env s

/-- Memory type `i` of the reported list is compatible with a request: bit `i` of the type
filter is set and the type has every required property flag. -/
def compatibleMemoryType (memoryTypes : List VkMemoryType) (typeFilter properties i : Nat) :
    Prop :=
  ∃ t, memoryTypes[i]? = some t ∧ typeFilter.testBit i = true ∧
    ∀ b, properties.testBit b = true → t.propertyFlags.testBit b = true

/-- The two layout transitions that `transitionImageLayout` supports. -/
def supportedTransition (oldLayout newLayout : Nat) : Prop :=
  (oldLayout = VK_IMAGE_LAYOUT_UNDEFINED ∧ newLayout = VK_IMAGE_LAYOUT_TRANSFER_DST_OPTIMAL) ∨
  (oldLayout = VK_IMAGE_LAYOUT_TRANSFER_DST_OPTIMAL ∧
    newLayout = VK_IMAGE_LAYOUT_SHADER_READ_ONLY_OPTIMAL)

instance (oldLayout newLayout : Nat) : Decidable (supportedTransition oldLayout newLayout) :=
  inferInstanceAs (Decidable (_ ∨ _))

/-- A wait for a queue to go idle. -/
def Call.isQueueWaitIdle : Call → Bool
  | .vkQueueWaitIdle _ _ => true
  | _ => false

/-- The format `chooseSwapSurfaceFormat` prefers: 8-bit BGRA sRGB in the non-linear sRGB
colour space. -/
def VkSurfaceFormatKHR.isPreferred (f : VkSurfaceFormatKHR) : Prop :=
  f.format = VK_FORMAT_B8G8R8A8_SRGB ∧ f.colorSpace = VK_COLOR_SPACE_SRGB_NONLINEAR_KHR

instance (f : VkSurfaceFormatKHR) : Decidable f.isPreferred :=
  inferInstanceAs (Decidable (_ ∧ _))

/-- A surface that leaves the extent to the swapchain (current extent undefined) and allows
between 2 and 3 images of 1x1 up to 4096x4096. -/
def undefinedExtentCapabilities : VkSurfaceCapabilitiesKHR :=
  { minImageCount := 2, maxImageCount := 3, currentExtent := ⟨UINT32_MAX, UINT32_MAX⟩,
    minImageExtent := ⟨1, 1⟩, maxImageExtent := ⟨4096, 4096⟩, currentTransform := 1 }

/-- The surface of `undefinedExtentCapabilities`, except that only the width of the current
extent is `0xFFFFFFFF`: the current extent (0xFFFFFFFF, 600) is not the undefined extent. -/
def widthOnlyUndefinedCapabilities : VkSurfaceCapabilitiesKHR :=
  { undefinedExtentCapabilities with currentExtent := ⟨UINT32_MAX, 600⟩ }

/-- A surface whose minimum image count is the largest `uint32_t` and that declares no
maximum. -/
def wrappingCountCapabilities : VkSurfaceCapabilitiesKHR :=
  { minImageCount := UINT32_MAX, maxImageCount := 0, currentExtent := ⟨640, 480⟩,
    minImageExtent := ⟨1, 1⟩, maxImageExtent := ⟨4096, 4096⟩, currentTransform := 1 }

/-- A `vkCreateDevice` call. -/
def Call.isCreateDevice : Call → Bool
  | .vkCreateDevice _ _ _ _ => true
  | _ => false

/-- The logical devices created (successfully) by a call. -/
def Call.createdDevices : Call → List Handle
  | .vkCreateDevice _ _ ret device => if ret = VK_SUCCESS then [device] else []
  | _ => []

/-- The image views created (successfully) by a call. -/
def Call.createdImageViews : Call → List Handle
  | .vkCreateImageView _ _ ret view => if ret = VK_SUCCESS then [view] else []
  | _ => []

/-- The image views destroyed by a call. -/
def Call.destroyedImageViews : Call → List Handle
  | .vkDestroyImageView view => [view]
  | _ => []

/-- The samplers created (successfully) by a call. -/
def Call.createdSamplers : Call → List Handle
  | .vkCreateSampler ret sampler => if ret = VK_SUCCESS then [sampler] else []
  | _ => []

/-- The samplers destroyed by a call. -/
def Call.destroyedSamplers : Call → List Handle
  | .vkDestroySampler sampler => [sampler]
  | _ => []

/-- Every step of a `createBuffer` or `createImage` succeeds, for the requested memory
properties: the object is created, a memory type is found, the memory is allocated. -/
def CreateEnv.succeeds (env : CreateEnv) (properties : Nat) : Prop :=
  env.createRet = VK_SUCCESS ∧
  findMemoryType env.memoryTypes env.memRequirements.memoryTypeBits properties ≠
    BAD_MEMORY_TYPE ∧
  env.allocateRet = VK_SUCCESS

instance (env : CreateEnv) (properties : Nat) : Decidable (env.succeeds properties) :=
  inferInstanceAs (Decidable (_ ∧ _))

/-- Every step of a one-shot command buffer succeeds, and the command buffer allocated is not
the null handle. -/
def OneShotEnv.succeeds (env : OneShotEnv) : Prop :=
  env.allocateRet = VK_SUCCESS ∧ env.commandBuffer ≠ VK_NULL_HANDLE ∧
  env.beginRet = VK_SUCCESS ∧ env.endRet = VK_SUCCESS ∧ env.submitRet = VK_SUCCESS ∧
  env.waitIdleRet = VK_SUCCESS

instance (env : OneShotEnv) : Decidable env.succeeds :=
  inferInstanceAs (Decidable (_ ∧ _))

/-- Every step of `loadImage` after the decoding succeeds: staging buffer, image, the two
transitions and the copy, the view (not null), the sampler and the registration (not
`NULL`). -/
def LoadImageEnv.laterStepsSucceed (env : LoadImageEnv) : Prop :=
  env.staging.succeeds
    (VK_MEMORY_PROPERTY_HOST_VISIBLE_BIT ||| VK_MEMORY_PROPERTY_HOST_COHERENT_BIT) ∧
  env.image.succeeds VK_MEMORY_PROPERTY_DEVICE_LOCAL_BIT ∧
  env.toTransferDst.succeeds ∧ env.copy.succeeds ∧ env.toShaderRead.succeeds ∧
  env.imageView.1 = VK_SUCCESS ∧ env.imageView.2 ≠ VK_NULL_HANDLE ∧
  env.samplerRet = VK_SUCCESS ∧ env.textureId ≠ 0

instance (env : LoadImageEnv) : Decidable env.laterStepsSucceed :=
  inferInstanceAs (Decidable (_ ∧ _))

/-- The ten creation steps of `initVulkan`, in the order of the source. -/
def initVulkan.steps (env : InitEnv) : List (ImguiVulkanHelper → Bool × ImguiVulkanHelper) :=
  [createInstance env.instance_, createDevice env.device, createSwapChain env.swapChain,
    createImageViews env.imageViews, createRenderPass env.renderPass,
    createFramebuffers env.framebuffers,
    createCommandPool env.swapChain.queueFamilies env.commandPool,
    createDescriptorPool env.descriptorPool, createCommandBuffers env.commandBuffers,
    createSyncObjects env.sync]

/-- The state after the given steps have all been run, one after the other, whatever they
return. -/
def runSteps : List (ImguiVulkanHelper → Bool × ImguiVulkanHelper) → ImguiVulkanHelper →
    ImguiVulkanHelper
  | [], s => s
  | step :: rest, s => runSteps rest (step s).2

/-- What the specification says of session setup: the steps are run in order; the first
one that fails ends the run with the result false and no later step is run; the result is
true when none fails. -/
def runUntilFailure : List (ImguiVulkanHelper → Bool × ImguiVulkanHelper) →
    ImguiVulkanHelper → Bool × ImguiVulkanHelper
  | [], s => (true, s)
  | step :: rest, s =>
    if (step s).1 = false then (false, (step s).2) else runUntilFailure rest (step s).2

/-- A call that destroys or frees an object. -/
def Call.isDestroy : Call → Bool
  | .vkDestroySwapchainKHR _ => true
  | .vkDestroyImageView _ => true
  | .vkDestroyFramebuffer _ => true
  | .vkFreeCommandBuffers _ _ => true
  | .vkDestroyBuffer _ => true
  | .vkDestroyImage _ => true
  | .vkFreeMemory _ => true
  | .vkDestroySampler _ => true
  | .vkDestroyRenderPass _ => true
  | .vkDestroyDescriptorPool _ => true
  | .vkDestroySemaphore _ => true
  | .vkDestroyFence _ => true
  | .vkDestroyCommandPool _ => true
  | .vkDestroyDevice _ => true
  | .vkDestroySurfaceKHR _ _ => true
  | .vkDestroyDebugUtilsMessengerEXT _ _ => true
  | .vkDestroyInstance _ => true
  | .glfwDestroyWindow _ => true
  | .glfwTerminate => true
  | _ => false

/-- The calls that destroy the swapchain-derived objects of a state, in the order of
`cleanupSwapChain`: its framebuffers, its per-image command buffers, its image views and its
swapchain. -/
def swapChainDestroyCalls (s : ImguiVulkanHelper) : List Call :=
  s.swapChainFramebuffers.map (fun fb => Call.vkDestroyFramebuffer fb) ++
  [.vkFreeCommandBuffers s.commandPool
    (s.commandBuffers.take (s.commandBuffers.length % 2 ^ 32))] ++
  s.swapChainImageViews.map (fun imageView => Call.vkDestroyImageView imageView) ++
  [.vkDestroySwapchainKHR s.swapChain]

/-- The members of the session that are not derived from the swapchain. -/
def sessionMembers (s : ImguiVulkanHelper) :=
  (s.terminated, s.window, s.instance_, s.debugMessenger, s.surface, s.physicalDevice, s.device,
    s.graphicsQueue, s.presentQueue, s.renderPass, s.descriptorPool, s.commandPool,
    s.imageAvailableSemaphores, s.renderFinishedSemaphores, s.swapChainImageFences,
    s.userTextureImages)

/-- A step that keeps every member outside the swapchain and destroys nothing: only calls that
are not destroy calls are logged. -/
def Keeps (s t : ImguiVulkanHelper) : Prop :=
  sessionMembers t = sessionMembers s ∧
  ∃ new, t.calls = s.calls ++ new ∧ ∀ c ∈ new, c.isDestroy = false

/-- The four calls by which `cleanup` destroys one registered texture. -/
def textureDestroyCalls (uti : UserTextureImage) : List Call :=
  [.vkDestroySampler uti.sampler, .vkDestroyImageView uti.imageView,
    .vkDestroyImage uti.image, .vkFreeMemory uti.imageMemory]

/-- The semaphores destroyed by a call. -/
def Call.destroyedSemaphores : Call → List Handle
  | .vkDestroySemaphore semaphore => [semaphore]
  | _ => []

/-- The fences destroyed by a call. -/
def Call.destroyedFences : Call → List Handle
  | .vkDestroyFence fence => [fence]
  | _ => []

/-- What is known of a fence from the calls made so far. -/
inductive FenceStatus where
  /-- the fence is signaled -/
  | signaled
  /-- the fence is unsignaled and a submitted workload will signal it -/
  | pending
  /-- the fence is unsignaled and nothing that would signal it has been submitted -/
  | unsignaled
deriving DecidableEq, Repr

/-- The effect of one call on the status of `fence`: `vkCreateFence` gives the initial status,
`vkResetFences` unsignals, a successful `vkQueueSubmit` that is given the fence leaves a
workload pending, and a `vkWaitForFences` returns once the pending workload has signaled the
fence (on an unsignaled fence with nothing pending it does not return, and the status
stays). -/
def FenceStatus.step (fence : Handle) (status : Option FenceStatus) : Call → Option FenceStatus
  | .vkCreateFence createSignaled ret created =>
    if created = fence ∧ ret = VK_SUCCESS then
      some (if createSignaled then .signaled else .unsignaled)
    else status
  | .vkResetFences f => if f = fence then some .unsignaled else status
  | .vkQueueSubmit _ _ _ _ f ret =>
    if f = fence ∧ ret = VK_SUCCESS then some .pending else status
  | .vkWaitForFences f =>
    if f = fence ∧ status = some .pending then some .signaled else status
  | _ => status

/-- The status of `fence` after the calls of a log; `none` when the log never created it. -/
def fenceStatus (calls : List Call) (fence : Handle) : Option FenceStatus :=
  calls.foldl (FenceStatus.step fence) none

/-- The framebuffers created (successfully) by a call, each with the image view it is built
from. -/
def Call.createdFramebuffers : Call → List (Handle × Handle)
  | .vkCreateFramebuffer _ attachment _ ret framebuffer =>
    if ret = VK_SUCCESS then [(framebuffer, attachment)] else []
  | _ => []

/-- The image views created (successfully) by a call, each with the image it is a view
of. -/
def Call.createdViewsOfImages : Call → List (Handle × Handle)
  | .vkCreateImageView image _ ret view => if ret = VK_SUCCESS then [(view, image)] else []
  | _ => []

/-- The framebuffers that render passes are begun on by a call. -/
def Call.renderTargets : Call → List Handle
  | .vkCmdBeginRenderPass _ _ framebuffer _ => [framebuffer]
  | _ => []

/-- The image indices presented by a call. -/
def Call.presentedIndices : Call → List Nat
  | .vkQueuePresentKHR _ _ _ imageIndex _ => [imageIndex]
  | _ => []

/-- The lengths of the three vectors of sync objects, and the image count. -/
def syncShape (s : ImguiVulkanHelper) : Nat × Nat × Nat × Nat :=
  (s.imageAvailableSemaphores.length, s.renderFinishedSemaphores.length,
    s.swapChainImageFences.length, s.imageCount)

/-- The byte sizes passed by a call that creates a buffer, maps memory or copies pixels. -/
def Call.byteSizes : Call → List Nat
  | .vkCreateBuffer size _ _ _ => [size]
  | .vkMapMemory _ size => [size]
  | .memcpy size => [size]
  | _ => []

/-- A step that only appends calls that pass no byte size. -/
def Sizeless (s t : ImguiVulkanHelper) : Prop :=
  ∃ new, t.calls = s.calls ++ new ∧ new.flatMap Call.byteSizes = []

/-- Every creation call of a `recreateSwapChain` succeeds: the swapchain is created and
reports fewer than `2 ^ 32` images, and for every image index the view is created (with a
handle that is not null) and the framebuffer is created; the command buffers are
allocated. -/
def RecreateEnv.succeeds (env : RecreateEnv) : Prop :=
  env.swapChain.createRet = VK_SUCCESS ∧ env.swapChain.images.length < 2 ^ 32 ∧
  (∀ i, i < env.swapChain.images.length →
    (env.imageViews i).1 = VK_SUCCESS ∧ (env.imageViews i).2 ≠ VK_NULL_HANDLE) ∧
  (∀ i, i < env.swapChain.images.length → (env.framebuffers i).1 = VK_SUCCESS) ∧
  env.commandBuffers.1 = VK_SUCCESS

/-- The command buffers allocated (successfully) by a call. -/
def Call.allocatedCommandBuffers : Call → List Handle
  | .vkAllocateCommandBuffers _ _ ret commandBuffers =>
    if ret = VK_SUCCESS then commandBuffers else []
  | _ => []

/-- The framebuffers destroyed by a call. -/
def Call.destroyedFramebuffers : Call → List Handle
  | .vkDestroyFramebuffer framebuffer => [framebuffer]
  | _ => []

/-- The swapchains created (successfully) by a call. -/
def Call.createdSwapchains : Call → List Handle
  | .vkCreateSwapchainKHR _ ret swapChain => if ret = VK_SUCCESS then [swapChain] else []
  | _ => []

/-- The swapchains destroyed by a call. -/
def Call.destroyedSwapchains : Call → List Handle
  | .vkDestroySwapchainKHR swapChain => [swapChain]
  | _ => []

/-! ## Concrete inputs -/

/-- A session with two swapchain images, at frame slot 0. -/
def sampleHelper : ImguiVulkanHelper :=
  { window := 1, instance_ := 2, debugMessenger := 0, surface := 3, physicalDevice := 4,
    device := 5, graphicsQueue := 6, presentQueue := 6, swapChain := 7,
    swapChainImages := [10, 11], imageCount := 2, swapChainImageFormat := VK_FORMAT_B8G8R8A8_SRGB,
    swapChainExtent := ⟨800, 600⟩, swapChainImageViews := [20, 21], renderPass := 8,
    swapChainFramebuffers := [30, 31], commandPool := 9, descriptorPool := 12,
    commandBuffers := [40, 41], imageAvailableSemaphores := [50, 51],
    renderFinishedSemaphores := [60, 61], swapChainImageFences := [70, 71],
    userTextureImages := [] }

/-- A recreation in which every step succeeds and the new swapchain has three images. -/
def sampleRecreateEnv : RecreateEnv :=
  { firstSize := (640, 480)
    waitRounds := []
    swapChain :=
      { VSYNC := false
        support :=
          { capabilities :=
              { minImageCount := 2, maxImageCount := 3, currentExtent := ⟨640, 480⟩,
                minImageExtent := ⟨1, 1⟩, maxImageExtent := ⟨4096, 4096⟩, currentTransform := 1 }
            formats := [⟨VK_FORMAT_B8G8R8A8_SRGB, VK_COLOR_SPACE_SRGB_NONLINEAR_KHR⟩]
            presentModes := [VK_PRESENT_MODE_FIFO_KHR] }
        framebufferSize := (640, 480)
        queueFamilies := [⟨VK_QUEUE_GRAPHICS_BIT, true⟩]
        createRet := VK_SUCCESS
        swapChain := 107
        images := [110, 111, 112] }
    imageViews := fun i => (VK_SUCCESS, 120 + i)
    framebuffers := fun i => (VK_SUCCESS, 130 + i)
    commandBuffers := (VK_SUCCESS, fun i => 140 + i) }

/-- A device whose family 0 does graphics only and whose family 1 presents only. -/
def splitQueuesEnv : SwapChainEnv :=
  { sampleRecreateEnv.swapChain with
    queueFamilies := [⟨VK_QUEUE_GRAPHICS_BIT, false⟩, ⟨0, true⟩] }

/-- A device with one queue family for graphics and present, the swapchain extension, some
surface formats and present modes, and anisotropic sampling. -/
def sampleDeviceInfo : PhysicalDeviceInfo :=
  { queueFamilies := [⟨VK_QUEUE_GRAPHICS_BIT, true⟩],
    extensions := ["VK_KHR_maintenance1", "VK_KHR_swapchain"],
    swapChainSupport := sampleRecreateEnv.swapChain.support,
    samplerAnisotropy := true }

/-- A device that reports `VK_KHR_swapchain_mutable_format` and does not report
`VK_KHR_swapchain`; everything else is as in `sampleDeviceInfo`. -/
def mutableFormatOnlyDeviceInfo : PhysicalDeviceInfo :=
  { sampleDeviceInfo with extensions := ["VK_KHR_swapchain_mutable_format"] }

/-- A device without anisotropic sampling. -/
def noAnisotropyDeviceInfo : PhysicalDeviceInfo :=
  { sampleDeviceInfo with samplerAnisotropy := false }

/-- A session after `initWindow` and `createInstance`, before `createDevice`: no physical
device is selected and nothing else exists yet. -/
def freshHelper : ImguiVulkanHelper :=
  { window := 1, instance_ := 2, debugMessenger := 0, surface := 0,
    physicalDevice := VK_NULL_HANDLE, device := 0, graphicsQueue := 0, presentQueue := 0,
    swapChain := 0, swapChainImages := [], imageCount := 0, swapChainImageFormat := 0,
    swapChainExtent := ⟨0, 0⟩, swapChainImageViews := [], renderPass := 0,
    swapChainFramebuffers := [], commandPool := 0, descriptorPool := 0, commandBuffers := [],
    imageAvailableSemaphores := [], renderFinishedSemaphores := [], swapChainImageFences := [],
    userTextureImages := [] }

/-- Three physical devices 4, 14 and 24: the first has no anisotropic sampling, the other
two are suitable; surface and logical device creation succeed. -/
def sampleDeviceEnv : DeviceEnv :=
  { surfaceRet := VK_SUCCESS, surface := 3, devices := [4, 14, 24],
    info := fun device => if device = 4 then noAnisotropyDeviceInfo else sampleDeviceInfo,
    createRet := VK_SUCCESS, device := 5, queue := fun _ => 6 }

/-- The environment `sampleDeviceEnv`, except that `vkCreateDevice` fails with
`VK_ERROR_INITIALIZATION_FAILED`. -/
def createDeviceFailsEnv : DeviceEnv :=
  { sampleDeviceEnv with createRet := -3 }

/-- A frame in which every call succeeds. -/
def sampleFrameEnv : DrawFrameEnv :=
  { acquireRet := VK_SUCCESS, imageIndex := 0, beginRet := VK_SUCCESS, endRet := VK_SUCCESS,
    submitRet := VK_SUCCESS, presentRet := VK_SUCCESS, recreate := sampleRecreateEnv }

/-- A frame whose acquire reports that the swapchain is out of date. -/
def outOfDateFrameEnv : DrawFrameEnv :=
  { sampleFrameEnv with acquireRet := VK_ERROR_OUT_OF_DATE_KHR }

/-- A frame whose acquire fails with `VK_ERROR_DEVICE_LOST`. -/
def deviceLostFrameEnv : DrawFrameEnv :=
  { sampleFrameEnv with acquireRet := VK_ERROR_DEVICE_LOST }

/-- A frame whose present reports a suboptimal swapchain. -/
def suboptimalPresentFrameEnv : DrawFrameEnv :=
  { sampleFrameEnv with presentRet := VK_SUBOPTIMAL_KHR }

/-- A frame whose queue submit fails. -/
def submitFailedFrameEnv : DrawFrameEnv :=
  { sampleFrameEnv with submitRet := VK_ERROR_DEVICE_LOST }

/-- A run of four frames: one that succeeds, one whose acquire is out of date, one whose
submit fails, and one drawn after the resize callback ran. -/
def sampleRun : List FrameStep :=
  [⟨false, sampleFrameEnv⟩, ⟨false, outOfDateFrameEnv⟩, ⟨false, submitFailedFrameEnv⟩,
    ⟨true, sampleFrameEnv⟩]

/-- A one-shot command buffer for which every call succeeds. -/
def sampleOneShotEnv : OneShotEnv :=
  { allocateRet := VK_SUCCESS, commandBuffer := 300, beginRet := VK_SUCCESS,
    endRet := VK_SUCCESS, submitRet := VK_SUCCESS, waitIdleRet := VK_SUCCESS }

/-- A device with a device-local and a host-visible, host-coherent memory type, on which the
creation of an object with handle 200 and the allocation of its memory 201 succeed. -/
def sampleCreateEnv : CreateEnv :=
  { createRet := VK_SUCCESS, object := 200,
    memRequirements := { size := 16, alignment := 4, memoryTypeBits := 3 },
    memoryTypes := [{ propertyFlags := 1, heapIndex := 0 }, { propertyFlags := 6, heapIndex := 1 }],
    allocateRet := VK_SUCCESS, memory := 201 }

/-- A load of a 2x2 image in which every step succeeds: staging buffer 200 with memory 201,
image 210 with memory 211, view 220, sampler 230, texture identifier 240.  The locals that
are read before they are written hold null. -/
def sampleLoadImageEnv : LoadImageEnv :=
  { decoded := some (2, 2),
    staging := sampleCreateEnv,
    image := { sampleCreateEnv with object := 210, memory := 211 },
    toTransferDst := sampleOneShotEnv,
    copy := { sampleOneShotEnv with commandBuffer := 301 },
    toShaderRead := { sampleOneShotEnv with commandBuffer := 302 },
    imageView := (VK_SUCCESS, 220),
    samplerRet := VK_SUCCESS, sampler := 230, textureId := 240,
    stagingBuffer0 := 0, stagingBufferMemory0 := 0, textureImage0 := 0,
    textureImageMemory0 := 0, textureImageView0 := 0, textureSampler0 := 0 }

/-- The device of `sampleCreateEnv` (memory type 0 device-local, memory type 1 host-visible
and host-coherent) answering for a buffer that may live in memory type 0 only
(`memoryTypeBits = 1`): the buffer 200 is created, and no admitted type is host-visible. -/
def hostVisibleExcludedEnv : CreateEnv :=
  { sampleCreateEnv with memRequirements := { size := 16, alignment := 4, memoryTypeBits := 1 } }

/-- The device of `sampleCreateEnv` answering for an image that may live in memory type 1 only
(`memoryTypeBits = 2`): the image 210 is created, and no admitted type is device-local. -/
def deviceLocalExcludedEnv : CreateEnv :=
  { sampleCreateEnv with
    object := 210
    memRequirements := { size := 16, alignment := 4, memoryTypeBits := 2 } }

/-- The load of `sampleLoadImageEnv`, except that the staging buffer may live in the
device-local memory type only (`hostVisibleExcludedEnv`). -/
def stagingTypeExcludedEnv : LoadImageEnv :=
  { sampleLoadImageEnv with staging := hostVisibleExcludedEnv }

/-- The load of `sampleLoadImageEnv`, except that the memory of the texture image cannot be
allocated (`VK_ERROR_OUT_OF_DEVICE_MEMORY`). -/
def imageMemoryFailsEnv : LoadImageEnv :=
  { sampleLoadImageEnv with
    image := { sampleCreateEnv with object := 210, memory := 211, allocateRet := -2 } }

/-- The load of `sampleLoadImageEnv`, except that the file cannot be decoded. -/
def undecodableEnv : LoadImageEnv :=
  { sampleLoadImageEnv with decoded := none }

/-- The load of `sampleLoadImageEnv`, except that the texture image cannot be created and
that two of the locals read at the label `out` hold stale non-null values. -/
def staleLocalsEnv : LoadImageEnv :=
  { sampleLoadImageEnv with
    image := { sampleCreateEnv with createRet := -2, object := 210, memory := 211 },
    textureImageView0 := 999, textureSampler0 := 998 }

/-- A session after `initWindow`, before `initVulkan`: only the window exists. -/
def windowOnlyHelper : ImguiVulkanHelper :=
  { freshHelper with instance_ := 0 }

/-- A release build (no `DEBUG`) in which every step of `initVulkan` succeeds: instance 2,
messenger 99, physical device 14, device 5, one queue 6, swapchain 7 with the two images 10
and 11, views 20 and 21, render pass 8, framebuffers 30 and 31, command pool 9, descriptor
pool 12, command buffers 40 and 41, semaphores 50, 51, 60, 61 and fences 70, 71. -/
def sampleInitEnv : InitEnv :=
  { instance_ :=
      { DEBUG := false, glfwExtensions := ["VK_KHR_surface", "VK_KHR_xcb_surface"],
        availableLayers := [], createRet := VK_SUCCESS, instance_ := 2,
        messengerEntryPoint := true, messengerRet := VK_SUCCESS, debugMessenger := 99 }
    device := sampleDeviceEnv
    swapChain :=
      { VSYNC := false
        support :=
          { capabilities :=
              { minImageCount := 1, maxImageCount := 2, currentExtent := ⟨800, 600⟩,
                minImageExtent := ⟨1, 1⟩, maxImageExtent := ⟨4096, 4096⟩, currentTransform := 1 }
            formats := [⟨VK_FORMAT_B8G8R8A8_SRGB, VK_COLOR_SPACE_SRGB_NONLINEAR_KHR⟩]
            presentModes := [VK_PRESENT_MODE_FIFO_KHR] }
        framebufferSize := (800, 600)
        queueFamilies := [⟨VK_QUEUE_GRAPHICS_BIT, true⟩]
        createRet := VK_SUCCESS
        swapChain := 7
        images := [10, 11] }
    imageViews := fun i => (VK_SUCCESS, 20 + i)
    renderPass := (VK_SUCCESS, 8)
    framebuffers := fun i => (VK_SUCCESS, 30 + i)
    commandPool := (VK_SUCCESS, 9)
    descriptorPool := (VK_SUCCESS, 12)
    commandBuffers := (VK_SUCCESS, fun i => 40 + i)
    sync :=
      { imageAvailable := fun i => (VK_SUCCESS, 50 + i)
        renderFinished := fun i => (VK_SUCCESS, 60 + i)
        fences := fun i => (VK_SUCCESS, 70 + i) } }

/-- The setup of `sampleInitEnv`, except that `vkCreateRenderPass` fails. -/
def renderPassFailsInitEnv : InitEnv :=
  { sampleInitEnv with renderPass := (-1, 0) }

/-- The instance creation of `sampleInitEnv` (a release build, `vkCreateInstance` succeeds),
except that `vkGetInstanceProcAddr` returns a null pointer for
`vkCreateDebugUtilsMessengerEXT`, as it does on an instance without `VK_EXT_debug_utils`. -/
def noMessengerEntryPointEnv : InstanceEnv :=
  { sampleInitEnv.instance_ with messengerEntryPoint := false }

/-- The session `sampleHelper` with two registered textures. -/
def texturedHelper : ImguiVulkanHelper :=
  { sampleHelper with userTextureImages := [⟨210, 211, 220, 230⟩, ⟨310, 311, 320, 330⟩] }

/-- The session that `initVulkan` leaves on `sampleInitEnv`: two swapchain images, frame
slot 0, with the log of the setup. -/
def initialisedHelper : ImguiVulkanHelper :=
  (initVulkan sampleInitEnv windowOnlyHelper).2

/-- A recreation as in `sampleRecreateEnv` on a minimised window: the first size read is
0 x 0; in the first turn of the wait loop the size read is still 0 x 0 and the window is
restored while `glfwWaitEvents` blocks, which runs the resize callback; the second turn
reads 640 x 480 and its `glfwWaitEvents` returns on an event that is not a resize. -/
def minimisedRecreateEnv : RecreateEnv :=
  { sampleRecreateEnv with
    firstSize := (0, 0)
    waitRounds := [⟨(0, 0), true⟩, ⟨(640, 480), false⟩] }

/-- A frame in which every call succeeds, the present reports an out-of-date swapchain and
the window is minimised when the swapchain is recreated (`minimisedRecreateEnv`). -/
def minimisedPresentFrameEnv : DrawFrameEnv :=
  { acquireRet := VK_SUCCESS, imageIndex := 0, beginRet := VK_SUCCESS, endRet := VK_SUCCESS,
    submitRet := VK_SUCCESS, presentRet := VK_ERROR_OUT_OF_DATE_KHR,
    recreate := minimisedRecreateEnv }

/-- A frame in which every call succeeds and the acquire returns image index 1. -/
def secondImageFrameEnv : DrawFrameEnv :=
  { sampleFrameEnv with imageIndex := 1 }

/-- A recreation as in `sampleRecreateEnv` (three images), except that the first
`vkCreateImageView` fails with `VK_ERROR_OUT_OF_HOST_MEMORY`. -/
def viewFailsRecreateEnv : RecreateEnv :=
  { sampleRecreateEnv with
    imageViews := fun i => if i = 0 then (-1, 0) else (VK_SUCCESS, 120 + i) }

/-- A recreation in which every step succeeds and the new swapchain 207 has the two images
210 and 211, with views 220 and 221, framebuffers 230 and 231 and command buffers 240 and
241. -/
def secondRecreateEnv : RecreateEnv :=
  { firstSize := (640, 480)
    waitRounds := []
    swapChain :=
      { sampleRecreateEnv.swapChain with
        support :=
          { sampleRecreateEnv.swapChain.support with
            capabilities :=
              { sampleRecreateEnv.swapChain.support.capabilities with
                minImageCount := 1, maxImageCount := 2 } }
        swapChain := 207
        images := [210, 211] }
    imageViews := fun i => (VK_SUCCESS, 220 + i)
    framebuffers := fun i => (VK_SUCCESS, 230 + i)
    commandBuffers := (VK_SUCCESS, fun i => 240 + i) }

/-- The load of `sampleLoadImageEnv`, except that the decoder yields a 32768x32768 image. -/
def hugeImageEnv : LoadImageEnv :=
  { sampleLoadImageEnv with decoded := some (32768, 32768) }

/-! ## The log and the frame fields through the swapchain rebuild -/

@[simp] theorem log_calls (s : ImguiVulkanHelper) (c : Call) :
    (s.log c).calls = s.calls ++ [c] := rfl

@[simp] theorem log_currentFrame (s : ImguiVulkanHelper) (c : Call) :
    (s.log c).currentFrame = s.currentFrame := rfl

@[simp] theorem log_framebufferResized (s : ImguiVulkanHelper) (c : Call) :
    (s.log c).framebufferResized = s.framebufferResized := rfl

@[simp] theorem log_imageCount (s : ImguiVulkanHelper) (c : Call) :
    (s.log c).imageCount = s.imageCount := rfl

theorem callsDuring_of_append {s t : ImguiVulkanHelper} {new : List Call}
    (h : t.calls = s.calls ++ new) : callsDuring s t = new := by
  simp [callsDuring, h]

theorem Quiet.refl (s : ImguiVulkanHelper) : Quiet s s :=
  ⟨rfl, rfl, rfl, [], by simp, by simp⟩

theorem Quiet.trans {a b c : ImguiVulkanHelper} (hab : Quiet a b) (hbc : Quiet b c) :
    Quiet a c := by
  obtain ⟨h1, h2, h3, n1, hn1, hp1⟩ := hab
  obtain ⟨k1, k2, k3, n2, hn2, hp2⟩ := hbc
  refine ⟨k1.trans h1, k2.trans h2, k3.trans h3, n1 ++ n2, ?_, ?_⟩
  · rw [hn2, hn1, List.append_assoc]
  · intro c hc
    rcases List.mem_append.1 hc with h | h
    · exact hp1 c h
    · exact hp2 c h

theorem Quiet.log (s : ImguiVulkanHelper) (c : Call) (hc : c.isSwapChainRebuild = true) :
    Quiet s (s.log c) :=
  ⟨rfl, rfl, rfl, [c], rfl, by simpa using hc⟩

theorem Quiet.foldl_log (f : Handle → Call) (hf : ∀ h, (f h).isSwapChainRebuild = true) :
    ∀ (l : List Handle) (s : ImguiVulkanHelper),
      Quiet s (l.foldl (fun st h => st.log (f h)) s) := by
  intro l
  induction l with
  | nil => intro s; exact Quiet.refl s
  | cons h rest ih =>
    intro s
    exact (Quiet.log s (f h) (hf h)).trans (ih (s.log (f h)))

theorem cleanupSwapChain_quiet (s : ImguiVulkanHelper) : Quiet s (cleanupSwapChain s) := by
  unfold cleanupSwapChain
  dsimp only
  refine Quiet.trans ?_ (Quiet.log _ _ (by rfl))
  refine Quiet.trans ?_ (Quiet.foldl_log (fun v => .vkDestroyImageView v) (fun _ => rfl) _ _)
  refine Quiet.trans ?_ (Quiet.log _ _ (by rfl))
  exact Quiet.foldl_log (fun fb => .vkDestroyFramebuffer fb) (fun _ => rfl) _ _

theorem createImageViews_loop_quiet (ans : Nat → VkResult × Handle) :
    ∀ (n i : Nat) (s : ImguiVulkanHelper), Quiet s (createImageViews.loop ans n i s).2 := by
  intro n
  induction n with
  | zero => intro i s; exact Quiet.refl s
  | succ n ih =>
    intro i s
    have hstep : Quiet s
        { (createImageView (ans i) (at_ s.swapChainImages i) s.swapChainImageFormat s).2 with
          swapChainImageViews :=
            (createImageView (ans i) (at_ s.swapChainImages i)
              s.swapChainImageFormat s).2.swapChainImageViews.set i
              (createImageView (ans i) (at_ s.swapChainImages i) s.swapChainImageFormat s).1 } := by
      unfold createImageView
      by_cases h : (ans i).1 ≠ VK_SUCCESS
      · simp only [if_pos h]
        exact ⟨rfl, rfl, rfl, [_], rfl, by simp [Call.isSwapChainRebuild]⟩
      · simp only [if_neg h]
        exact ⟨rfl, rfl, rfl, [_], rfl, by simp [Call.isSwapChainRebuild]⟩
    unfold createImageViews.loop
    simp only
    split
    · exact hstep
    · exact hstep.trans (ih _ _)

theorem createImageViews_quiet (ans : Nat → VkResult × Handle) (s : ImguiVulkanHelper) :
    Quiet s (createImageViews ans s).2 := by
  unfold createImageViews
  exact Quiet.trans ⟨rfl, rfl, rfl, [], by simp, by simp⟩ (createImageViews_loop_quiet ans _ _ _)

theorem createFramebuffers_loop_quiet (ans : Nat → VkResult × Handle) :
    ∀ (n i : Nat) (s : ImguiVulkanHelper), Quiet s (createFramebuffers.loop ans n i s).2 := by
  intro n
  induction n with
  | zero => intro i s; exact Quiet.refl s
  | succ n ih =>
    intro i s
    unfold createFramebuffers.loop
    simp only
    split
    · exact Quiet.log _ _ (by rfl)
    · refine Quiet.trans ?_ (ih _ _)
      exact ⟨rfl, rfl, rfl, [_], rfl, by simp [Call.isSwapChainRebuild]⟩

theorem createFramebuffers_quiet (ans : Nat → VkResult × Handle) (s : ImguiVulkanHelper) :
    Quiet s (createFramebuffers ans s).2 := by
  unfold createFramebuffers
  exact Quiet.trans ⟨rfl, rfl, rfl, [], by simp, by simp⟩ (createFramebuffers_loop_quiet ans _ _ _)

theorem createCommandBuffers_quiet (ans : VkResult × (Nat → Handle)) (s : ImguiVulkanHelper) :
    Quiet s (createCommandBuffers ans s).2 := by
  unfold createCommandBuffers
  simp only
  split
  · exact ⟨rfl, rfl, rfl, [_], rfl, by simp [Call.isSwapChainRebuild]⟩
  · exact ⟨rfl, rfl, rfl, [_], rfl, by simp [Call.isSwapChainRebuild]⟩

/-- What `createSwapChain` does to the frame fields and to the log. -/
theorem createSwapChain_frame (env : SwapChainEnv) (s : ImguiVulkanHelper) :
    (createSwapChain env s).2.currentFrame = s.currentFrame ∧
    (createSwapChain env s).2.framebufferResized = s.framebufferResized ∧
    (createSwapChain env s).2.imageCount =
      (if env.createRet = VK_SUCCESS then env.images.length else s.imageCount) ∧
    ∃ new, (createSwapChain env s).2.calls = s.calls ++ new ∧
      (∀ c ∈ new, c.isSwapChainRebuild = true) ∧ new.any Call.isCreateSwapchain = true := by
  unfold createSwapChain
  by_cases h : env.createRet = VK_SUCCESS
  · rw [if_neg (not_not.2 h), if_pos h]
    refine ⟨rfl, rfl, rfl,
      [.vkCreateSwapchainKHR (createSwapChain.createInfo env s) env.createRet env.swapChain,
        .vkGetSwapchainImagesKHR env.swapChain env.images], ?_, ?_, ?_⟩
    · simp [ImguiVulkanHelper.log]
    · simp [Call.isSwapChainRebuild]
    · simp [Call.isCreateSwapchain]
  · rw [if_pos h, if_neg h]
    refine ⟨rfl, rfl, rfl,
      [.vkCreateSwapchainKHR (createSwapChain.createInfo env s) env.createRet env.swapChain],
      rfl, ?_, ?_⟩
    · simp [Call.isSwapChainRebuild]
    · simp [Call.isCreateSwapchain]

/-- A wait entered with a size that is non-zero in both components runs no turn. -/
theorem waitLoopResized_of_first_size (rounds : List WaitRound) (size : Int × Int)
    (h : size.1 ≠ 0 ∧ size.2 ≠ 0) : waitLoopResized rounds size = false := by
  cases rounds with
  | nil => rfl
  | cons round rest =>
    unfold waitLoopResized
    rw [if_neg (by rintro (h1 | h1); exact h.1 h1; exact h.2 h1)]

/-- A wait in whose turns the resize callback never runs. -/
theorem waitLoopResized_of_no_resize (rounds : List WaitRound)
    (h : ∀ round ∈ rounds, round.resized = false) :
    ∀ size : Int × Int, waitLoopResized rounds size = false := by
  induction rounds with
  | nil => intro size; rfl
  | cons round rest ih =>
    intro size
    unfold waitLoopResized
    split
    · rw [h round (List.mem_cons_self _ _), ih (fun r hr => h r (List.mem_cons_of_mem _ hr))]
      rfl
    · rfl

/-- The wait loop of `recreateSwapChain` changes the resize flag only: it is set when the
resize callback ran in one of the turns. -/
theorem recreateSwapChain_wait_eq (rounds : List WaitRound) :
    ∀ (size : Int × Int) (s : ImguiVulkanHelper),
      recreateSwapChain.wait rounds size s =
        { s with framebufferResized := s.framebufferResized || waitLoopResized rounds size } := by
  induction rounds with
  | nil =>
    intro size s
    simp [recreateSwapChain.wait, waitLoopResized]
  | cons round rest ih =>
    intro size s
    unfold recreateSwapChain.wait waitLoopResized
    by_cases hz : size.1 = 0 ∨ size.2 = 0
    · rw [if_pos hz, if_pos hz, ih]
      cases hr : round.resized
      · simp
      · simp [setFramebufferResized]
    · rw [if_neg hz, if_neg hz]
      simp

/-- A `recreateSwapChain` is its rebuild, run on the state in which the wait has ended. -/
theorem recreateSwapChain_after_wait (env : RecreateEnv) (s : ImguiVulkanHelper) :
    recreateSwapChain env s =
      recreateSwapChain { env with waitRounds := [] }
        { s with framebufferResized := s.framebufferResized || env.resizedWhileWaiting } := by
  unfold recreateSwapChain
  dsimp only
  rw [recreateSwapChain_wait_eq]
  rfl

/-- What a `recreateSwapChain` that does not wait does to the frame fields and to the log. -/
theorem recreateSwapChain_frame_no_wait (env : RecreateEnv) (s : ImguiVulkanHelper)
    (hw : env.waitRounds = []) :
    (recreateSwapChain env s).currentFrame = s.currentFrame ∧
    (recreateSwapChain env s).framebufferResized = s.framebufferResized ∧
    (recreateSwapChain env s).imageCount =
      (if env.swapChain.createRet = VK_SUCCESS then env.swapChain.images.length
        else s.imageCount) ∧
    ∃ new, (recreateSwapChain env s).calls = s.calls ++ new ∧
      (∀ c ∈ new, c.isSwapChainRebuild = true) ∧ new.any Call.isCreateSwapchain = true := by
  have h1 : Quiet s (cleanupSwapChain (s.log (.vkDeviceWaitIdle s.device))) :=
    Quiet.trans (Quiet.log s (.vkDeviceWaitIdle s.device) rfl) (cleanupSwapChain_quiet _)
  obtain ⟨c1, c2, c3, n2, hn2, hp2, hany⟩ :=
    createSwapChain_frame env.swapChain (cleanupSwapChain (s.log (.vkDeviceWaitIdle s.device)))
  have h3 : Quiet (createSwapChain env.swapChain
      (cleanupSwapChain (s.log (.vkDeviceWaitIdle s.device)))).2 (recreateSwapChain env s) := by
    unfold recreateSwapChain
    rw [hw]
    exact (createImageViews_quiet _ _).trans
      ((createFramebuffers_quiet _ _).trans (createCommandBuffers_quiet _ _))
  obtain ⟨a1, a2, a3, n1, hn1, hp1⟩ := h1
  obtain ⟨b1, b2, b3, n3, hn3, hp3⟩ := h3
  refine ⟨by rw [b1, c1, a1], by rw [b2, c2, a2], by rw [b3, c3, a3], n1 ++ n2 ++ n3, ?_, ?_, ?_⟩
  · rw [hn3, hn2, hn1]; simp [List.append_assoc]
  · intro c hc
    simp only [List.mem_append] at hc
    rcases hc with (h | h) | h
    · exact hp1 c h
    · exact hp2 c h
    · exact hp3 c h
  · simp only [List.any_append, hany, Bool.or_true, Bool.true_or]

/-- What `recreateSwapChain` does to the frame fields and to the log: the resize flag is
kept unless the resize callback ran during the wait. -/
theorem recreateSwapChain_frame (env : RecreateEnv) (s : ImguiVulkanHelper) :
    (recreateSwapChain env s).currentFrame = s.currentFrame ∧
    (recreateSwapChain env s).framebufferResized =
      (s.framebufferResized || env.resizedWhileWaiting) ∧
    (recreateSwapChain env s).imageCount =
      (if env.swapChain.createRet = VK_SUCCESS then env.swapChain.images.length
        else s.imageCount) ∧
    ∃ new, (recreateSwapChain env s).calls = s.calls ++ new ∧
      (∀ c ∈ new, c.isSwapChainRebuild = true) ∧ new.any Call.isCreateSwapchain = true := by
  rw [recreateSwapChain_after_wait]
  exact recreateSwapChain_frame_no_wait _ _ rfl

/-! ## drawFrame -/

theorem mod_uint32_of_lt {c n : Nat} (hc : c < n) (hn : n < 2 ^ 32) :
    (c + 1) % 2 ^ 32 % n = (c + 1) % n := by
  rw [Nat.mod_eq_of_lt (by omega : c + 1 < 2 ^ 32)]

theorem acquire_ok_of_not {r : VkResult}
    (h : ¬ (r ≠ VK_SUCCESS ∧ r ≠ VK_SUBOPTIMAL_KHR)) :
    r = VK_SUCCESS ∨ r = VK_SUBOPTIMAL_KHR := by
  by_cases h1 : r = VK_SUCCESS
  · exact Or.inl h1
  · by_cases h2 : r = VK_SUBOPTIMAL_KHR
    · exact Or.inr h2
    · exact absurd ⟨h1, h2⟩ h

@[simp] theorem out_currentFrame (s : ImguiVulkanHelper) :
    (drawFrame.out s).currentFrame = (s.currentFrame + 1) % 2 ^ 32 % s.imageCount := rfl

@[simp] theorem out_framebufferResized (s : ImguiVulkanHelper) :
    (drawFrame.out s).framebufferResized = s.framebufferResized := rfl

@[simp] theorem out_imageCount (s : ImguiVulkanHelper) :
    (drawFrame.out s).imageCount = s.imageCount := rfl

@[simp] theorem out_calls (s : ImguiVulkanHelper) : (drawFrame.out s).calls = s.calls := rfl

/-- A `recreateSwapChain` followed by the reset of `currentFrame`, from a state `x` reached
from `s` by logging `pre`. -/
theorem recreateSwapChain_reset (renv : RecreateEnv) (s x : ImguiVulkanHelper)
    (pre : List Call) (b : Bool) (hflag : x.framebufferResized = b)
    (hcount : x.imageCount = s.imageCount) (hcalls : x.calls = s.calls ++ pre) :
    ({ recreateSwapChain renv x with currentFrame := 0 } : ImguiVulkanHelper).currentFrame = 0 ∧
    ({ recreateSwapChain renv x with currentFrame := 0 } :
      ImguiVulkanHelper).framebufferResized = (b || renv.resizedWhileWaiting) ∧
    ({ recreateSwapChain renv x with currentFrame := 0 } : ImguiVulkanHelper).imageCount =
      imageCountAfterRecreate renv s ∧
    ∃ new, callsDuring s { recreateSwapChain renv x with currentFrame := 0 } = pre ++ new ∧
      (∀ c ∈ new, c.isSwapChainRebuild = true) ∧ new.any Call.isCreateSwapchain = true := by
  obtain ⟨_, h2, h3, new, hn, hp, hany⟩ := recreateSwapChain_frame renv x
  refine ⟨rfl, h2.trans (by rw [hflag]), ?_, new, ?_, hp, hany⟩
  · show (recreateSwapChain renv x).imageCount = _
    rw [h3, hcount]
    rfl
  · apply callsDuring_of_append
    show (recreateSwapChain renv x).calls = _
    rw [hn, hcalls, List.append_assoc]

/-- Every `drawFrame` goes one of the seven ways of `FramePath`. -/
theorem drawFrame_path (env : DrawFrameEnv) (s : ImguiVulkanHelper) :
    ∃ p : FramePath, p.Holds env s (drawFrame env s) := by
  by_cases hacq : env.acquireRet = VK_ERROR_OUT_OF_DATE_KHR
  · refine ⟨.acquireOutOfDate, hacq, ?_⟩
    unfold drawFrame
    dsimp only
    rw [if_pos hacq]
    exact recreateSwapChain_reset env.recreate s _ _ _ rfl rfl rfl
  by_cases hacq2 : env.acquireRet ≠ VK_SUCCESS ∧ env.acquireRet ≠ VK_SUBOPTIMAL_KHR
  · refine ⟨.acquireError, hacq, hacq2.1, hacq2.2, ?_⟩
    unfold drawFrame
    dsimp only
    rw [if_neg hacq, if_pos hacq2]
    exact ⟨rfl, rfl, rfl, callsDuring_of_append rfl⟩
  have hok := acquire_ok_of_not hacq2
  by_cases hbegin : env.beginRet ≠ VK_SUCCESS
  · refine ⟨.beginFailed, hok, hbegin, ?_⟩
    unfold drawFrame
    dsimp only
    rw [if_neg hacq, if_neg hacq2, if_pos hbegin]
    refine ⟨by simp only [out_currentFrame, log_currentFrame, log_imageCount],
      by simp only [out_framebufferResized, log_framebufferResized],
      by simp only [out_imageCount, log_imageCount], callsDuring_of_append ?_⟩
    simp only [out_calls, log_calls, frameCalls, List.append_assoc, List.singleton_append,
      List.cons_append, List.nil_append, List.take_succ_cons, List.take_zero, List.take_nil]
  by_cases hend : env.endRet ≠ VK_SUCCESS
  · refine ⟨.endFailed, hok, not_not.1 hbegin, hend, ?_⟩
    unfold drawFrame
    dsimp only
    rw [if_neg hacq, if_neg hacq2, if_neg hbegin, if_pos hend]
    refine ⟨by simp only [out_currentFrame, log_currentFrame, log_imageCount],
      by simp only [out_framebufferResized, log_framebufferResized],
      by simp only [out_imageCount, log_imageCount], callsDuring_of_append ?_⟩
    simp only [out_calls, log_calls, frameCalls, List.append_assoc, List.singleton_append,
      List.cons_append, List.nil_append, List.take_succ_cons, List.take_zero, List.take_nil]
  by_cases hsubmit : env.submitRet ≠ VK_SUCCESS
  · refine ⟨.submitFailed, hok, not_not.1 hbegin, not_not.1 hend, hsubmit, ?_⟩
    unfold drawFrame
    dsimp only
    rw [if_neg hacq, if_neg hacq2, if_neg hbegin, if_neg hend, if_pos hsubmit]
    refine ⟨by simp only [out_currentFrame, log_currentFrame, log_imageCount],
      by simp only [out_framebufferResized, log_framebufferResized],
      by simp only [out_imageCount, log_imageCount], callsDuring_of_append ?_⟩
    simp only [out_calls, log_calls, frameCalls, List.append_assoc, List.singleton_append,
      List.cons_append, List.nil_append, List.take_succ_cons, List.take_zero, List.take_nil]
  by_cases hpresent : env.presentRet = VK_ERROR_OUT_OF_DATE_KHR ∨
      env.presentRet = VK_SUBOPTIMAL_KHR ∨ s.framebufferResized = true
  · refine ⟨.presentRecreate, hok, not_not.1 hbegin, not_not.1 hend, not_not.1 hsubmit,
      hpresent, ?_⟩
    unfold drawFrame
    dsimp only
    rw [if_neg hacq, if_neg hacq2, if_neg hbegin, if_neg hend, if_neg hsubmit, if_pos hpresent]
    have hreset := recreateSwapChain_reset env.recreate s
      { (((((((((((s.log (.vkAcquireNextImageKHR s.swapChain
          (at_ s.imageAvailableSemaphores s.currentFrame) env.acquireRet env.imageIndex)).log
          (.vkWaitForFences (at_ s.swapChainImageFences s.currentFrame))).log
          (.vkBeginCommandBuffer (at_ s.commandBuffers s.currentFrame) env.beginRet)).log
          (.vkCmdBeginRenderPass (at_ s.commandBuffers s.currentFrame) s.renderPass
            (at_ s.swapChainFramebuffers s.currentFrame) s.swapChainExtent)).log
          (.ImGui_ImplVulkan_RenderDrawData (at_ s.commandBuffers s.currentFrame))).log
          (.vkCmdEndRenderPass (at_ s.commandBuffers s.currentFrame))).log
          (.vkEndCommandBuffer (at_ s.commandBuffers s.currentFrame) env.endRet)).log
          (.vkResetFences (at_ s.swapChainImageFences s.currentFrame))).log
          (.vkQueueSubmit s.graphicsQueue [at_ s.imageAvailableSemaphores s.currentFrame]
            [at_ s.commandBuffers s.currentFrame]
            [at_ s.renderFinishedSemaphores s.currentFrame]
            (at_ s.swapChainImageFences s.currentFrame) env.submitRet)).log
          (.vkQueuePresentKHR s.presentQueue [at_ s.renderFinishedSemaphores s.currentFrame]
            s.swapChain env.imageIndex env.presentRet))) with framebufferResized := false }
      (frameCalls env s) false rfl
    rw [Bool.false_or] at hreset
    refine hreset ?_ ?_
    · simp only [log_imageCount]
    · simp only [log_calls, frameCalls, List.append_assoc, List.singleton_append,
        List.cons_append, List.nil_append]
  · have hp1 : env.presentRet ≠ VK_ERROR_OUT_OF_DATE_KHR := fun h => hpresent (Or.inl h)
    have hp2 : env.presentRet ≠ VK_SUBOPTIMAL_KHR := fun h => hpresent (Or.inr (Or.inl h))
    have hp3 : s.framebufferResized = false := by
      cases h : s.framebufferResized
      · rfl
      · exact absurd (Or.inr (Or.inr h)) hpresent
    refine ⟨.presented, hok, not_not.1 hbegin, not_not.1 hend, not_not.1 hsubmit,
      hp1, hp2, hp3, ?_⟩
    unfold drawFrame
    dsimp only
    rw [if_neg hacq, if_neg hacq2, if_neg hbegin, if_neg hend, if_neg hsubmit, if_neg hpresent]
    refine ⟨by simp only [out_currentFrame, log_currentFrame, log_imageCount],
      by simp only [out_framebufferResized, log_framebufferResized],
      by simp only [out_imageCount, log_imageCount], callsDuring_of_append ?_⟩
    simp only [out_calls, log_calls, frameCalls, List.append_assoc, List.singleton_append,
      List.cons_append, List.nil_append, List.take_succ_cons, List.take_zero, List.take_nil]

/-! ## The frame-slot index (C1 to C6) -/

theorem rebuild_not_frame_work (c : Call) (h : c.isSwapChainRebuild = true) :
    c.isFenceWait = false ∧ c.isRecording = false ∧ c.isSubmit = false ∧ c.isPresent = false ∧
    c.isFailedBegin = false ∧ c.isFailedEnd = false ∧ c.isFailedSubmit = false := by
  cases c <;> simp_all [Call.isSwapChainRebuild, Call.isFenceWait, Call.isRecording,
    Call.isSubmit, Call.isPresent, Call.isFailedBegin, Call.isFailedEnd, Call.isFailedSubmit]

theorem any_eq_false_of_rebuild (new : List Call) (f : Call → Bool)
    (hp : ∀ c ∈ new, c.isSwapChainRebuild = true)
    (hf : ∀ c, c.isSwapChainRebuild = true → f c = false) : new.any f = false := by
  rw [List.any_eq_false]
  intro c hc
  simp [hf c (hp c hc)]

/-- One `drawFrame` keeps `currentFrame` below the image count in force afterwards. -/
theorem drawFrame_currentFrame_lt (env : DrawFrameEnv) (s : ImguiVulkanHelper)
    (hc : s.currentFrame < s.imageCount)
    (hrec : env.recreate.swapChain.createRet = VK_SUCCESS →
      1 ≤ env.recreate.swapChain.images.length) :
    (drawFrame env s).currentFrame < (drawFrame env s).imageCount := by
  have hcount : 0 < imageCountAfterRecreate env.recreate s := by
    unfold imageCountAfterRecreate
    split
    · next h => exact hrec h
    · omega
  have hmod : (s.currentFrame + 1) % 2 ^ 32 % s.imageCount < s.imageCount :=
    Nat.mod_lt _ (by omega)
  obtain ⟨p, hp⟩ := drawFrame_path env s
  cases p with
  | acquireOutOfDate =>
    obtain ⟨_, h1, _, h3, _⟩ := hp
    rw [h1, h3]; exact hcount
  | acquireError =>
    obtain ⟨_, _, _, h1, _, h3, _⟩ := hp
    rw [h1, h3]; exact hc
  | beginFailed =>
    obtain ⟨_, _, h1, _, h3, _⟩ := hp
    rw [h1, h3]; exact hmod
  | endFailed =>
    obtain ⟨_, _, _, h1, _, h3, _⟩ := hp
    rw [h1, h3]; exact hmod
  | submitFailed =>
    obtain ⟨_, _, _, _, h1, _, h3, _⟩ := hp
    rw [h1, h3]; exact hmod
  | presentRecreate =>
    obtain ⟨_, _, _, _, _, h1, _, h3, _⟩ := hp
    rw [h1, h3]; exact hcount
  | presented =>
    obtain ⟨_, _, _, _, _, _, _, h1, _, h3, _⟩ := hp
    rw [h1, h3]; exact hmod

theorem drawFrames_currentFrame_lt (steps : List FrameStep) :
    ∀ (s : ImguiVulkanHelper), s.currentFrame < s.imageCount →
      (∀ step ∈ steps, step.env.recreate.swapChain.createRet = VK_SUCCESS →
        1 ≤ step.env.recreate.swapChain.images.length) →
      (drawFrames steps s).currentFrame < (drawFrames steps s).imageCount := by
  induction steps with
  | nil => intro s hc _; exact hc
  | cons step rest ih =>
    intro s hc hrec
    unfold drawFrames
    apply ih
    · apply drawFrame_currentFrame_lt
      · cases step.resized
        · exact hc
        · exact hc
      · exact hrec step (List.mem_cons_self _ _)
    · intro e he
      exact hrec e (List.mem_cons_of_mem _ he)

/-- C1: for every image count at least 1 (in particular 2 and 3) and every sequence of
`drawFrame` calls starting from `currentFrame = 0`, whatever acquire, begin, end, submit and
present return and whether or not the resize flag is raised before a call,
`currentFrame < imageCount` holds after every call (after each initial segment of the
sequence), `imageCount` being the count in force after any recreation done by that call; the
image count of every recreated swapchain is at least 1 as well. -/
theorem drawFrames_currentFrame_in_range (steps : List FrameStep) (s : ImguiVulkanHelper)
    (hN : 1 ≤ s.imageCount) (h0 : s.currentFrame = 0)
    (hrec : ∀ step ∈ steps, step.env.recreate.swapChain.createRet = VK_SUCCESS →
      1 ≤ step.env.recreate.swapChain.images.length) (k : Nat) :
    0 ≤ (drawFrames (steps.take k) s).currentFrame ∧
    (drawFrames (steps.take k) s).currentFrame < (drawFrames (steps.take k) s).imageCount := by
  refine ⟨Nat.zero_le _, drawFrames_currentFrame_lt _ s (by omega) ?_⟩
  intro step he
  exact hrec step (List.mem_of_mem_take he)

/-- C1 at a run of four frames on the two-image session: a frame that succeeds, a frame
whose acquire is out of date and recreates a swapchain of three images, a frame whose submit
fails, and a frame drawn after a resize. -/
theorem drawFrames_currentFrame_in_range_witness :
    (1 ≤ sampleHelper.imageCount ∧ sampleHelper.currentFrame = 0) ∧
    0 ≤ (drawFrames (sampleRun.take 4) sampleHelper).currentFrame ∧
    (drawFrames (sampleRun.take 4) sampleHelper).currentFrame <
    (drawFrames (sampleRun.take 4) sampleHelper).imageCount :=
  ⟨⟨by decide, rfl⟩,
    drawFrames_currentFrame_in_range sampleRun sampleHelper (by decide) rfl (by decide) 4⟩

theorem recreated_of_calls {s t : ImguiVulkanHelper} {pre new : List Call}
    (h : callsDuring s t = pre ++ new) (hany : new.any Call.isCreateSwapchain = true) :
    recreated s t = true := by
  unfold recreated
  rw [h, List.any_append, hany, Bool.or_true]

theorem frameCalls_take_no_rebuild (env : DrawFrameEnv) (s : ImguiVulkanHelper) (k : Nat) :
    ∀ c ∈ (frameCalls env s).take k, c.isSwapChainRebuild = false := by
  intro c hc
  have hmem := List.mem_of_mem_take hc
  simp only [frameCalls, List.mem_cons, List.mem_singleton, List.not_mem_nil, or_false] at hmem
  rcases hmem with h | h | h | h | h | h | h | h | h | h <;> rw [h] <;> rfl

theorem not_recreated_of_calls {s t : ImguiVulkanHelper} {env : DrawFrameEnv} {k : Nat}
    (h : callsDuring s t = (frameCalls env s).take k) : recreated s t = false := by
  unfold recreated
  rw [h, List.any_eq_false]
  intro c hc
  have := frameCalls_take_no_rebuild env s k c hc
  cases c <;> simp_all [Call.isSwapChainRebuild, Call.isCreateSwapchain]

/-- C2: for every image count `N` and every slot `c < N`, a `drawFrame` in which acquire
returns success, begin, end and submit succeed, present returns success and the resize flag
is clear leaves `currentFrame = (c + 1) mod N` and does not recreate the swapchain: it makes
no `vkCreateSwapchainKHR` call and no other call of the swapchain rebuild, and keeps the
image count. -/
theorem drawFrame_success_advances (env : DrawFrameEnv) (s : ImguiVulkanHelper)
    (hc : s.currentFrame < s.imageCount) (hN : s.imageCount < 2 ^ 32)
    (hacq : env.acquireRet = VK_SUCCESS) (hbegin : env.beginRet = VK_SUCCESS)
    (hend : env.endRet = VK_SUCCESS) (hsubmit : env.submitRet = VK_SUCCESS)
    (hpresent : env.presentRet = VK_SUCCESS) (hflag : s.framebufferResized = false) :
    (drawFrame env s).currentFrame = (s.currentFrame + 1) % s.imageCount ∧
    recreated s (drawFrame env s) = false ∧
    (∀ c ∈ callsDuring s (drawFrame env s), c.isSwapChainRebuild = false) ∧
    (drawFrame env s).imageCount = s.imageCount := by
  obtain ⟨p, hp⟩ := drawFrame_path env s
  cases p with
  | acquireOutOfDate => exact absurd (hp.1.symm.trans hacq) (by decide)
  | acquireError => exact absurd hacq hp.2.1
  | beginFailed => exact absurd hbegin hp.2.1
  | endFailed => exact absurd hend hp.2.2.1
  | submitFailed => exact absurd hsubmit hp.2.2.2.1
  | presentRecreate =>
    obtain ⟨_, _, _, _, h, _⟩ := hp
    rcases h with h | h | h
    · exact absurd (h.symm.trans hpresent) (by decide)
    · exact absurd (h.symm.trans hpresent) (by decide)
    · rw [hflag] at h; cases h
  | presented =>
    obtain ⟨_, _, _, _, _, _, _, h1, _, h3, h4⟩ := hp
    have h4k : callsDuring s (drawFrame env s) = (frameCalls env s).take 10 := by
      rw [h4]; rfl
    refine ⟨by rw [h1, mod_uint32_of_lt hc hN], not_recreated_of_calls h4k, ?_, h3⟩
    rw [h4k]
    exact frameCalls_take_no_rebuild env s 10

/-- C2 at the two-image session, slot 0. -/
theorem drawFrame_success_advances_witness :
    (sampleHelper.currentFrame < sampleHelper.imageCount ∧ sampleHelper.imageCount < 2 ^ 32 ∧
      sampleFrameEnv.acquireRet = VK_SUCCESS ∧ sampleFrameEnv.beginRet = VK_SUCCESS ∧
      sampleFrameEnv.endRet = VK_SUCCESS ∧ sampleFrameEnv.submitRet = VK_SUCCESS ∧
      sampleFrameEnv.presentRet = VK_SUCCESS ∧ sampleHelper.framebufferResized = false) ∧
    (drawFrame sampleFrameEnv sampleHelper).currentFrame =
      (sampleHelper.currentFrame + 1) % sampleHelper.imageCount ∧
    recreated sampleHelper (drawFrame sampleFrameEnv sampleHelper) = false ∧
    (∀ c ∈ callsDuring sampleHelper (drawFrame sampleFrameEnv sampleHelper),
      c.isSwapChainRebuild = false) ∧
    (drawFrame sampleFrameEnv sampleHelper).imageCount = sampleHelper.imageCount :=
  ⟨⟨by decide, by decide, rfl, rfl, rfl, rfl, rfl, rfl⟩,
    drawFrame_success_advances sampleFrameEnv sampleHelper (by decide) (by decide)
      rfl rfl rfl rfl rfl rfl⟩

/-- C3 as stated fails: on the two-image session at slot 0, a `drawFrame` whose acquire
returns `VK_ERROR_DEVICE_LOST` recreates nothing and leaves `currentFrame` at 0, not at
`(0 + 1) mod 2 = 1`. -/
theorem drawFrame_acquire_error_counterexample :
    recreated sampleHelper (drawFrame deviceLostFrameEnv sampleHelper) = false ∧
    (sampleHelper.currentFrame + 1) % sampleHelper.imageCount = 1 ∧
    (drawFrame deviceLostFrameEnv sampleHelper).currentFrame = 0 ∧
    (drawFrame deviceLostFrameEnv sampleHelper).currentFrame ≠
      (sampleHelper.currentFrame + 1) % sampleHelper.imageCount := by
  decide

/-- C3, amended: for every `drawFrame` call from a slot `c < N` that does not trigger
swapchain recreation, if acquire returns success or suboptimal then, whatever begin, end,
submit and present return, `currentFrame` afterwards equals `(c + 1) mod N`; if acquire
returns any other result, the call returns at once and `currentFrame` is unchanged: the
acquire is the only call made and the state after the call is the state before it with that
call logged. -/
theorem drawFrame_no_recreation_currentFrame (env : DrawFrameEnv) (s : ImguiVulkanHelper)
    (hc : s.currentFrame < s.imageCount) (hN : s.imageCount < 2 ^ 32)
    (hno : recreated s (drawFrame env s) = false) :
    ((env.acquireRet = VK_SUCCESS ∨ env.acquireRet = VK_SUBOPTIMAL_KHR) →
      (drawFrame env s).currentFrame = (s.currentFrame + 1) % s.imageCount) ∧
    (env.acquireRet ≠ VK_SUCCESS → env.acquireRet ≠ VK_SUBOPTIMAL_KHR →
      (drawFrame env s).currentFrame = s.currentFrame ∧
      callsDuring s (drawFrame env s) =
        [.vkAcquireNextImageKHR s.swapChain (at_ s.imageAvailableSemaphores s.currentFrame)
          env.acquireRet env.imageIndex] ∧
      drawFrame env s =
        s.log (.vkAcquireNextImageKHR s.swapChain
          (at_ s.imageAvailableSemaphores s.currentFrame) env.acquireRet env.imageIndex)) := by
  have hmod := mod_uint32_of_lt hc hN
  obtain ⟨p, hp⟩ := drawFrame_path env s
  cases p with
  | acquireOutOfDate =>
    obtain ⟨_, _, _, _, new, hcalls, _, hany⟩ := hp
    rw [recreated_of_calls hcalls hany] at hno
    cases hno
  | acquireError =>
    obtain ⟨h0, h2, h3, h1, _, _, hcalls⟩ := hp
    refine ⟨?_, fun _ _ => ⟨h1, hcalls, ?_⟩⟩
    · rintro (h | h)
      · exact absurd h h2
      · exact absurd h h3
    · unfold drawFrame
      dsimp only
      rw [if_neg h0, if_pos ⟨h2, h3⟩]
  | beginFailed =>
    obtain ⟨hok, _, h1, _⟩ := hp
    refine ⟨fun _ => by rw [h1, hmod], ?_⟩
    intro a b
    rcases hok with h | h
    · exact absurd h a
    · exact absurd h b
  | endFailed =>
    obtain ⟨hok, _, _, h1, _⟩ := hp
    refine ⟨fun _ => by rw [h1, hmod], ?_⟩
    intro a b
    rcases hok with h | h
    · exact absurd h a
    · exact absurd h b
  | submitFailed =>
    obtain ⟨hok, _, _, _, h1, _⟩ := hp
    refine ⟨fun _ => by rw [h1, hmod], ?_⟩
    intro a b
    rcases hok with h | h
    · exact absurd h a
    · exact absurd h b
  | presentRecreate =>
    obtain ⟨_, _, _, _, _, _, _, _, new, hcalls, _, hany⟩ := hp
    rw [recreated_of_calls hcalls hany] at hno
    cases hno
  | presented =>
    obtain ⟨hok, _, _, _, _, _, _, h1, _⟩ := hp
    refine ⟨fun _ => by rw [h1, hmod], ?_⟩
    intro a b
    rcases hok with h | h
    · exact absurd h a
    · exact absurd h b

/-- C3 amended, at a frame whose acquire returns `VK_ERROR_DEVICE_LOST`: the slot stays 0 and
the acquire on swapchain 7 with semaphore 50 is the only call. -/
theorem drawFrame_no_recreation_currentFrame_witness :
    (sampleHelper.currentFrame < sampleHelper.imageCount ∧ sampleHelper.imageCount < 2 ^ 32 ∧
      recreated sampleHelper (drawFrame deviceLostFrameEnv sampleHelper) = false ∧
      deviceLostFrameEnv.acquireRet ≠ VK_SUCCESS ∧
      deviceLostFrameEnv.acquireRet ≠ VK_SUBOPTIMAL_KHR) ∧
    (drawFrame deviceLostFrameEnv sampleHelper).currentFrame = sampleHelper.currentFrame ∧
    callsDuring sampleHelper (drawFrame deviceLostFrameEnv sampleHelper) =
      [.vkAcquireNextImageKHR 7 50 VK_ERROR_DEVICE_LOST deviceLostFrameEnv.imageIndex] ∧
    drawFrame deviceLostFrameEnv sampleHelper =
      sampleHelper.log
        (.vkAcquireNextImageKHR 7 50 VK_ERROR_DEVICE_LOST deviceLostFrameEnv.imageIndex) :=
  ⟨⟨by decide, by decide, by decide, by decide, by decide⟩,
    (drawFrame_no_recreation_currentFrame deviceLostFrameEnv sampleHelper (by decide)
      (by decide) (by decide)).2 (by decide) (by decide)⟩

theorem frameCalls_take_one (env : DrawFrameEnv) (s : ImguiVulkanHelper) :
    (frameCalls env s).take 1 =
      [.vkAcquireNextImageKHR s.swapChain (at_ s.imageAvailableSemaphores s.currentFrame)
        env.acquireRet env.imageIndex] := rfl

/-- C4: for every state, when acquire in `drawFrame` returns out-of-date, the call recreates
the swapchain (after the acquire it makes only the calls of the swapchain rebuild, among them
`vkCreateSwapchainKHR`), leaves `currentFrame = 0`, and performs no fence wait, no command
recording, no queue submission and no present. -/
theorem drawFrame_acquire_out_of_date_abandons (env : DrawFrameEnv) (s : ImguiVulkanHelper)
    (hacq : env.acquireRet = VK_ERROR_OUT_OF_DATE_KHR) :
    recreated s (drawFrame env s) = true ∧
    (drawFrame env s).currentFrame = 0 ∧
    (∀ c ∈ (callsDuring s (drawFrame env s)).drop 1, c.isSwapChainRebuild = true) ∧
    ∀ c ∈ callsDuring s (drawFrame env s),
      c.isFenceWait = false ∧ c.isRecording = false ∧ c.isSubmit = false ∧
      c.isPresent = false := by
  obtain ⟨p, hp⟩ := drawFrame_path env s
  have hne1 : env.acquireRet ≠ VK_SUCCESS := by rw [hacq]; decide
  have hne2 : env.acquireRet ≠ VK_SUBOPTIMAL_KHR := by rw [hacq]; decide
  have hnok : ¬ (env.acquireRet = VK_SUCCESS ∨ env.acquireRet = VK_SUBOPTIMAL_KHR) := by
    rintro (h | h)
    · exact hne1 h
    · exact hne2 h
  cases p with
  | acquireOutOfDate =>
    obtain ⟨_, h1, _, _, new, hcalls, hreb, hany⟩ := hp
    refine ⟨recreated_of_calls hcalls hany, h1, ?_, ?_⟩
    · rw [hcalls, frameCalls_take_one]
      exact hreb
    · intro c hc
      rw [hcalls, frameCalls_take_one] at hc
      rcases List.mem_append.1 hc with h | h
      · rw [List.mem_singleton] at h
        rw [h]
        exact ⟨rfl, rfl, rfl, rfl⟩
      · obtain ⟨a, b, c1, d, _⟩ := rebuild_not_frame_work c (hreb c h)
        exact ⟨a, b, c1, d⟩
  | acquireError => exact absurd hacq hp.1
  | beginFailed => exact absurd hp.1 hnok
  | endFailed => exact absurd hp.1 hnok
  | submitFailed => exact absurd hp.1 hnok
  | presentRecreate => exact absurd hp.1 hnok
  | presented => exact absurd hp.1 hnok

/-- C4 at the two-image session. -/
theorem drawFrame_acquire_out_of_date_abandons_witness :
    outOfDateFrameEnv.acquireRet = VK_ERROR_OUT_OF_DATE_KHR ∧
    recreated sampleHelper (drawFrame outOfDateFrameEnv sampleHelper) = true ∧
    (drawFrame outOfDateFrameEnv sampleHelper).currentFrame = 0 ∧
    (∀ c ∈ (callsDuring sampleHelper (drawFrame outOfDateFrameEnv sampleHelper)).drop 1,
      c.isSwapChainRebuild = true) ∧
    ∀ c ∈ callsDuring sampleHelper (drawFrame outOfDateFrameEnv sampleHelper),
      c.isFenceWait = false ∧ c.isRecording = false ∧ c.isSubmit = false ∧
      c.isPresent = false :=
  ⟨rfl, drawFrame_acquire_out_of_date_abandons outOfDateFrameEnv sampleHelper rfl⟩

theorem frameCalls_take_not_present (env : DrawFrameEnv) (s : ImguiVulkanHelper) (k : Nat)
    (hk : k ≤ 9) : ((frameCalls env s).take k).any Call.isPresent = false := by
  have h9 : ((frameCalls env s).take 9).any Call.isPresent = false := rfl
  rw [List.any_eq_false] at h9 ⊢
  intro c hc
  apply h9 c
  have : (frameCalls env s).take k = ((frameCalls env s).take 9).take k := by
    rw [List.take_take, Nat.min_eq_left hk]
  rw [this] at hc
  exact List.mem_of_mem_take hc

/-- C5 as stated fails: on the two-image session, a `drawFrame` that reaches present, whose
present reports an out-of-date swapchain while the window is minimised, recreates the
swapchain; the resize callback runs while `recreateSwapChain` waits for the window to be
restored (the wait ends: the call returns), and after the call the resize flag is true, not
false. -/
theorem drawFrame_present_resized_while_waiting_counterexample :
    (callsDuring sampleHelper (drawFrame minimisedPresentFrameEnv sampleHelper)).any
      Call.isPresent = true ∧
    minimisedPresentFrameEnv.presentRet = VK_ERROR_OUT_OF_DATE_KHR ∧
    minimisedPresentFrameEnv.recreate.waitEnds = true ∧
    recreated sampleHelper (drawFrame minimisedPresentFrameEnv sampleHelper) = true ∧
    (drawFrame minimisedPresentFrameEnv sampleHelper).currentFrame = 0 ∧
    sampleHelper.framebufferResized = false ∧
    (drawFrame minimisedPresentFrameEnv sampleHelper).framebufferResized = true := by
  decide

/-- C5, amended: in a `drawFrame` call that reaches present, recreation is triggered exactly
when present returns out-of-date, or returns suboptimal, or the pending-resize flag is set;
in that case `currentFrame = 0` after the call and the resize flag is set exactly when the
resize callback ran while `recreateSwapChain` waited for a framebuffer of non-zero size: it
is false when the first size read is non-zero in both components, and when no turn of the
wait ran the callback; otherwise (no recreation) the resize flag is unchanged. -/
theorem drawFrame_present_recreation (env : DrawFrameEnv) (s : ImguiVulkanHelper)
    (hreach : (callsDuring s (drawFrame env s)).any Call.isPresent = true) :
    (recreated s (drawFrame env s) = true ↔
      (env.presentRet = VK_ERROR_OUT_OF_DATE_KHR ∨ env.presentRet = VK_SUBOPTIMAL_KHR ∨
        s.framebufferResized = true)) ∧
    (recreated s (drawFrame env s) = true →
      (drawFrame env s).framebufferResized = env.recreate.resizedWhileWaiting ∧
      (drawFrame env s).currentFrame = 0) ∧
    (recreated s (drawFrame env s) = true →
      (env.recreate.firstSize.1 ≠ 0 ∧ env.recreate.firstSize.2 ≠ 0) →
      (drawFrame env s).framebufferResized = false) ∧
    (recreated s (drawFrame env s) = true →
      (∀ round ∈ env.recreate.waitRounds, round.resized = false) →
      (drawFrame env s).framebufferResized = false) ∧
    (recreated s (drawFrame env s) = false →
      (drawFrame env s).framebufferResized = s.framebufferResized) := by
  obtain ⟨p, hp⟩ := drawFrame_path env s
  cases p with
  | acquireOutOfDate =>
    obtain ⟨_, _, _, _, new, hcalls, hreb, _⟩ := hp
    rw [hcalls, List.any_append, frameCalls_take_not_present env s 1 (by omega),
      any_eq_false_of_rebuild new _ hreb (fun c h => (rebuild_not_frame_work c h).2.2.2.1)]
      at hreach
    cases hreach
  | acquireError =>
    obtain ⟨_, _, _, _, _, _, hcalls⟩ := hp
    rw [hcalls, frameCalls_take_not_present env s 1 (by omega)] at hreach
    cases hreach
  | beginFailed =>
    obtain ⟨_, _, _, _, _, hcalls⟩ := hp
    rw [hcalls, frameCalls_take_not_present env s 3 (by omega)] at hreach
    cases hreach
  | endFailed =>
    obtain ⟨_, _, _, _, _, _, hcalls⟩ := hp
    rw [hcalls, frameCalls_take_not_present env s 7 (by omega)] at hreach
    cases hreach
  | submitFailed =>
    obtain ⟨_, _, _, _, _, _, _, hcalls⟩ := hp
    rw [hcalls, frameCalls_take_not_present env s 9 (by omega)] at hreach
    cases hreach
  | presentRecreate =>
    obtain ⟨_, _, _, _, htrig, h1, h2, _, new, hcalls, _, hany⟩ := hp
    have hr := recreated_of_calls hcalls hany
    refine ⟨⟨fun _ => htrig, fun _ => hr⟩, fun _ => ⟨h2, h1⟩, ?_, ?_, ?_⟩
    · intro _ hsize
      rw [h2]
      exact waitLoopResized_of_first_size _ _ hsize
    · intro _ hnone
      rw [h2]
      exact waitLoopResized_of_no_resize _ hnone _
    · intro h
      rw [hr] at h
      cases h
  | presented =>
    obtain ⟨_, _, _, _, hp1, hp2, hp3, _, h2, _, hcalls⟩ := hp
    have hcalls10 : callsDuring s (drawFrame env s) = (frameCalls env s).take 10 := by
      rw [hcalls]; rfl
    have hr := not_recreated_of_calls hcalls10
    refine ⟨⟨?_, ?_⟩, ?_, ?_, ?_, fun _ => h2⟩
    · intro h
      rw [hr] at h
      cases h
    · rintro (h | h | h)
      · exact absurd h hp1
      · exact absurd h hp2
      · rw [hp3] at h; cases h
    · intro h
      rw [hr] at h
      cases h
    · intro h
      rw [hr] at h
      cases h
    · intro h
      rw [hr] at h
      cases h

/-- C5 amended, at a frame whose present reports a suboptimal swapchain on a window that is
not minimised. -/
theorem drawFrame_present_recreation_witness :
    (callsDuring sampleHelper (drawFrame suboptimalPresentFrameEnv sampleHelper)).any
      Call.isPresent = true ∧
    (recreated sampleHelper (drawFrame suboptimalPresentFrameEnv sampleHelper) = true ↔
      (suboptimalPresentFrameEnv.presentRet = VK_ERROR_OUT_OF_DATE_KHR ∨
        suboptimalPresentFrameEnv.presentRet = VK_SUBOPTIMAL_KHR ∨
        sampleHelper.framebufferResized = true)) ∧
    (recreated sampleHelper (drawFrame suboptimalPresentFrameEnv sampleHelper) = true →
      (drawFrame suboptimalPresentFrameEnv sampleHelper).framebufferResized =
        suboptimalPresentFrameEnv.recreate.resizedWhileWaiting ∧
      (drawFrame suboptimalPresentFrameEnv sampleHelper).currentFrame = 0) ∧
    (recreated sampleHelper (drawFrame suboptimalPresentFrameEnv sampleHelper) = true →
      (suboptimalPresentFrameEnv.recreate.firstSize.1 ≠ 0 ∧
        suboptimalPresentFrameEnv.recreate.firstSize.2 ≠ 0) →
      (drawFrame suboptimalPresentFrameEnv sampleHelper).framebufferResized = false) ∧
    (recreated sampleHelper (drawFrame suboptimalPresentFrameEnv sampleHelper) = true →
      (∀ round ∈ suboptimalPresentFrameEnv.recreate.waitRounds, round.resized = false) →
      (drawFrame suboptimalPresentFrameEnv sampleHelper).framebufferResized = false) ∧
    (recreated sampleHelper (drawFrame suboptimalPresentFrameEnv sampleHelper) = false →
      (drawFrame suboptimalPresentFrameEnv sampleHelper).framebufferResized =
        sampleHelper.framebufferResized) :=
  ⟨by decide, drawFrame_present_recreation suboptimalPresentFrameEnv sampleHelper (by decide)⟩

theorem failed_step_of_rebuild (c : Call) (h : c.isSwapChainRebuild = true) :
    (c.isFailedBegin || c.isFailedEnd || c.isFailedSubmit) = false := by
  obtain ⟨_, _, _, _, a, b, d⟩ := rebuild_not_frame_work c h
  rw [a, b, d]; rfl

theorem failed_begin_end_of_rebuild (c : Call) (h : c.isSwapChainRebuild = true) :
    (c.isFailedBegin || c.isFailedEnd) = false := by
  obtain ⟨_, _, _, _, a, b, _⟩ := rebuild_not_frame_work c h
  rw [a, b]; rfl

theorem frameCalls_no_failed_step (env : DrawFrameEnv) (s : ImguiVulkanHelper)
    (hbegin : env.beginRet = VK_SUCCESS) (hend : env.endRet = VK_SUCCESS)
    (hsubmit : env.submitRet = VK_SUCCESS) :
    (frameCalls env s).any
      (fun c => c.isFailedBegin || c.isFailedEnd || c.isFailedSubmit) = false := by
  simp [frameCalls, Call.isFailedBegin, Call.isFailedEnd, Call.isFailedSubmit, hbegin, hend,
    hsubmit]

/-- C6: for every `drawFrame` call from a slot `c < N` in which command-buffer begin,
command-buffer end or queue submit fails (the call logs a begin, an end or a submit that did
not return `VK_SUCCESS`), the frame is skipped: nothing is presented, nothing is submitted
when it is the begin or the end that failed, the swapchain is not recreated, and
`currentFrame` still advances to `(c + 1) mod N`. -/
theorem drawFrame_failed_step_skips_frame (env : DrawFrameEnv) (s : ImguiVulkanHelper)
    (hc : s.currentFrame < s.imageCount) (hN : s.imageCount < 2 ^ 32)
    (hfail : (callsDuring s (drawFrame env s)).any
      (fun c => c.isFailedBegin || c.isFailedEnd || c.isFailedSubmit) = true) :
    (drawFrame env s).currentFrame = (s.currentFrame + 1) % s.imageCount ∧
    (callsDuring s (drawFrame env s)).any Call.isPresent = false ∧
    ((callsDuring s (drawFrame env s)).any (fun c => c.isFailedBegin || c.isFailedEnd) = true →
      (callsDuring s (drawFrame env s)).any Call.isSubmit = false) ∧
    recreated s (drawFrame env s) = false := by
  have hmod := mod_uint32_of_lt hc hN
  obtain ⟨p, hp⟩ := drawFrame_path env s
  cases p with
  | acquireOutOfDate =>
    obtain ⟨_, _, _, _, new, hcalls, hreb, _⟩ := hp
    rw [hcalls, List.any_append,
      any_eq_false_of_rebuild new _ hreb failed_step_of_rebuild] at hfail
    simp [frameCalls, Call.isFailedBegin, Call.isFailedEnd, Call.isFailedSubmit] at hfail
  | acquireError =>
    obtain ⟨_, _, _, _, _, _, hcalls⟩ := hp
    rw [hcalls] at hfail
    simp [frameCalls, Call.isFailedBegin, Call.isFailedEnd, Call.isFailedSubmit] at hfail
  | beginFailed =>
    obtain ⟨_, _, h1, _, _, hcalls⟩ := hp
    refine ⟨by rw [h1, hmod], ?_, ?_, not_recreated_of_calls hcalls⟩
    · rw [hcalls]; exact frameCalls_take_not_present env s 3 (by omega)
    · intro _; rw [hcalls]; rfl
  | endFailed =>
    obtain ⟨_, _, _, h1, _, _, hcalls⟩ := hp
    refine ⟨by rw [h1, hmod], ?_, ?_, not_recreated_of_calls hcalls⟩
    · rw [hcalls]; exact frameCalls_take_not_present env s 7 (by omega)
    · intro _; rw [hcalls]; rfl
  | submitFailed =>
    obtain ⟨_, hbegin, hend, _, h1, _, _, hcalls⟩ := hp
    refine ⟨by rw [h1, hmod], ?_, ?_, not_recreated_of_calls hcalls⟩
    · rw [hcalls]; exact frameCalls_take_not_present env s 9 (by omega)
    · intro h
      rw [hcalls] at h
      simp [frameCalls, Call.isFailedBegin, Call.isFailedEnd, hbegin, hend] at h
  | presentRecreate =>
    obtain ⟨_, hbegin, hend, hsubmit, _, _, _, _, new, hcalls, hreb, _⟩ := hp
    rw [hcalls, List.any_append, frameCalls_no_failed_step env s hbegin hend hsubmit,
      any_eq_false_of_rebuild new _ hreb failed_step_of_rebuild] at hfail
    cases hfail
  | presented =>
    obtain ⟨_, hbegin, hend, hsubmit, _, _, _, _, _, _, hcalls⟩ := hp
    rw [hcalls, frameCalls_no_failed_step env s hbegin hend hsubmit] at hfail
    cases hfail

/-- C6 at a frame whose queue submit fails. -/
theorem drawFrame_failed_step_skips_frame_witness :
    (sampleHelper.currentFrame < sampleHelper.imageCount ∧ sampleHelper.imageCount < 2 ^ 32 ∧
      (callsDuring sampleHelper (drawFrame submitFailedFrameEnv sampleHelper)).any
        (fun c => c.isFailedBegin || c.isFailedEnd || c.isFailedSubmit) = true) ∧
    (drawFrame submitFailedFrameEnv sampleHelper).currentFrame =
      (sampleHelper.currentFrame + 1) % sampleHelper.imageCount ∧
    (callsDuring sampleHelper (drawFrame submitFailedFrameEnv sampleHelper)).any
      Call.isPresent = false ∧
    ((callsDuring sampleHelper (drawFrame submitFailedFrameEnv sampleHelper)).any
        (fun c => c.isFailedBegin || c.isFailedEnd) = true →
      (callsDuring sampleHelper (drawFrame submitFailedFrameEnv sampleHelper)).any
        Call.isSubmit = false) ∧
    recreated sampleHelper (drawFrame submitFailedFrameEnv sampleHelper) = false :=
  ⟨⟨by decide, by decide, by decide⟩,
    drawFrame_failed_step_skips_frame submitFailedFrameEnv sampleHelper (by decide)
      (by decide) (by decide)⟩

/-! ## Memory-type selection (C7, C8) -/

theorem filter_bit_iff (typeFilter i : Nat) (hi : i < 32) :
    typeFilter &&& ((1 <<< i) % 2 ^ 32) ≠ 0 ↔ typeFilter.testBit i = true := by
  have h1 : (1 <<< i) % 2 ^ 32 = 2 ^ i := by
    rw [Nat.one_shiftLeft]
    exact Nat.mod_eq_of_lt (Nat.pow_lt_pow_right (by norm_num) hi)
  rw [h1, Nat.and_two_pow]
  cases h : typeFilter.testBit i <;> simp

theorem flags_superset_iff (flags properties : Nat) :
    flags &&& properties = properties ↔
      ∀ b, properties.testBit b = true → flags.testBit b = true := by
  constructor
  · intro h b hb
    have := congrArg (fun x => x.testBit b) h
    simp only [Nat.testBit_and, hb, Bool.and_true] at this
    exact this
  · intro h
    apply Nat.eq_of_testBit_eq
    intro b
    rw [Nat.testBit_and]
    cases hp : properties.testBit b
    · simp
    · simp [h b hp]

/-- The loop of `findMemoryType` over the types from index `k` on either visits them all
without a match and yields the sentinel, or stops at the first match. -/
theorem findMemoryType_loop_spec (typeFilter properties : Nat) :
    ∀ (l : List VkMemoryType) (k : Nat), k + l.length ≤ 32 →
      (findMemoryType.loop typeFilter properties l k = BAD_MEMORY_TYPE ∧
          ∀ j t, l[j]? = some t →
            ¬ (typeFilter.testBit (k + j) = true ∧
              ∀ b, properties.testBit b = true → t.propertyFlags.testBit b = true)) ∨
      (∃ j t, l[j]? = some t ∧ findMemoryType.loop typeFilter properties l k = k + j ∧
          typeFilter.testBit (k + j) = true ∧
          ∀ b, properties.testBit b = true → t.propertyFlags.testBit b = true) := by
  intro l
  induction l with
  | nil => intro k _; left; simp [findMemoryType.loop]
  | cons t rest ih =>
    intro k hk
    simp only [List.length_cons] at hk
    have hk32 : k < 32 := by omega
    by_cases hc : typeFilter &&& ((1 <<< k) % 2 ^ 32) ≠ 0 ∧
        t.propertyFlags &&& properties = properties
    · right
      refine ⟨0, t, by simp, ?_, ?_, ?_⟩
      · simp only [findMemoryType.loop, if_pos hc, Nat.add_zero]
      · exact (filter_bit_iff typeFilter k hk32).1 hc.1
      · exact (flags_superset_iff _ _).1 hc.2
    · have hstep : findMemoryType.loop typeFilter properties (t :: rest) k =
          findMemoryType.loop typeFilter properties rest (k + 1) := by
        simp only [findMemoryType.loop, if_neg hc]
      rcases ih (k + 1) (by omega) with ⟨hbad, hnone⟩ | ⟨j, u, hj, hres, hbit, hsup⟩
      · left
        refine ⟨by rw [hstep, hbad], ?_⟩
        intro j u hj hcomp
        cases j with
        | zero =>
          simp only [List.getElem?_cons_zero, Option.some.injEq] at hj
          subst hj
          exact hc ⟨(filter_bit_iff typeFilter k hk32).2 hcomp.1,
            (flags_superset_iff _ _).2 hcomp.2⟩
        | succ j =>
          simp only [List.getElem?_cons_succ] at hj
          apply hnone j u hj
          have : k + 1 + j = k + (j + 1) := by omega
          rw [this]
          exact hcomp
      · right
        have e : k + 1 + j = k + (j + 1) := by omega
        refine ⟨j + 1, u, by simpa using hj, ?_, ?_, hsup⟩
        · rw [hstep, hres, e]
        · rw [← e]; exact hbit

/-- C7: for every type-filter bitmask, every required property-flag set and every list of at
most 32 reported memory types, if `findMemoryType` returns a value `i` different from the
sentinel `0xFFFFFFFF` then `i < memoryTypeCount`, bit `i` of the filter is set, and
`memoryTypes[i].propertyFlags` contains every required flag. -/
theorem findMemoryType_selected_compatible (memoryTypes : List VkMemoryType)
    (typeFilter properties : Nat) (hcount : memoryTypes.length ≤ 32)
    (hsel : findMemoryType memoryTypes typeFilter properties ≠ BAD_MEMORY_TYPE) :
    findMemoryType memoryTypes typeFilter properties < memoryTypes.length ∧
    typeFilter.testBit (findMemoryType memoryTypes typeFilter properties) = true ∧
    ∃ t, memoryTypes[findMemoryType memoryTypes typeFilter properties]? = some t ∧
      ∀ b, properties.testBit b = true → t.propertyFlags.testBit b = true := by
  unfold findMemoryType at *
  rcases findMemoryType_loop_spec typeFilter properties memoryTypes 0 (by omega) with
    ⟨hbad, _⟩ | ⟨j, t, hj, hres, hbit, hsup⟩
  · exact absurd hbad hsel
  · simp only [Nat.zero_add] at hres hbit
    rw [hres]
    refine ⟨?_, hbit, t, hj, hsup⟩
    by_contra hlt
    rw [List.getElem?_eq_none (by omega)] at hj
    cases hj

/-- C7 at three memory types, the second and third of which are host-visible and
host-coherent, with a filter that admits the second and the third. -/
theorem findMemoryType_selected_compatible_witness :
    (([⟨1, 0⟩, ⟨6, 0⟩, ⟨7, 1⟩] : List VkMemoryType).length ≤ 32 ∧
      findMemoryType [⟨1, 0⟩, ⟨6, 0⟩, ⟨7, 1⟩] 6 6 ≠ BAD_MEMORY_TYPE) ∧
    findMemoryType [⟨1, 0⟩, ⟨6, 0⟩, ⟨7, 1⟩] 6 6 <
      ([⟨1, 0⟩, ⟨6, 0⟩, ⟨7, 1⟩] : List VkMemoryType).length ∧
    Nat.testBit 6 (findMemoryType [⟨1, 0⟩, ⟨6, 0⟩, ⟨7, 1⟩] 6 6) = true ∧
    ∃ t, ([⟨1, 0⟩, ⟨6, 0⟩, ⟨7, 1⟩] : List VkMemoryType)[
        findMemoryType [⟨1, 0⟩, ⟨6, 0⟩, ⟨7, 1⟩] 6 6]? = some t ∧
      ∀ b, Nat.testBit 6 b = true → t.propertyFlags.testBit b = true :=
  ⟨⟨by decide, by decide⟩,
    findMemoryType_selected_compatible [⟨1, 0⟩, ⟨6, 0⟩, ⟨7, 1⟩] 6 6 (by decide) (by decide)⟩

/-- C8: for every type-filter bitmask, required flag set and list of at most 32 reported
memory types, `findMemoryType` returns the sentinel `0xFFFFFFFF` if and only if no index
`i < memoryTypeCount` has bit `i` set in the filter and property flags that include all
required flags. -/
theorem findMemoryType_sentinel_iff (memoryTypes : List VkMemoryType)
    (typeFilter properties : Nat) (hcount : memoryTypes.length ≤ 32) :
    findMemoryType memoryTypes typeFilter properties = BAD_MEMORY_TYPE ↔
      ¬ ∃ i, i < memoryTypes.length ∧
        compatibleMemoryType memoryTypes typeFilter properties i := by
  unfold findMemoryType
  rcases findMemoryType_loop_spec typeFilter properties memoryTypes 0 (by omega) with
    ⟨hbad, hnone⟩ | ⟨j, t, hj, hres, hbit, hsup⟩
  · constructor
    · rintro _ ⟨i, _, t, hi, hb, hs⟩
      exact hnone i t hi ⟨by simpa using hb, hs⟩
    · intro _; exact hbad
  · have hjlt : j < memoryTypes.length := by
      by_contra hlt
      rw [List.getElem?_eq_none (by omega)] at hj
      cases hj
    constructor
    · intro h
      rw [hres] at h
      simp only [Nat.zero_add, BAD_MEMORY_TYPE] at h
      omega
    · intro h
      exact absurd ⟨j, hjlt, t, hj, by simpa using hbit, hsup⟩ h

/-- C8 at a list of two memory types neither of which is host-visible: the sentinel is
returned, and no index is compatible. -/
theorem findMemoryType_sentinel_iff_witness :
    ([⟨1, 0⟩, ⟨1, 1⟩] : List VkMemoryType).length ≤ 32 ∧
    findMemoryType [⟨1, 0⟩, ⟨1, 1⟩] 3 6 = BAD_MEMORY_TYPE ∧
    (findMemoryType [⟨1, 0⟩, ⟨1, 1⟩] 3 6 = BAD_MEMORY_TYPE ↔
      ¬ ∃ i, i < ([⟨1, 0⟩, ⟨1, 1⟩] : List VkMemoryType).length ∧
        compatibleMemoryType [⟨1, 0⟩, ⟨1, 1⟩] 3 6 i) :=
  ⟨by decide, by decide, findMemoryType_sentinel_iff [⟨1, 0⟩, ⟨1, 1⟩] 3 6 (by decide)⟩

/-! ## Buffer and image creation (C9) -/

/-- In `createBuffer`, when the buffer is created and `findMemoryType` yields the sentinel,
the call returns false and its log is the creation alone: the buffer is not destroyed. -/
theorem createBuffer_bad_memory_type (env : CreateEnv) (size usage properties : Nat)
    (buffer bufferMemory : Handle) (s : ImguiVulkanHelper)
    (hcreate : env.createRet = VK_SUCCESS)
    (hbad : findMemoryType env.memoryTypes env.memRequirements.memoryTypeBits properties =
      BAD_MEMORY_TYPE) :
    (createBuffer env size usage properties buffer bufferMemory s).ok = false ∧
    callsDuring s (createBuffer env size usage properties buffer bufferMemory s).state =
      [.vkCreateBuffer size usage VK_SUCCESS env.object] := by
  unfold createBuffer
  simp [hcreate, hbad, callsDuring, ImguiVulkanHelper.log]

/-- In `createImage`, when the image is created and `findMemoryType` yields the sentinel,
the call returns false and its log is the creation alone: the image is not destroyed. -/
theorem createImage_bad_memory_type (env : CreateEnv)
    (width height format tiling usage properties : Nat) (image imageMemory : Handle)
    (s : ImguiVulkanHelper) (hcreate : env.createRet = VK_SUCCESS)
    (hbad : findMemoryType env.memoryTypes env.memRequirements.memoryTypeBits properties =
      BAD_MEMORY_TYPE) :
    (createImage env width height format tiling usage properties image imageMemory s).ok =
      false ∧
    callsDuring s
      (createImage env width height format tiling usage properties image imageMemory s).state =
      [.vkCreateImage width height format tiling usage VK_SUCCESS env.object] := by
  unfold createImage
  simp [hcreate, hbad, callsDuring, ImguiVulkanHelper.log]

/-- C9, at the failing input: the two calls that `loadImage` makes for a 2x2 image,
`createBuffer(16, TRANSFER_SRC, HOST_VISIBLE | HOST_COHERENT, ...)` and
`createImage(2, 2, R8G8B8A8_SRGB, OPTIMAL, TRANSFER_DST | SAMPLED, DEVICE_LOCAL, ...)`, on a
device whose memory requirements for the object admit no memory type with the requested
properties.  The object is created, `findMemoryType` yields the sentinel, the call returns
false, and the buffer (the image) it created is neither destroyed nor bound to memory.
`loadImage` itself, on the first of the two, returns null with the creation of buffer 200 as
its only call: nothing destroys the buffer afterwards. -/
theorem createBuffer_createImage_bad_memory_type_leak :
    loadImage.imageSize 2 2 = 16 ∧
    findMemoryType hostVisibleExcludedEnv.memoryTypes
      hostVisibleExcludedEnv.memRequirements.memoryTypeBits
      (VK_MEMORY_PROPERTY_HOST_VISIBLE_BIT ||| VK_MEMORY_PROPERTY_HOST_COHERENT_BIT) =
      BAD_MEMORY_TYPE ∧
    (createBuffer hostVisibleExcludedEnv 16 VK_BUFFER_USAGE_TRANSFER_SRC_BIT
      (VK_MEMORY_PROPERTY_HOST_VISIBLE_BIT ||| VK_MEMORY_PROPERTY_HOST_COHERENT_BIT) 0 0
      sampleHelper).ok = false ∧
    callsDuring sampleHelper
      (createBuffer hostVisibleExcludedEnv 16 VK_BUFFER_USAGE_TRANSFER_SRC_BIT
        (VK_MEMORY_PROPERTY_HOST_VISIBLE_BIT ||| VK_MEMORY_PROPERTY_HOST_COHERENT_BIT) 0 0
        sampleHelper).state =
      [.vkCreateBuffer 16 VK_BUFFER_USAGE_TRANSFER_SRC_BIT VK_SUCCESS 200] ∧
    200 ∈ (callsDuring sampleHelper
      (createBuffer hostVisibleExcludedEnv 16 VK_BUFFER_USAGE_TRANSFER_SRC_BIT
        (VK_MEMORY_PROPERTY_HOST_VISIBLE_BIT ||| VK_MEMORY_PROPERTY_HOST_COHERENT_BIT) 0 0
        sampleHelper).state).flatMap Call.createdBuffers ∧
    200 ∉ (callsDuring sampleHelper
      (createBuffer hostVisibleExcludedEnv 16 VK_BUFFER_USAGE_TRANSFER_SRC_BIT
        (VK_MEMORY_PROPERTY_HOST_VISIBLE_BIT ||| VK_MEMORY_PROPERTY_HOST_COHERENT_BIT) 0 0
        sampleHelper).state).flatMap Call.destroyedBuffers ∧
    200 ∉ (callsDuring sampleHelper
      (createBuffer hostVisibleExcludedEnv 16 VK_BUFFER_USAGE_TRANSFER_SRC_BIT
        (VK_MEMORY_PROPERTY_HOST_VISIBLE_BIT ||| VK_MEMORY_PROPERTY_HOST_COHERENT_BIT) 0 0
        sampleHelper).state).flatMap Call.boundObjects ∧
    findMemoryType deviceLocalExcludedEnv.memoryTypes
      deviceLocalExcludedEnv.memRequirements.memoryTypeBits
      VK_MEMORY_PROPERTY_DEVICE_LOCAL_BIT = BAD_MEMORY_TYPE ∧
    (createImage deviceLocalExcludedEnv 2 2 VK_FORMAT_R8G8B8A8_SRGB VK_IMAGE_TILING_OPTIMAL
      (VK_IMAGE_USAGE_TRANSFER_DST_BIT ||| VK_IMAGE_USAGE_SAMPLED_BIT)
      VK_MEMORY_PROPERTY_DEVICE_LOCAL_BIT 0 0 sampleHelper).ok = false ∧
    callsDuring sampleHelper
      (createImage deviceLocalExcludedEnv 2 2 VK_FORMAT_R8G8B8A8_SRGB VK_IMAGE_TILING_OPTIMAL
        (VK_IMAGE_USAGE_TRANSFER_DST_BIT ||| VK_IMAGE_USAGE_SAMPLED_BIT)
        VK_MEMORY_PROPERTY_DEVICE_LOCAL_BIT 0 0 sampleHelper).state =
      [.vkCreateImage 2 2 VK_FORMAT_R8G8B8A8_SRGB VK_IMAGE_TILING_OPTIMAL
        (VK_IMAGE_USAGE_TRANSFER_DST_BIT ||| VK_IMAGE_USAGE_SAMPLED_BIT) VK_SUCCESS 210] ∧
    210 ∈ (callsDuring sampleHelper
      (createImage deviceLocalExcludedEnv 2 2 VK_FORMAT_R8G8B8A8_SRGB VK_IMAGE_TILING_OPTIMAL
        (VK_IMAGE_USAGE_TRANSFER_DST_BIT ||| VK_IMAGE_USAGE_SAMPLED_BIT)
        VK_MEMORY_PROPERTY_DEVICE_LOCAL_BIT 0 0 sampleHelper).state).flatMap
        Call.createdImages ∧
    210 ∉ (callsDuring sampleHelper
      (createImage deviceLocalExcludedEnv 2 2 VK_FORMAT_R8G8B8A8_SRGB VK_IMAGE_TILING_OPTIMAL
        (VK_IMAGE_USAGE_TRANSFER_DST_BIT ||| VK_IMAGE_USAGE_SAMPLED_BIT)
        VK_MEMORY_PROPERTY_DEVICE_LOCAL_BIT 0 0 sampleHelper).state).flatMap
        Call.destroyedImages ∧
    210 ∉ (callsDuring sampleHelper
      (createImage deviceLocalExcludedEnv 2 2 VK_FORMAT_R8G8B8A8_SRGB VK_IMAGE_TILING_OPTIMAL
        (VK_IMAGE_USAGE_TRANSFER_DST_BIT ||| VK_IMAGE_USAGE_SAMPLED_BIT)
        VK_MEMORY_PROPERTY_DEVICE_LOCAL_BIT 0 0 sampleHelper).state).flatMap
        Call.boundObjects ∧
    (loadImage stagingTypeExcludedEnv none none sampleHelper).result = 0 ∧
    callsDuring sampleHelper (loadImage stagingTypeExcludedEnv none none sampleHelper).state =
      [.vkCreateBuffer 16 VK_BUFFER_USAGE_TRANSFER_SRC_BIT VK_SUCCESS 200] := by
  decide

/-- On the other two failure paths of `createBuffer` (the buffer cannot be created, or the
memory cannot be allocated) nothing created by the call stays alive. -/
theorem createBuffer_other_failures_clean (env : CreateEnv) (size usage properties : Nat)
    (buffer bufferMemory : Handle) (s : ImguiVulkanHelper)
    (hfail : (createBuffer env size usage properties buffer bufferMemory s).ok = false)
    (hmem : env.createRet = VK_SUCCESS →
      findMemoryType env.memoryTypes env.memRequirements.memoryTypeBits properties ≠
        BAD_MEMORY_TYPE) :
    (∀ h ∈ (callsDuring s
        (createBuffer env size usage properties buffer bufferMemory s).state).flatMap
          Call.createdBuffers,
      h ∈ (callsDuring s
        (createBuffer env size usage properties buffer bufferMemory s).state).flatMap
          Call.destroyedBuffers) ∧
    (callsDuring s (createBuffer env size usage properties buffer bufferMemory s).state).flatMap
      Call.allocatedMemory = [] := by
  unfold createBuffer at hfail ⊢
  by_cases h1 : env.createRet = VK_SUCCESS
  · have h2 := hmem h1
    by_cases h3 : env.allocateRet = VK_SUCCESS
    · simp [h1, h2, h3] at hfail
    · simp [h1, h2, h3, callsDuring, Call.createdBuffers, Call.destroyedBuffers,
        Call.allocatedMemory, ImguiVulkanHelper.log]
  · simp [h1, callsDuring, Call.createdBuffers, Call.destroyedBuffers, Call.allocatedMemory,
      ImguiVulkanHelper.log]

/-! ## Layout transitions (C10) -/

/-- C10: for every pair `(oldLayout, newLayout)` other than (UNDEFINED, TRANSFER_DST_OPTIMAL)
and (TRANSFER_DST_OPTIMAL, SHADER_READ_ONLY_OPTIMAL), `transitionImageLayout` returns false,
records no pipeline barrier, submits nothing to the graphics queue, and frees (exactly once)
the one-shot command buffer it allocated; for each of the two listed pairs, when the
underlying calls succeed, it allocates and begins a command buffer, records exactly one
barrier with the given layouts and image, ends, submits that command buffer, waits, frees it
and returns true.  A successful allocation yields a non-null handle. -/
theorem transitionImageLayout_closed (env : OneShotEnv) (image : Handle)
    (format oldLayout newLayout : Nat) (s : ImguiVulkanHelper)
    (hhandle : env.allocateRet = VK_SUCCESS → env.commandBuffer ≠ VK_NULL_HANDLE) :
    (¬ supportedTransition oldLayout newLayout →
      (transitionImageLayout env image format oldLayout newLayout s).1 = false ∧
      (callsDuring s (transitionImageLayout env image format oldLayout newLayout s).2).any
        Call.isBarrier = false ∧
      (callsDuring s (transitionImageLayout env image format oldLayout newLayout s).2).any
        Call.isSubmit = false ∧
      (env.allocateRet = VK_SUCCESS →
        ((callsDuring s
          (transitionImageLayout env image format oldLayout newLayout s).2).flatMap
            Call.freedCommandBuffers).count env.commandBuffer = 1)) ∧
    (supportedTransition oldLayout newLayout →
      env.allocateRet = VK_SUCCESS → env.beginRet = VK_SUCCESS → env.endRet = VK_SUCCESS →
      env.submitRet = VK_SUCCESS → env.waitIdleRet = VK_SUCCESS →
      (transitionImageLayout env image format oldLayout newLayout s).1 = true ∧
      ∃ sourceStage destinationStage barrier,
        barrier.oldLayout = oldLayout ∧ barrier.newLayout = newLayout ∧
        barrier.image = image ∧
        callsDuring s (transitionImageLayout env image format oldLayout newLayout s).2 =
          [ .vkAllocateCommandBuffers s.commandPool 1 VK_SUCCESS [env.commandBuffer],
            .vkBeginCommandBuffer env.commandBuffer VK_SUCCESS,
            .vkCmdPipelineBarrier env.commandBuffer sourceStage destinationStage barrier,
            .vkEndCommandBuffer env.commandBuffer VK_SUCCESS,
            .vkQueueSubmit s.graphicsQueue [] [env.commandBuffer] [] VK_NULL_HANDLE VK_SUCCESS,
            .vkQueueWaitIdle s.graphicsQueue VK_SUCCESS,
            .vkFreeCommandBuffers s.commandPool [env.commandBuffer] ]) := by
  constructor
  · intro hns
    have hn1 : ¬ (oldLayout = VK_IMAGE_LAYOUT_UNDEFINED ∧
        newLayout = VK_IMAGE_LAYOUT_TRANSFER_DST_OPTIMAL) := fun h => hns (Or.inl h)
    have hn2 : ¬ (oldLayout = VK_IMAGE_LAYOUT_TRANSFER_DST_OPTIMAL ∧
        newLayout = VK_IMAGE_LAYOUT_SHADER_READ_ONLY_OPTIMAL) := fun h => hns (Or.inr h)
    unfold transitionImageLayout beginSingleTimeCommands
    by_cases ha : env.allocateRet = VK_SUCCESS
    · have hh := hhandle ha
      by_cases hb : env.beginRet = VK_SUCCESS
      · simp [ha, hb, hh, hn1, hn2, callsDuring, ImguiVulkanHelper.log, Call.isBarrier,
          Call.isSubmit, Call.freedCommandBuffers]
      · simp [ha, hb, hh, callsDuring, ImguiVulkanHelper.log, Call.isBarrier,
          Call.isSubmit, Call.freedCommandBuffers]
    · simp [ha, callsDuring, ImguiVulkanHelper.log, Call.isBarrier, Call.isSubmit,
        Call.freedCommandBuffers]
  · intro hsup ha hb he hsub hw
    have hh := hhandle ha
    unfold transitionImageLayout beginSingleTimeCommands endSingleTimeCommands
    rcases hsup with ⟨h1, h2⟩ | ⟨h1, h2⟩
    · subst h1 h2
      refine ⟨by simp [ha, hb, he, hsub, hw, hh], VK_PIPELINE_STAGE_TOP_OF_PIPE_BIT,
        VK_PIPELINE_STAGE_TRANSFER_BIT,
        { oldLayout := VK_IMAGE_LAYOUT_UNDEFINED,
          newLayout := VK_IMAGE_LAYOUT_TRANSFER_DST_OPTIMAL, image := image,
          srcAccessMask := 0, dstAccessMask := VK_ACCESS_TRANSFER_WRITE_BIT },
        rfl, rfl, rfl, ?_⟩
      simp [ha, hb, he, hsub, hw, hh, callsDuring, ImguiVulkanHelper.log]
    · subst h1 h2
      refine ⟨by simp [ha, hb, he, hsub, hw, hh], VK_PIPELINE_STAGE_TRANSFER_BIT,
        VK_PIPELINE_STAGE_FRAGMENT_SHADER_BIT,
        { oldLayout := VK_IMAGE_LAYOUT_TRANSFER_DST_OPTIMAL,
          newLayout := VK_IMAGE_LAYOUT_SHADER_READ_ONLY_OPTIMAL, image := image,
          srcAccessMask := VK_ACCESS_TRANSFER_WRITE_BIT,
          dstAccessMask := VK_ACCESS_SHADER_READ_BIT },
        rfl, rfl, rfl, ?_⟩
      simp [ha, hb, he, hsub, hw, hh, callsDuring, ImguiVulkanHelper.log]

/-- C10 at a one-shot command buffer for which every call succeeds: the transition
UNDEFINED to SHADER_READ_ONLY_OPTIMAL is refused, the transition UNDEFINED to
TRANSFER_DST_OPTIMAL is recorded and submitted. -/
theorem transitionImageLayout_closed_witness :
    (sampleOneShotEnv.allocateRet = VK_SUCCESS →
      sampleOneShotEnv.commandBuffer ≠ VK_NULL_HANDLE) ∧
    ¬ supportedTransition VK_IMAGE_LAYOUT_UNDEFINED VK_IMAGE_LAYOUT_SHADER_READ_ONLY_OPTIMAL ∧
    (transitionImageLayout sampleOneShotEnv 210 VK_FORMAT_R8G8B8A8_SRGB
      VK_IMAGE_LAYOUT_UNDEFINED VK_IMAGE_LAYOUT_SHADER_READ_ONLY_OPTIMAL sampleHelper).1 = false ∧
    ((callsDuring sampleHelper (transitionImageLayout sampleOneShotEnv 210
      VK_FORMAT_R8G8B8A8_SRGB VK_IMAGE_LAYOUT_UNDEFINED VK_IMAGE_LAYOUT_SHADER_READ_ONLY_OPTIMAL
      sampleHelper).2).flatMap Call.freedCommandBuffers).count
        sampleOneShotEnv.commandBuffer = 1 ∧
    supportedTransition VK_IMAGE_LAYOUT_UNDEFINED VK_IMAGE_LAYOUT_TRANSFER_DST_OPTIMAL ∧
    (transitionImageLayout sampleOneShotEnv 210 VK_FORMAT_R8G8B8A8_SRGB
      VK_IMAGE_LAYOUT_UNDEFINED VK_IMAGE_LAYOUT_TRANSFER_DST_OPTIMAL sampleHelper).1 = true :=
  ⟨by decide, by decide,
    ((transitionImageLayout_closed sampleOneShotEnv 210 VK_FORMAT_R8G8B8A8_SRGB
      VK_IMAGE_LAYOUT_UNDEFINED VK_IMAGE_LAYOUT_SHADER_READ_ONLY_OPTIMAL sampleHelper
      (by decide)).1 (by decide)).1,
    ((transitionImageLayout_closed sampleOneShotEnv 210 VK_FORMAT_R8G8B8A8_SRGB
      VK_IMAGE_LAYOUT_UNDEFINED VK_IMAGE_LAYOUT_SHADER_READ_ONLY_OPTIMAL sampleHelper
      (by decide)).1 (by decide)).2.2.2 rfl,
    by decide,
    ((transitionImageLayout_closed sampleOneShotEnv 210 VK_FORMAT_R8G8B8A8_SRGB
      VK_IMAGE_LAYOUT_UNDEFINED VK_IMAGE_LAYOUT_TRANSFER_DST_OPTIMAL sampleHelper
      (by decide)).2 (by decide) rfl rfl rfl rfl rfl).1⟩

/-! ## One-shot command buffers (C11) -/

/-- C11: for every command buffer and every outcome of end, submit and queue-wait-idle,
`endSingleTimeCommands` frees the command buffer exactly once (its log holds one
`vkFreeCommandBuffers`, of that buffer alone) and only after the last of those steps it
performed (the free is the last call of the log), returns true if and only if end, submit and
wait-idle all succeeded, and never submits after a failed end nor waits after a failed end or
a failed submit. -/
theorem endSingleTimeCommands_frees_last (env : OneShotEnv) (commandBuffer : Handle)
    (s : ImguiVulkanHelper) :
    (callsDuring s (endSingleTimeCommands env commandBuffer s).2).flatMap
      Call.freedCommandBuffers = [commandBuffer] ∧
    ((callsDuring s (endSingleTimeCommands env commandBuffer s).2).filter
      (fun c => c.freedCommandBuffers ≠ [])).length = 1 ∧
    (callsDuring s (endSingleTimeCommands env commandBuffer s).2).getLast? =
      some (.vkFreeCommandBuffers s.commandPool [commandBuffer]) ∧
    ((endSingleTimeCommands env commandBuffer s).1 = true ↔
      env.endRet = VK_SUCCESS ∧ env.submitRet = VK_SUCCESS ∧ env.waitIdleRet = VK_SUCCESS) ∧
    (env.endRet ≠ VK_SUCCESS →
      (callsDuring s (endSingleTimeCommands env commandBuffer s).2).any Call.isSubmit = false ∧
      (callsDuring s (endSingleTimeCommands env commandBuffer s).2).any
        Call.isQueueWaitIdle = false) ∧
    (env.submitRet ≠ VK_SUCCESS →
      (callsDuring s (endSingleTimeCommands env commandBuffer s).2).any
        Call.isQueueWaitIdle = false) := by
  unfold endSingleTimeCommands
  by_cases he : env.endRet = VK_SUCCESS
  · by_cases hs : env.submitRet = VK_SUCCESS
    · by_cases hw : env.waitIdleRet = VK_SUCCESS
      · simp [he, hs, hw, callsDuring, ImguiVulkanHelper.log, Call.freedCommandBuffers,
          Call.isSubmit, Call.isQueueWaitIdle]
      · simp [he, hs, hw, callsDuring, ImguiVulkanHelper.log, Call.freedCommandBuffers,
          Call.isSubmit, Call.isQueueWaitIdle]
    · simp [he, hs, callsDuring, ImguiVulkanHelper.log, Call.freedCommandBuffers,
        Call.isSubmit, Call.isQueueWaitIdle]
  · simp [he, callsDuring, ImguiVulkanHelper.log, Call.freedCommandBuffers,
      Call.isSubmit, Call.isQueueWaitIdle]

/-! ## Swapchain negotiation (C16 to C20) -/

theorem find?_first (p : VkSurfaceFormatKHR → Bool) :
    ∀ (l : List VkSurfaceFormatKHR) (f : VkSurfaceFormatKHR), l.find? p = some f →
      ∃ i : Nat, l[i]? = some f ∧ p f = true ∧
        ∀ j : Nat, j < i → ∀ g : VkSurfaceFormatKHR, l[j]? = some g → p g = false := by
  intro l
  induction l with
  | nil => intro f h; simp at h
  | cons a rest ih =>
    intro f h
    rw [List.find?_cons] at h
    cases hpa : p a with
    | true =>
      rw [hpa] at h
      simp only [Option.some.injEq] at h
      subst h
      exact ⟨0, by simp, hpa, fun j hj => absurd hj (Nat.not_lt_zero j)⟩
    | false =>
      rw [hpa] at h
      obtain ⟨i, hi, hpf, hbefore⟩ := ih f h
      refine ⟨i + 1, by simpa using hi, hpf, ?_⟩
      intro j hj g hg
      cases j with
      | zero =>
        simp only [List.getElem?_cons_zero, Option.some.injEq] at hg
        rw [← hg]; exact hpa
      | succ j =>
        simp only [List.getElem?_cons_succ] at hg
        exact hbefore j (by omega) g hg

/-- C16: for every non-empty list of surface formats, `chooseSwapSurfaceFormat` returns the
first entry whose format is B8G8R8A8_SRGB and whose colour space is SRGB_NONLINEAR when such
an entry exists, and otherwise returns element 0 of the list; it returns a value (the read of
element 0 is in bounds) whenever the list is non-empty. -/
theorem chooseSwapSurfaceFormat_first_preferred (availableFormats : List VkSurfaceFormatKHR)
    (hne : availableFormats ≠ []) :
    ∃ f, chooseSwapSurfaceFormat availableFormats = some f ∧
      ((∃ i : Nat, availableFormats[i]? = some f ∧ f.isPreferred ∧
          ∀ j : Nat, j < i → ∀ g : VkSurfaceFormatKHR,
            availableFormats[j]? = some g → ¬ g.isPreferred) ∨
        ((∀ g ∈ availableFormats, ¬ g.isPreferred) ∧ availableFormats[0]? = some f)) := by
  unfold chooseSwapSurfaceFormat
  cases hfind : availableFormats.find? (fun availableFormat =>
      availableFormat.format == VK_FORMAT_B8G8R8A8_SRGB &&
      availableFormat.colorSpace == VK_COLOR_SPACE_SRGB_NONLINEAR_KHR) with
  | some f =>
    obtain ⟨i, hi, hpf, hbefore⟩ := find?_first _ availableFormats f hfind
    refine ⟨f, rfl, Or.inl ⟨i, hi, ?_, ?_⟩⟩
    · simpa [VkSurfaceFormatKHR.isPreferred] using hpf
    · intro j hj g hg hpref
      have := hbefore j hj g hg
      simp [VkSurfaceFormatKHR.isPreferred] at hpref
      simp [hpref.1, hpref.2] at this
  | none =>
    cases availableFormats with
    | nil => exact absurd rfl hne
    | cons a rest =>
      refine ⟨a, by simp, Or.inr ⟨?_, by simp⟩⟩
      intro g hg hpref
      have := List.find?_eq_none.1 hfind g hg
      simp [VkSurfaceFormatKHR.isPreferred] at hpref
      simp [hpref.1, hpref.2] at this

/-- C16 at a list whose second and third entries are preferred: the second is chosen. -/
theorem chooseSwapSurfaceFormat_first_preferred_witness :
    ([⟨44, 0⟩, ⟨50, 0⟩, ⟨50, 0⟩] : List VkSurfaceFormatKHR) ≠ [] ∧
    chooseSwapSurfaceFormat [⟨44, 0⟩, ⟨50, 0⟩, ⟨50, 0⟩] = some ⟨50, 0⟩ ∧
    chooseSwapSurfaceFormat [⟨44, 0⟩, ⟨37, 0⟩] = some ⟨44, 0⟩ ∧
    ∃ f, chooseSwapSurfaceFormat [⟨44, 0⟩, ⟨50, 0⟩, ⟨50, 0⟩] = some f ∧
      ((∃ i : Nat, ([⟨44, 0⟩, ⟨50, 0⟩, ⟨50, 0⟩] : List VkSurfaceFormatKHR)[i]? = some f ∧
          f.isPreferred ∧
          ∀ j : Nat, j < i → ∀ g : VkSurfaceFormatKHR,
            ([⟨44, 0⟩, ⟨50, 0⟩, ⟨50, 0⟩] : List VkSurfaceFormatKHR)[j]? = some g →
              ¬ g.isPreferred) ∨
        ((∀ g ∈ ([⟨44, 0⟩, ⟨50, 0⟩, ⟨50, 0⟩] : List VkSurfaceFormatKHR), ¬ g.isPreferred) ∧
          ([⟨44, 0⟩, ⟨50, 0⟩, ⟨50, 0⟩] : List VkSurfaceFormatKHR)[0]? = some f)) :=
  ⟨by decide, by decide, by decide,
    chooseSwapSurfaceFormat_first_preferred [⟨44, 0⟩, ⟨50, 0⟩, ⟨50, 0⟩] (by decide)⟩

/-- C17: for every list of present modes (the empty list included), in the build without the
VSYNC flag `chooseSwapPresentMode` returns MAILBOX if and only if MAILBOX occurs in the list
and returns FIFO otherwise; in the build with the VSYNC flag it returns FIFO for every
list. -/
theorem chooseSwapPresentMode_mailbox_or_fifo (availablePresentModes : List Nat) :
    (chooseSwapPresentMode false availablePresentModes = VK_PRESENT_MODE_MAILBOX_KHR ↔
      VK_PRESENT_MODE_MAILBOX_KHR ∈ availablePresentModes) ∧
    (VK_PRESENT_MODE_MAILBOX_KHR ∉ availablePresentModes →
      chooseSwapPresentMode false availablePresentModes = VK_PRESENT_MODE_FIFO_KHR) ∧
    chooseSwapPresentMode true availablePresentModes = VK_PRESENT_MODE_FIFO_KHR := by
  have hkey : ∀ l : List Nat,
      (VK_PRESENT_MODE_MAILBOX_KHR ∈ l →
        l.find? (fun m => m == VK_PRESENT_MODE_MAILBOX_KHR) =
          some VK_PRESENT_MODE_MAILBOX_KHR) ∧
      (VK_PRESENT_MODE_MAILBOX_KHR ∉ l →
        l.find? (fun m => m == VK_PRESENT_MODE_MAILBOX_KHR) = none) := by
    intro l
    induction l with
    | nil => simp
    | cons a rest ih =>
      by_cases ha : a = VK_PRESENT_MODE_MAILBOX_KHR
      · subst ha; simp
      · constructor
        · intro hmem
          have hrest : VK_PRESENT_MODE_MAILBOX_KHR ∈ rest := by
            rcases List.mem_cons.1 hmem with h | h
            · exact absurd h.symm ha
            · exact h
          rw [List.find?_cons]
          have : (a == VK_PRESENT_MODE_MAILBOX_KHR) = false := by simpa using ha
          rw [this]
          exact ih.1 hrest
        · intro hmem
          rw [List.find?_cons]
          have : (a == VK_PRESENT_MODE_MAILBOX_KHR) = false := by simpa using ha
          rw [this]
          exact ih.2 (fun h => hmem (List.mem_cons_of_mem _ h))
  refine ⟨?_, ?_, ?_⟩
  · by_cases hmem : VK_PRESENT_MODE_MAILBOX_KHR ∈ availablePresentModes
    · simp [chooseSwapPresentMode, (hkey availablePresentModes).1 hmem, hmem]
    · simp [chooseSwapPresentMode, (hkey availablePresentModes).2 hmem, hmem]
  · intro hmem
    simp [chooseSwapPresentMode, (hkey availablePresentModes).2 hmem]
  · simp [chooseSwapPresentMode]

/-- C18 as stated fails: the source tests the width of the current extent alone.  On a
record whose current extent is (0xFFFFFFFF, 600), which is not the undefined extent
(0xFFFFFFFF, 0xFFFFFFFF), and a window of 800 x 400, `chooseSwapExtent` does not return the
current extent: it returns the clamped window size 800 x 400. -/
theorem chooseSwapExtent_width_only_counterexample :
    widthOnlyUndefinedCapabilities.currentExtent ≠ ⟨UINT32_MAX, UINT32_MAX⟩ ∧
    widthOnlyUndefinedCapabilities.currentExtent = ⟨UINT32_MAX, 600⟩ ∧
    chooseSwapExtent widthOnlyUndefinedCapabilities (800, 400) = ⟨800, 400⟩ ∧
    chooseSwapExtent widthOnlyUndefinedCapabilities (800, 400) ≠
      widthOnlyUndefinedCapabilities.currentExtent := by
  decide

/-- C18, amended: for every surface-capabilities record and every window framebuffer size: if
the width of the current extent is not `0xFFFFFFFF`, `chooseSwapExtent` returns the current
extent unchanged (so it does for every current extent other than the undefined one on a
record that sets the width to `0xFFFFFFFF` only together with the height); if the width is
`0xFFFFFFFF` it returns, per component, the window framebuffer dimension clamped to the
declared limits: the dimension itself when it lies within them, the minimum when it is
below, the maximum when it is above, so that `minImageExtent <= result` always and
`result <= maxImageExtent` whenever `minImageExtent <= maxImageExtent`. -/
theorem chooseSwapExtent_current_or_clamped (capabilities : VkSurfaceCapabilitiesKHR)
    (framebufferSize : Int × Int) :
    (capabilities.currentExtent.width ≠ UINT32_MAX →
      chooseSwapExtent capabilities framebufferSize = capabilities.currentExtent) ∧
    ((capabilities.currentExtent.width = UINT32_MAX →
        capabilities.currentExtent.height = UINT32_MAX) →
      capabilities.currentExtent ≠ ⟨UINT32_MAX, UINT32_MAX⟩ →
      chooseSwapExtent capabilities framebufferSize = capabilities.currentExtent) ∧
    (capabilities.currentExtent.width = UINT32_MAX →
      (capabilities.minImageExtent.width ≤
          (chooseSwapExtent capabilities framebufferSize).width ∧
        capabilities.minImageExtent.height ≤
          (chooseSwapExtent capabilities framebufferSize).height) ∧
      (capabilities.minImageExtent.width ≤ capabilities.maxImageExtent.width →
        (chooseSwapExtent capabilities framebufferSize).width ≤
          capabilities.maxImageExtent.width) ∧
      (capabilities.minImageExtent.height ≤ capabilities.maxImageExtent.height →
        (chooseSwapExtent capabilities framebufferSize).height ≤
          capabilities.maxImageExtent.height) ∧
      (capabilities.minImageExtent.width ≤ toUint32 framebufferSize.1 →
        toUint32 framebufferSize.1 ≤ capabilities.maxImageExtent.width →
        (chooseSwapExtent capabilities framebufferSize).width = toUint32 framebufferSize.1) ∧
      (capabilities.minImageExtent.height ≤ toUint32 framebufferSize.2 →
        toUint32 framebufferSize.2 ≤ capabilities.maxImageExtent.height →
        (chooseSwapExtent capabilities framebufferSize).height = toUint32 framebufferSize.2) ∧
      (toUint32 framebufferSize.1 < capabilities.minImageExtent.width →
        (chooseSwapExtent capabilities framebufferSize).width =
          capabilities.minImageExtent.width) ∧
      (toUint32 framebufferSize.2 < capabilities.minImageExtent.height →
        (chooseSwapExtent capabilities framebufferSize).height =
          capabilities.minImageExtent.height) ∧
      (capabilities.maxImageExtent.width < toUint32 framebufferSize.1 →
        capabilities.minImageExtent.width ≤ capabilities.maxImageExtent.width →
        (chooseSwapExtent capabilities framebufferSize).width =
          capabilities.maxImageExtent.width) ∧
      (capabilities.maxImageExtent.height < toUint32 framebufferSize.2 →
        capabilities.minImageExtent.height ≤ capabilities.maxImageExtent.height →
        (chooseSwapExtent capabilities framebufferSize).height =
          capabilities.maxImageExtent.height)) ∧
    (0 ≤ framebufferSize.1 → framebufferSize.1 < 2 ^ 32 →
      (toUint32 framebufferSize.1 : Int) = framebufferSize.1) ∧
    (0 ≤ framebufferSize.2 → framebufferSize.2 < 2 ^ 32 →
      (toUint32 framebufferSize.2 : Int) = framebufferSize.2) := by
  have hcur : capabilities.currentExtent.width ≠ UINT32_MAX →
      chooseSwapExtent capabilities framebufferSize = capabilities.currentExtent := by
    intro h
    unfold chooseSwapExtent
    rw [if_pos h]
  have hcast : ∀ i : Int, 0 ≤ i → i < 2 ^ 32 → (toUint32 i : Int) = i := by
    intro i h0 h1
    unfold toUint32
    rw [Int.emod_eq_of_lt h0 h1]
    exact Int.toNat_of_nonneg h0
  refine ⟨hcur, ?_, ?_, hcast _, hcast _⟩
  · intro hwf hne
    apply hcur
    intro hw
    apply hne
    have hh := hwf hw
    cases hc : capabilities.currentExtent with
    | mk w h =>
      rw [hc] at hw hh
      simp only at hw hh
      rw [hw, hh]
  · intro h
    unfold chooseSwapExtent
    rw [if_neg (not_not.2 h)]
    dsimp only
    refine ⟨⟨?_, ?_⟩, ?_, ?_, ?_, ?_, ?_, ?_, ?_, ?_⟩ <;> omega

/-- C18 amended, at the undefined extent and a 5000 x 0 window: the result is 4096 x 1,
within the limits 1 x 1 and 4096 x 4096. -/
theorem chooseSwapExtent_current_or_clamped_witness :
    undefinedExtentCapabilities.currentExtent.width = UINT32_MAX ∧
    chooseSwapExtent undefinedExtentCapabilities (5000, 0) = ⟨4096, 1⟩ ∧
    (undefinedExtentCapabilities.minImageExtent.width ≤
        (chooseSwapExtent undefinedExtentCapabilities (5000, 0)).width ∧
      undefinedExtentCapabilities.minImageExtent.height ≤
        (chooseSwapExtent undefinedExtentCapabilities (5000, 0)).height) ∧
    (chooseSwapExtent undefinedExtentCapabilities (5000, 0)).width ≤
      undefinedExtentCapabilities.maxImageExtent.width ∧
    (chooseSwapExtent undefinedExtentCapabilities (5000, 0)).height ≤
      undefinedExtentCapabilities.maxImageExtent.height :=
  ⟨rfl, by decide,
    ((chooseSwapExtent_current_or_clamped undefinedExtentCapabilities (5000, 0)).2.2.1 rfl).1,
    ((chooseSwapExtent_current_or_clamped undefinedExtentCapabilities (5000, 0)).2.2.1
      rfl).2.1 (by decide),
    ((chooseSwapExtent_current_or_clamped undefinedExtentCapabilities (5000, 0)).2.2.1
      rfl).2.2.1 (by decide)⟩

/-- C18 evaluated: a reported extent is returned as it is; with the undefined extent an
800x600 window gives 800x600, and a 5000x0 window is clamped to 4096x1. -/
theorem chooseSwapExtent_examples :
    chooseSwapExtent sampleRecreateEnv.swapChain.support.capabilities (800, 600) = ⟨640, 480⟩ ∧
    chooseSwapExtent undefinedExtentCapabilities (800, 600) = ⟨800, 600⟩ ∧
    chooseSwapExtent undefinedExtentCapabilities (5000, 0) = ⟨4096, 1⟩ := by
  decide

/-- The first call `createSwapChain` makes is `vkCreateSwapchainKHR`, with the create-info
it has built. -/
theorem createSwapChain_first_call (env : SwapChainEnv) (s : ImguiVulkanHelper) :
    (callsDuring s (createSwapChain env s).2).head? =
      some (.vkCreateSwapchainKHR (createSwapChain.createInfo env s) env.createRet
        env.swapChain) := by
  unfold createSwapChain
  by_cases h : env.createRet = VK_SUCCESS
  · simp [h, callsDuring, ImguiVulkanHelper.log]
  · simp [h, callsDuring, ImguiVulkanHelper.log]

/-- C19 as stated fails where `minImageCount + 1` wraps in `uint32_t`: a surface with
`minImageCount = 0xFFFFFFFF` and no maximum (`maxImageCount = 0`) makes `createSwapChain`
request 0 images, which is neither `minImageCount + 1` nor greater than `minImageCount`. -/
theorem createSwapChain_image_count_wraps_counterexample :
    wrappingCountCapabilities.minImageCount = 4294967295 ∧
    wrappingCountCapabilities.maxImageCount = 0 ∧
    createSwapChain.imageCount wrappingCountCapabilities = 0 ∧
    (createSwapChain.createInfo
      { sampleRecreateEnv.swapChain with
        support := { sampleRecreateEnv.swapChain.support with
          capabilities := wrappingCountCapabilities } } sampleHelper).minImageCount = 0 ∧
    ¬ ((wrappingCountCapabilities.maxImageCount = 0 ∨
          wrappingCountCapabilities.minImageCount + 1 ≤
            wrappingCountCapabilities.maxImageCount) →
        createSwapChain.imageCount wrappingCountCapabilities =
          wrappingCountCapabilities.minImageCount + 1) ∧
    ¬ ((wrappingCountCapabilities.maxImageCount = 0 ∨
          wrappingCountCapabilities.minImageCount + 1 ≤
            wrappingCountCapabilities.maxImageCount) →
        wrappingCountCapabilities.minImageCount <
          createSwapChain.imageCount wrappingCountCapabilities) := by
  decide

/-- C19, amended: for every surface-capabilities record whose `minImageCount` is below
`0xFFFFFFFF` (so that `minImageCount + 1` does not wrap in `uint32_t`), the image count that
`createSwapChain` requests in its `vkCreateSwapchainKHR` call equals `minImageCount + 1` when
`maxImageCount` is 0 or `minImageCount + 1 <= maxImageCount`, and equals `maxImageCount`
otherwise; hence it never exceeds a non-zero `maxImageCount` and is greater than
`minImageCount` whenever no cap applies. -/
theorem createSwapChain_image_count (env : SwapChainEnv) (s : ImguiVulkanHelper)
    (hmin : env.support.capabilities.minImageCount + 1 < 2 ^ 32) :
    ∃ info, (callsDuring s (createSwapChain env s).2).head? =
        some (.vkCreateSwapchainKHR info env.createRet env.swapChain) ∧
      ((env.support.capabilities.maxImageCount = 0 ∨
          env.support.capabilities.minImageCount + 1 ≤
            env.support.capabilities.maxImageCount) →
        info.minImageCount = env.support.capabilities.minImageCount + 1) ∧
      (¬ (env.support.capabilities.maxImageCount = 0 ∨
          env.support.capabilities.minImageCount + 1 ≤
            env.support.capabilities.maxImageCount) →
        info.minImageCount = env.support.capabilities.maxImageCount) ∧
      (env.support.capabilities.maxImageCount ≠ 0 →
        info.minImageCount ≤ env.support.capabilities.maxImageCount) ∧
      ((env.support.capabilities.maxImageCount = 0 ∨
          env.support.capabilities.minImageCount + 1 ≤
            env.support.capabilities.maxImageCount) →
        env.support.capabilities.minImageCount < info.minImageCount) := by
  refine ⟨createSwapChain.createInfo env s, createSwapChain_first_call env s, ?_⟩
  have hinfo : (createSwapChain.createInfo env s).minImageCount =
      createSwapChain.imageCount env.support.capabilities := rfl
  rw [hinfo]
  unfold createSwapChain.imageCount
  rw [Nat.mod_eq_of_lt hmin]
  dsimp only
  split
  · next h => refine ⟨?_, ?_, ?_, ?_⟩ <;> omega
  · next h => refine ⟨?_, ?_, ?_, ?_⟩ <;> omega

/-- C19 amended, at a surface that needs 2 images and allows at most 3: 3 images are requested; with
a cap of 2, 2 images are requested. -/
theorem createSwapChain_image_count_witness :
    sampleRecreateEnv.swapChain.support.capabilities.minImageCount + 1 < 2 ^ 32 ∧
    createSwapChain.imageCount sampleRecreateEnv.swapChain.support.capabilities = 3 ∧
    createSwapChain.imageCount
      { sampleRecreateEnv.swapChain.support.capabilities with maxImageCount := 2 } = 2 ∧
    createSwapChain.imageCount
      { sampleRecreateEnv.swapChain.support.capabilities with maxImageCount := 0 } = 3 ∧
    ∃ info, (callsDuring sampleHelper
        (createSwapChain sampleRecreateEnv.swapChain sampleHelper).2).head? =
        some (.vkCreateSwapchainKHR info sampleRecreateEnv.swapChain.createRet
          sampleRecreateEnv.swapChain.swapChain) ∧
      info.minImageCount = 3 :=
  ⟨by decide, by decide, by decide, by decide,
    (createSwapChain_image_count sampleRecreateEnv.swapChain sampleHelper (by decide)).elim
      (fun info h => ⟨info, h.1, h.2.1 (by decide)⟩)⟩

/-- C20: for every pair of queue-family indices that `findQueueFamilies` resolves, the
create-info that `createSwapChain` passes to `vkCreateSwapchainKHR` has sharing mode
CONCURRENT with both family indices listed if and only if the graphics family index differs
from the present family index, and sharing mode EXCLUSIVE if and only if they are equal. -/
theorem createSwapChain_sharing_mode (env : SwapChainEnv) (s : ImguiVulkanHelper) :
    ∃ info, (callsDuring s (createSwapChain env s).2).head? =
        some (.vkCreateSwapchainKHR info env.createRet env.swapChain) ∧
      ((info.imageSharingMode = VK_SHARING_MODE_CONCURRENT ∧
          info.queueFamilyIndices =
            [toUint32 (findQueueFamilies env.queueFamilies).graphicsFamily,
              toUint32 (findQueueFamilies env.queueFamilies).presentFamily]) ↔
        (findQueueFamilies env.queueFamilies).graphicsFamily ≠
          (findQueueFamilies env.queueFamilies).presentFamily) ∧
      (info.imageSharingMode = VK_SHARING_MODE_EXCLUSIVE ↔
        (findQueueFamilies env.queueFamilies).graphicsFamily =
          (findQueueFamilies env.queueFamilies).presentFamily) := by
  refine ⟨createSwapChain.createInfo env s, createSwapChain_first_call env s, ?_⟩
  unfold createSwapChain.createInfo
  dsimp only
  by_cases h : (findQueueFamilies env.queueFamilies).graphicsFamily =
      (findQueueFamilies env.queueFamilies).presentFamily
  · simp [h]
  · simp [h]

/-- C20 evaluated: one family that does graphics and present gives EXCLUSIVE; a graphics
family 0 and a present family 1 give CONCURRENT with the indices 0 and 1. -/
theorem createSwapChain_sharing_mode_examples :
    (createSwapChain.createInfo sampleRecreateEnv.swapChain sampleHelper).imageSharingMode =
      VK_SHARING_MODE_EXCLUSIVE ∧
    findQueueFamilies splitQueuesEnv.queueFamilies = ⟨0, 1⟩ ∧
    (createSwapChain.createInfo splitQueuesEnv sampleHelper).imageSharingMode =
      VK_SHARING_MODE_CONCURRENT ∧
    (createSwapChain.createInfo splitQueuesEnv sampleHelper).queueFamilyIndices = [0, 1] := by
  decide

/-! ## Device selection (C14, C15) -/

/-- C14, at the failing input: a device that reports the extension
`VK_KHR_swapchain_mutable_format` and does not report `VK_KHR_swapchain`, the one required
extension.  `strncmp` over `strlen("VK_KHR_swapchain")` characters finds the required name
in the longer one, `checkDeviceExtensionSupport` returns true and `isDeviceSuitable` returns
true, although condition (c) of the claim fails. -/
theorem isDeviceSuitable_accepts_longer_extension_name :
    deviceExtensionsRequired = ["VK_KHR_swapchain"] ∧
    "VK_KHR_swapchain" ∉ mutableFormatOnlyDeviceInfo.extensions ∧
    strncmp "VK_KHR_swapchain".toList "VK_KHR_swapchain_mutable_format".toList
      (strlen "VK_KHR_swapchain".toList) = 0 ∧
    checkDeviceExtensionSupport mutableFormatOnlyDeviceInfo.extensions = true ∧
    isDeviceSuitable mutableFormatOnlyDeviceInfo = true ∧
    isDeviceSuitable sampleDeviceInfo = true ∧
    isDeviceSuitable noAnisotropyDeviceInfo = false := by
  decide

theorem char_eq_of_toNat_sub_eq_zero (a b : Char)
    (h : ((a.toNat : Int) - (b.toNat : Int)) = 0) : a = b := by
  have h1 : a.toNat = b.toNat := by omega
  rw [← Char.ofNat_toNat a, ← Char.ofNat_toNat b, h1]

/-- Over the length of its first argument, `strncmp` returns 0 exactly when the first string
is an initial segment of the second. -/
theorem strncmp_strlen_eq_zero_iff :
    ∀ (s1 s2 : List Char), (∀ c ∈ s1, c ≠ NUL) →
      (strncmp s1 s2 (strlen s1) = 0 ↔ s1 <+: s2) := by
  intro s1
  induction s1 with
  | nil => intro s2 _; simp [strncmp, strlen]
  | cons x rest ih =>
    intro s2 hnul
    have hx : x ≠ NUL := hnul x (List.mem_cons_self _ _)
    have hrest : ∀ c ∈ rest, c ≠ NUL := fun c hc => hnul c (List.mem_cons_of_mem _ hc)
    have hlen : strlen (x :: rest) = strlen rest + 1 := rfl
    rw [hlen]
    unfold strncmp
    cases s2 with
    | nil =>
      simp only [List.headD_cons, List.headD_nil, ne_eq, hx, not_false_eq_true, if_true]
      constructor
      · intro h
        exact absurd (char_eq_of_toNat_sub_eq_zero _ _ h) hx
      · intro h
        simp at h
    | cons y rest2 =>
      simp only [List.headD_cons, List.tail_cons, ne_eq]
      by_cases hxy : x = y
      · subst hxy
        simp only [not_true_eq_false, if_false, hx]
        rw [ih rest2 hrest, List.cons_prefix_cons]
        simp
      · simp only [hxy, not_false_eq_true, if_true]
        constructor
        · intro h
          exact absurd (char_eq_of_toNat_sub_eq_zero _ _ h) hxy
        · intro h
          exact absurd (List.cons_prefix_cons.1 h).1 hxy

/-- The loop of `findQueueFamilies` leaves a graphics family exactly when one was there
before or a remaining family does graphics, and likewise for the present family. -/
theorem findQueueFamilies_loop_found :
    ∀ (l : List QueueFamily) (i : Int) (indices : QueueFamilyIndices), 0 ≤ i →
      ((findQueueFamilies.loop l i indices).graphicsFamily ≠ -1 ↔
        (indices.graphicsFamily ≠ -1 ∨
          ∃ q ∈ l, q.queueFlags &&& VK_QUEUE_GRAPHICS_BIT ≠ 0)) ∧
      ((findQueueFamilies.loop l i indices).presentFamily ≠ -1 ↔
        (indices.presentFamily ≠ -1 ∨ ∃ q ∈ l, q.presentSupport = true)) := by
  intro l
  induction l with
  | nil => intro i indices _; simp [findQueueFamilies.loop]
  | cons q rest ih =>
    intro i indices hi
    have hi1 : i ≠ -1 := by omega
    obtain ⟨indices2, hloop, hA, hB⟩ : ∃ indices2 : QueueFamilyIndices,
        findQueueFamilies.loop (q :: rest) i indices =
          (if indices2.isComplete then indices2
            else findQueueFamilies.loop rest (i + 1) indices2) ∧
        (indices2.graphicsFamily ≠ -1 ↔
          (indices.graphicsFamily ≠ -1 ∨ q.queueFlags &&& VK_QUEUE_GRAPHICS_BIT ≠ 0)) ∧
        (indices2.presentFamily ≠ -1 ↔
          (indices.presentFamily ≠ -1 ∨ q.presentSupport = true)) := by
      refine ⟨_, rfl, ?_, ?_⟩
      · by_cases hg : q.queueFlags &&& VK_QUEUE_GRAPHICS_BIT ≠ 0 <;>
        by_cases hp : q.presentSupport = true <;> simp_all
      · by_cases hg : q.queueFlags &&& VK_QUEUE_GRAPHICS_BIT ≠ 0 <;>
        by_cases hp : q.presentSupport = true <;> simp_all
    rw [hloop]
    by_cases hc : indices2.isComplete = true
    · rw [if_pos hc]
      simp only [QueueFamilyIndices.isComplete, Bool.and_eq_true, bne_iff_ne] at hc
      constructor
      · refine ⟨fun _ => ?_, fun _ => hc.1⟩
        rcases hA.1 hc.1 with h | h
        · exact Or.inl h
        · exact Or.inr ⟨q, List.mem_cons_self _ _, h⟩
      · refine ⟨fun _ => ?_, fun _ => hc.2⟩
        rcases hB.1 hc.2 with h | h
        · exact Or.inl h
        · exact Or.inr ⟨q, List.mem_cons_self _ _, h⟩
    · rw [if_neg hc]
      obtain ⟨ihg, ihp⟩ := ih (i + 1) indices2 (by omega)
      constructor
      · rw [ihg, hA]
        constructor
        · rintro ((h | h) | ⟨r, hr, h⟩)
          · exact Or.inl h
          · exact Or.inr ⟨q, List.mem_cons_self _ _, h⟩
          · exact Or.inr ⟨r, List.mem_cons_of_mem _ hr, h⟩
        · rintro (h | ⟨r, hr, h⟩)
          · exact Or.inl (Or.inl h)
          · rcases List.mem_cons.1 hr with e | e
            · subst e; exact Or.inl (Or.inr h)
            · exact Or.inr ⟨r, e, h⟩
      · rw [ihp, hB]
        constructor
        · rintro ((h | h) | ⟨r, hr, h⟩)
          · exact Or.inl h
          · exact Or.inr ⟨q, List.mem_cons_self _ _, h⟩
          · exact Or.inr ⟨r, List.mem_cons_of_mem _ hr, h⟩
        · rintro (h | ⟨r, hr, h⟩)
          · exact Or.inl (Or.inl h)
          · rcases List.mem_cons.1 hr with e | e
            · subst e; exact Or.inl (Or.inr h)
            · exact Or.inr ⟨r, e, h⟩

/-- What `isDeviceSuitable` decides: (a) some queue family does graphics, (b) some queue
family presents to the surface, (c) every required extension name is an initial segment of
the name of an extension the device reports, (d) the device reports a surface format and a
present mode, and (e) the device has the sampler-anisotropy feature. -/
theorem isDeviceSuitable_iff (device : PhysicalDeviceInfo) :
    isDeviceSuitable device = true ↔
      (∃ q ∈ device.queueFamilies, q.queueFlags &&& VK_QUEUE_GRAPHICS_BIT ≠ 0) ∧
      (∃ q ∈ device.queueFamilies, q.presentSupport = true) ∧
      (∀ ext_need ∈ deviceExtensionsRequired,
        ∃ ext_available ∈ device.extensions, ext_need.toList <+: ext_available.toList) ∧
      (device.swapChainSupport.formats ≠ [] ∧ device.swapChainSupport.presentModes ≠ []) ∧
      device.samplerAnisotropy = true := by
  have hq := findQueueFamilies_loop_found device.queueFamilies 0
    { graphicsFamily := -1, presentFamily := -1 } (le_refl 0)
  have hcomplete : (findQueueFamilies device.queueFamilies).isComplete = true ↔
      (∃ q ∈ device.queueFamilies, q.queueFlags &&& VK_QUEUE_GRAPHICS_BIT ≠ 0) ∧
      (∃ q ∈ device.queueFamilies, q.presentSupport = true) := by
    unfold findQueueFamilies
    simp only [QueueFamilyIndices.isComplete, Bool.and_eq_true, bne_iff_ne]
    rw [hq.1, hq.2]
    simp
  have hnul : ∀ ext_need ∈ deviceExtensionsRequired, ∀ c ∈ ext_need.toList, c ≠ NUL := by
    decide
  have hext : checkDeviceExtensionSupport device.extensions = true ↔
      ∀ ext_need ∈ deviceExtensionsRequired,
        ∃ ext_available ∈ device.extensions, ext_need.toList <+: ext_available.toList := by
    unfold checkDeviceExtensionSupport
    simp only [List.all_eq_true, List.any_eq_true, beq_iff_eq]
    constructor
    · intro h need hneed
      obtain ⟨a, ha, hcmp⟩ := h need hneed
      exact ⟨a, ha, (strncmp_strlen_eq_zero_iff _ _ (hnul need hneed)).1 hcmp⟩
    · intro h need hneed
      obtain ⟨a, ha, hpre⟩ := h need hneed
      exact ⟨a, ha, (strncmp_strlen_eq_zero_iff _ _ (hnul need hneed)).2 hpre⟩
  unfold isDeviceSuitable
  dsimp only
  rw [← and_assoc, ← hcomplete, ← hext]
  cases h1 : (findQueueFamilies device.queueFamilies).isComplete <;>
  cases h2 : checkDeviceExtensionSupport device.extensions <;>
  cases h3 : device.samplerAnisotropy <;>
  cases h4 : device.swapChainSupport.formats <;>
  cases h5 : device.swapChainSupport.presentModes <;>
  simp

theorem createDevice_select_none (suitable : Handle → Bool) :
    ∀ (l : List Handle) (physicalDevice : Handle), (∀ d ∈ l, suitable d = false) →
      createDevice.select suitable l physicalDevice = physicalDevice := by
  intro l
  induction l with
  | nil => intro pd _; rfl
  | cons a rest ih =>
    intro pd h
    unfold createDevice.select
    rw [h a (List.mem_cons_self _ _)]
    exact ih pd (fun d hd => h d (List.mem_cons_of_mem _ hd))

theorem createDevice_select_first (suitable : Handle → Bool) :
    ∀ (l : List Handle) (physicalDevice : Handle) (i : Nat) (d : Handle),
      l[i]? = some d → suitable d = true →
      (∀ j : Nat, j < i → ∀ e : Handle, l[j]? = some e → suitable e = false) →
      createDevice.select suitable l physicalDevice = d := by
  intro l
  induction l with
  | nil => intro pd i d h; simp at h
  | cons a rest ih =>
    intro pd i d hi hd hbefore
    unfold createDevice.select
    cases i with
    | zero =>
      simp only [List.getElem?_cons_zero, Option.some.injEq] at hi
      subst hi
      rw [hd]; rfl
    | succ i =>
      simp only [List.getElem?_cons_succ] at hi
      rw [hbefore 0 (by omega) a (by simp)]
      exact ih pd i d hi hd (fun j hj e he => hbefore (j + 1) (by omega) e (by simpa using he))

theorem createDevice_select_some (suitable : Handle → Bool) :
    ∀ (l : List Handle) (physicalDevice : Handle), (∃ d ∈ l, suitable d = true) →
      createDevice.select suitable l physicalDevice ∈ l ∧
      suitable (createDevice.select suitable l physicalDevice) = true := by
  intro l
  induction l with
  | nil => intro pd h; simp at h
  | cons a rest ih =>
    intro pd h
    unfold createDevice.select
    cases ha : suitable a with
    | true => simp [ha]
    | false =>
      simp only [Bool.false_eq_true, if_false]
      obtain ⟨d, hd, hs⟩ := h
      have hrest : ∃ d ∈ rest, suitable d = true := by
        rcases List.mem_cons.1 hd with e | e
        · subst e; rw [ha] at hs; cases hs
        · exact ⟨d, e, hs⟩
      exact ⟨List.mem_cons_of_mem _ (ih pd hrest).1, (ih pd hrest).2⟩

/-- C15 as stated fails: with three enumerated devices, two of them suitable, and surface
creation succeeding, `createDevice` returns false and creates no logical device when
`vkCreateDevice` fails, although the enumeration is not empty and a device is suitable. -/
theorem createDevice_fails_after_selection_counterexample :
    createDeviceFailsEnv.surfaceRet = VK_SUCCESS ∧
    (createDevice createDeviceFailsEnv freshHelper).1 = false ∧
    (callsDuring freshHelper (createDevice createDeviceFailsEnv freshHelper).2).flatMap
      Call.createdDevices = [] ∧
    (createDevice createDeviceFailsEnv freshHelper).2.device = freshHelper.device ∧
    createDeviceFailsEnv.devices ≠ [] ∧
    ¬ (∀ d ∈ createDeviceFailsEnv.devices,
      isDeviceSuitable (createDeviceFailsEnv.info d) = false) := by
  decide

/-- C15, amended: on a session in which no physical device is selected yet, given that
surface creation succeeded and that enumerated handles are not null, `createDevice` selects
the device at the smallest enumeration position for which `isDeviceSuitable` holds; it
returns false without calling `vkCreateDevice` if and only if the enumeration is empty or no
enumerated device is suitable; and when some device is suitable it makes exactly one
`vkCreateDevice` call, on the selected device (an enumerated, suitable one) with the queue
families of that device, and returns true if and only if `vkCreateDevice` succeeds, so that
it also returns false, with no logical device created, when `vkCreateDevice` fails. -/
theorem createDevice_selects_first_suitable (env : DeviceEnv) (s : ImguiVulkanHelper)
    (hfresh : s.physicalDevice = VK_NULL_HANDLE) (hsurface : env.surfaceRet = VK_SUCCESS)
    (hnonnull : ∀ d ∈ env.devices, d ≠ VK_NULL_HANDLE) :
    (∀ (i : Nat) (d : Handle), env.devices[i]? = some d →
      isDeviceSuitable (env.info d) = true →
      (∀ j : Nat, j < i → ∀ e : Handle, env.devices[j]? = some e →
        isDeviceSuitable (env.info e) = false) →
      (createDevice env s).2.physicalDevice = d ∧
      (callsDuring s (createDevice env s).2).filter Call.isCreateDevice =
        [.vkCreateDevice d
          (createDevice.uniqueFamilies (findQueueFamilies (env.info d).queueFamilies))
          env.createRet env.device]) ∧
    (((createDevice env s).1 = false ∧
        (callsDuring s (createDevice env s).2).any Call.isCreateDevice = false) ↔
      (env.devices = [] ∨ ∀ d ∈ env.devices, isDeviceSuitable (env.info d) = false)) ∧
    ((∃ d ∈ env.devices, isDeviceSuitable (env.info d) = true) →
      (createDevice env s).2.physicalDevice ∈ env.devices ∧
      isDeviceSuitable (env.info (createDevice env s).2.physicalDevice) = true ∧
      (callsDuring s (createDevice env s).2).filter Call.isCreateDevice =
        [.vkCreateDevice (createDevice env s).2.physicalDevice
          (createDevice.uniqueFamilies
            (findQueueFamilies (env.info (createDevice env s).2.physicalDevice).queueFamilies))
          env.createRet env.device] ∧
      ((createDevice env s).1 = true ↔ env.createRet = VK_SUCCESS) ∧
      (callsDuring s (createDevice env s).2).flatMap Call.createdDevices =
        (if env.createRet = VK_SUCCESS then [env.device] else [])) := by
  have hsome : (∃ d ∈ env.devices, isDeviceSuitable (env.info d) = true) →
      env.devices.length ≠ 0 ∧
      createDevice.select (fun device => isDeviceSuitable (env.info device)) env.devices
        s.physicalDevice ≠ VK_NULL_HANDLE := by
    intro h
    obtain ⟨hmem, _⟩ := createDevice_select_some
      (fun device => isDeviceSuitable (env.info device)) env.devices s.physicalDevice h
    refine ⟨?_, hnonnull _ hmem⟩
    obtain ⟨d, hd, _⟩ := h
    intro hlen
    rw [List.length_eq_zero] at hlen
    rw [hlen] at hd
    simp at hd
  have hfirst : ∀ (i : Nat) (d : Handle), env.devices[i]? = some d →
      isDeviceSuitable (env.info d) = true →
      (∀ j : Nat, j < i → ∀ e : Handle, env.devices[j]? = some e →
        isDeviceSuitable (env.info e) = false) →
      (createDevice env s).2.physicalDevice = d ∧
      (callsDuring s (createDevice env s).2).filter Call.isCreateDevice =
        [.vkCreateDevice d
          (createDevice.uniqueFamilies (findQueueFamilies (env.info d).queueFamilies))
          env.createRet env.device] ∧
      ((createDevice env s).1 = true ↔ env.createRet = VK_SUCCESS) ∧
      (callsDuring s (createDevice env s).2).flatMap Call.createdDevices =
        (if env.createRet = VK_SUCCESS then [env.device] else []) := by
    intro i d hi hd hbefore
    have hsel := createDevice_select_first (fun device => isDeviceSuitable (env.info device))
      env.devices s.physicalDevice i d hi hd hbefore
    have hex : ∃ d ∈ env.devices, isDeviceSuitable (env.info d) = true :=
      ⟨d, List.getElem?_mem hi, hd⟩
    obtain ⟨hlen, hne⟩ := hsome hex
    rw [hsel] at hne
    unfold createDevice
    by_cases hc : env.createRet = VK_SUCCESS
    · simp [hsurface, hlen, hne, hc, ImguiVulkanHelper.log, hsel, callsDuring,
        Call.isCreateDevice, Call.createdDevices]
    · simp [hsurface, hlen, hne, hc, ImguiVulkanHelper.log, hsel, callsDuring,
        Call.isCreateDevice, Call.createdDevices]
  have hleast : (∃ d ∈ env.devices, isDeviceSuitable (env.info d) = true) →
      ∃ (i : Nat) (d : Handle), env.devices[i]? = some d ∧
        isDeviceSuitable (env.info d) = true ∧
        (∀ j : Nat, j < i → ∀ e : Handle, env.devices[j]? = some e →
          isDeviceSuitable (env.info e) = false) := by
    generalize env.devices = l
    induction l with
    | nil => rintro ⟨d, hd, _⟩; simp at hd
    | cons a rest ih =>
      intro h
      cases ha : isDeviceSuitable (env.info a) with
      | true => exact ⟨0, a, by simp, ha, fun j hj => absurd hj (Nat.not_lt_zero j)⟩
      | false =>
        obtain ⟨d, hd, hs⟩ := h
        have hrest : ∃ d ∈ rest, isDeviceSuitable (env.info d) = true := by
          rcases List.mem_cons.1 hd with e | e
          · subst e; rw [ha] at hs; cases hs
          · exact ⟨d, e, hs⟩
        obtain ⟨i, d2, h1, h2, h3⟩ := ih hrest
        refine ⟨i + 1, d2, by simpa using h1, h2, ?_⟩
        intro j hj e he
        cases j with
        | zero =>
          simp only [List.getElem?_cons_zero, Option.some.injEq] at he
          subst he
          exact ha
        | succ j => exact h3 j (by omega) e (by simpa using he)
  have hnone : (∀ d ∈ env.devices, isDeviceSuitable (env.info d) = false) →
      (createDevice env s).1 = false ∧
      (callsDuring s (createDevice env s).2).any Call.isCreateDevice = false := by
    intro h
    have hsel := createDevice_select_none (fun device => isDeviceSuitable (env.info device))
      env.devices s.physicalDevice h
    rw [hfresh] at hsel
    unfold createDevice
    by_cases hlen : env.devices.length = 0
    · simp [hsurface, hlen, callsDuring, ImguiVulkanHelper.log, Call.isCreateDevice]
    · simp [hsurface, hlen, hsel, hfresh, callsDuring, ImguiVulkanHelper.log,
        Call.isCreateDevice]
  refine ⟨fun i d hi hd hbefore => ⟨(hfirst i d hi hd hbefore).1,
    (hfirst i d hi hd hbefore).2.1⟩, ?_, ?_⟩
  · constructor
    · intro hfail
      by_cases hex : ∃ d ∈ env.devices, isDeviceSuitable (env.info d) = true
      · obtain ⟨i, d, h1, h2, h3⟩ := hleast hex
        have hcall := (hfirst i d h1 h2 h3).2.1
        have hany := hfail.2
        rw [List.any_eq_false] at hany
        have hmem : Call.vkCreateDevice d
            (createDevice.uniqueFamilies (findQueueFamilies (env.info d).queueFamilies))
            env.createRet env.device ∈
            (callsDuring s (createDevice env s).2).filter Call.isCreateDevice := by
          rw [hcall]; exact List.mem_singleton_self _
        have := hany _ (List.mem_filter.1 hmem).1
        simp [Call.isCreateDevice] at this
      · right
        intro d hd
        cases hsd : isDeviceSuitable (env.info d)
        · rfl
        · exact absurd ⟨d, hd, hsd⟩ hex
    · rintro (h | h)
      · apply hnone
        rw [h]
        intro d hd
        simp at hd
      · exact hnone h
  · intro hex
    obtain ⟨i, d, h1, h2, h3⟩ := hleast hex
    obtain ⟨e1, e2, e3, e4⟩ := hfirst i d h1 h2 h3
    rw [e1]
    exact ⟨List.getElem?_mem h1, h2, e2, e3, e4⟩

/-- C15 amended, at three devices of which the second and the third are suitable: the second
device (handle 14) is selected, the one `vkCreateDevice` call is made on it with its one
queue family 0, and `createDevice` returns true. -/
theorem createDevice_selects_first_suitable_witness :
    (freshHelper.physicalDevice = VK_NULL_HANDLE ∧ sampleDeviceEnv.surfaceRet = VK_SUCCESS ∧
      ∀ d ∈ sampleDeviceEnv.devices, d ≠ VK_NULL_HANDLE) ∧
    sampleDeviceEnv.devices = [4, 14, 24] ∧
    isDeviceSuitable (sampleDeviceEnv.info 4) = false ∧
    isDeviceSuitable (sampleDeviceEnv.info 14) = true ∧
    ((createDevice sampleDeviceEnv freshHelper).2.physicalDevice = 14 ∧
      (callsDuring freshHelper (createDevice sampleDeviceEnv freshHelper).2).filter
        Call.isCreateDevice =
        [.vkCreateDevice 14
          (createDevice.uniqueFamilies
            (findQueueFamilies (sampleDeviceEnv.info 14).queueFamilies))
          sampleDeviceEnv.createRet sampleDeviceEnv.device]) ∧
    createDevice.uniqueFamilies (findQueueFamilies (sampleDeviceEnv.info 14).queueFamilies) =
      [0] ∧
    (createDevice sampleDeviceEnv freshHelper).1 = true :=
  ⟨⟨rfl, rfl, by decide⟩, rfl, by decide, by decide,
    (createDevice_selects_first_suitable sampleDeviceEnv freshHelper rfl rfl (by decide)).1
      1 14 (by decide) (by decide)
      (fun j hj e he => by
        have hj0 : j = 0 := by omega
        subst hj0
        simp [sampleDeviceEnv] at he
        subst he
        decide),
    by decide, by decide⟩

/-! ## Texture loading (C12, C13) -/

/-- C12, at the failing input: a load of a 2x2 image in which the texture image is created
(handle 210) and the allocation of its memory fails.  `createImage` destroys the image before
it returns false, and the code at `out` destroys it again: `loadImage` returns null and image
210, created once, is destroyed twice.  At a second input, where the image cannot be created
and the locals `textureImageView` and `textureSampler` hold stale values, the code at `out`
destroys a view and a sampler that the call never created. -/
theorem loadImage_failed_image_destroyed_twice :
    (loadImage imageMemoryFailsEnv (some 0) (some 0) sampleHelper).result = 0 ∧
    (callsDuring sampleHelper
      (loadImage imageMemoryFailsEnv (some 0) (some 0) sampleHelper).state).flatMap
        Call.createdImages = [210] ∧
    (callsDuring sampleHelper
      (loadImage imageMemoryFailsEnv (some 0) (some 0) sampleHelper).state).flatMap
        Call.destroyedImages = [210, 210] ∧
    (loadImage staleLocalsEnv (some 0) (some 0) sampleHelper).result = 0 ∧
    (callsDuring sampleHelper
      (loadImage staleLocalsEnv (some 0) (some 0) sampleHelper).state).flatMap
        Call.createdImageViews = [] ∧
    (callsDuring sampleHelper
      (loadImage staleLocalsEnv (some 0) (some 0) sampleHelper).state).flatMap
        Call.destroyedImageViews = [999] ∧
    (callsDuring sampleHelper
      (loadImage staleLocalsEnv (some 0) (some 0) sampleHelper).state).flatMap
        Call.createdSamplers = [] ∧
    (callsDuring sampleHelper
      (loadImage staleLocalsEnv (some 0) (some 0) sampleHelper).state).flatMap
        Call.destroyedSamplers = [998] := by
  decide

theorem log_userTextureImages (s : ImguiVulkanHelper) (c : Call) :
    (s.log c).userTextureImages = s.userTextureImages := rfl

theorem ite_log_userTextureImages (c : Prop) [Decidable c] (s : ImguiVulkanHelper)
    (x : Call) : (if c then s.log x else s).userTextureImages = s.userTextureImages := by
  split <;> rfl

theorem createBuffer_registry (env : CreateEnv) (size usage properties : Nat)
    (buffer bufferMemory : Handle) (s : ImguiVulkanHelper) :
    (createBuffer env size usage properties buffer bufferMemory s).state.userTextureImages =
      s.userTextureImages := by
  unfold createBuffer
  dsimp only
  split
  · rfl
  · split
    · rfl
    · split <;> rfl

theorem createImage_registry (env : CreateEnv)
    (width height format tiling usage properties : Nat) (image imageMemory : Handle)
    (s : ImguiVulkanHelper) :
    (createImage env width height format tiling usage properties image imageMemory
      s).state.userTextureImages = s.userTextureImages := by
  unfold createImage
  dsimp only
  split
  · rfl
  · split
    · rfl
    · split <;> rfl

theorem beginSingleTimeCommands_registry (env : OneShotEnv) (s : ImguiVulkanHelper) :
    (beginSingleTimeCommands env s).2.userTextureImages = s.userTextureImages := by
  unfold beginSingleTimeCommands
  dsimp only
  split
  · rfl
  · split <;> rfl

theorem endSingleTimeCommands_registry (env : OneShotEnv) (commandBuffer : Handle)
    (s : ImguiVulkanHelper) :
    (endSingleTimeCommands env commandBuffer s).2.userTextureImages = s.userTextureImages := by
  unfold endSingleTimeCommands
  dsimp only
  split
  · rfl
  · split
    · rfl
    · split <;> rfl

theorem transitionImageLayout_registry (env : OneShotEnv) (image : Handle)
    (format oldLayout newLayout : Nat) (s : ImguiVulkanHelper) :
    (transitionImageLayout env image format oldLayout newLayout s).2.userTextureImages =
      s.userTextureImages := by
  unfold transitionImageLayout
  dsimp only
  split
  · exact beginSingleTimeCommands_registry env s
  · split
    · rw [endSingleTimeCommands_registry]
      exact beginSingleTimeCommands_registry env s
    · split
      · rw [endSingleTimeCommands_registry]
        exact beginSingleTimeCommands_registry env s
      · exact beginSingleTimeCommands_registry env s

theorem copyBufferToImage_registry (env : OneShotEnv) (buffer image : Handle)
    (width height : Nat) (s : ImguiVulkanHelper) :
    (copyBufferToImage env buffer image width height s).2.userTextureImages =
      s.userTextureImages := by
  unfold copyBufferToImage
  dsimp only
  split
  · exact beginSingleTimeCommands_registry env s
  · rw [endSingleTimeCommands_registry]
    exact beginSingleTimeCommands_registry env s

theorem createImageView_registry (ans : VkResult × Handle) (image : Handle) (format : Nat)
    (s : ImguiVulkanHelper) :
    (createImageView ans image format s).2.userTextureImages = s.userTextureImages := by
  unfold createImageView
  dsimp only
  split <;> rfl

theorem loadImage_out_registry (result stagingBuffer stagingBufferMemory textureImageView
    textureImage textureImageMemory textureSampler : Handle) (s : ImguiVulkanHelper) :
    (loadImage.out result stagingBuffer stagingBufferMemory textureImageView textureImage
      textureImageMemory textureSampler s).userTextureImages = s.userTextureImages := by
  simp only [loadImage.out, ite_log_userTextureImages, log_userTextureImages]

theorem createBuffer_ok (env : CreateEnv) (size usage properties : Nat)
    (buffer bufferMemory : Handle) (s : ImguiVulkanHelper) (h : env.succeeds properties) :
    (createBuffer env size usage properties buffer bufferMemory s).ok = true := by
  obtain ⟨h1, h2, h3⟩ := h
  simp [createBuffer, h1, h2, h3]

theorem createImage_ok (env : CreateEnv) (width height format tiling usage properties : Nat)
    (image imageMemory : Handle) (s : ImguiVulkanHelper) (h : env.succeeds properties) :
    (createImage env width height format tiling usage properties image imageMemory s).ok =
      true ∧
    (createImage env width height format tiling usage properties image imageMemory
      s).object = env.object ∧
    (createImage env width height format tiling usage properties image imageMemory
      s).memory = env.memory := by
  obtain ⟨h1, h2, h3⟩ := h
  simp [createImage, h1, h2, h3]

theorem transitionImageLayout_ok (env : OneShotEnv) (image : Handle)
    (format oldLayout newLayout : Nat) (s : ImguiVulkanHelper) (h : env.succeeds)
    (hsup : supportedTransition oldLayout newLayout) :
    (transitionImageLayout env image format oldLayout newLayout s).1 = true := by
  obtain ⟨h1, h2, h3, h4, h5, h6⟩ := h
  rcases hsup with ⟨ho, hn⟩ | ⟨ho, hn⟩ <;> subst ho hn <;>
    simp [transitionImageLayout, beginSingleTimeCommands, endSingleTimeCommands,
      h1, h2, h3, h4, h5, h6]

theorem copyBufferToImage_ok (env : OneShotEnv) (buffer image : Handle) (width height : Nat)
    (s : ImguiVulkanHelper) (h : env.succeeds) :
    (copyBufferToImage env buffer image width height s).1 = true := by
  obtain ⟨h1, h2, h3, h4, h5, h6⟩ := h
  simp [copyBufferToImage, beginSingleTimeCommands, endSingleTimeCommands,
    h1, h2, h3, h4, h5, h6]

theorem createImageView_ok (ans : VkResult × Handle) (image : Handle) (format : Nat)
    (s : ImguiVulkanHelper) (h : ans.1 = VK_SUCCESS) :
    (createImageView ans image format s).1 = ans.2 := by
  simp [createImageView, h]

/-- C13: for every path, if the decoder yields no pixels `loadImage` returns null, makes no
call at all (so it creates no GPU object) and leaves the state, the texture registry in
particular, and the width and height outputs unchanged; if the decoder yields a `w`-by-`h`
image and every later step succeeds, `loadImage` returns the non-null identifier given by the
registration, appends exactly one entry {image, memory, view, sampler} to the texture
registry, and writes `w` and `h` to the width and height outputs that are not null. -/
theorem loadImage_decode_failure_and_success (env : LoadImageEnv) (width height : Option Int)
    (s : ImguiVulkanHelper) :
    (env.decoded = none →
      (loadImage env width height s).result = 0 ∧
      (loadImage env width height s).state = s ∧
      callsDuring s (loadImage env width height s).state = [] ∧
      (loadImage env width height s).state.userTextureImages = s.userTextureImages ∧
      (loadImage env width height s).width = width ∧
      (loadImage env width height s).height = height) ∧
    (∀ w h : Int, env.decoded = some (w, h) → env.laterStepsSucceed →
      (loadImage env width height s).result = env.textureId ∧
      (loadImage env width height s).result ≠ 0 ∧
      (loadImage env width height s).state.userTextureImages =
        s.userTextureImages ++
          [{ image := env.image.object, imageMemory := env.image.memory,
             imageView := env.imageView.2, sampler := env.sampler }] ∧
      (∀ x : Int, width = some x → (loadImage env width height s).width = some w) ∧
      (∀ y : Int, height = some y → (loadImage env width height s).height = some h) ∧
      (width = none → (loadImage env width height s).width = none) ∧
      (height = none → (loadImage env width height s).height = none)) := by
  constructor
  · intro hdec
    simp [loadImage, hdec, callsDuring]
  · intro w h hdec hsucc
    obtain ⟨hstaging, himage, hA, hB, hC, hv1, hv2, hsam, hid⟩ := hsucc
    have e1 := fun st => createBuffer_ok env.staging (loadImage.imageSize w h)
      VK_BUFFER_USAGE_TRANSFER_SRC_BIT
      (VK_MEMORY_PROPERTY_HOST_VISIBLE_BIT ||| VK_MEMORY_PROPERTY_HOST_COHERENT_BIT)
      env.stagingBuffer0 env.stagingBufferMemory0 st hstaging
    have e2 := fun st => createImage_ok env.image (toUint32 w) (toUint32 h)
      VK_FORMAT_R8G8B8A8_SRGB VK_IMAGE_TILING_OPTIMAL
      (VK_IMAGE_USAGE_TRANSFER_DST_BIT ||| VK_IMAGE_USAGE_SAMPLED_BIT)
      VK_MEMORY_PROPERTY_DEVICE_LOCAL_BIT env.textureImage0 env.textureImageMemory0 st himage
    have e3 := fun image st => transitionImageLayout_ok env.toTransferDst image
      VK_FORMAT_R8G8B8A8_SRGB VK_IMAGE_LAYOUT_UNDEFINED VK_IMAGE_LAYOUT_TRANSFER_DST_OPTIMAL st
      hA (Or.inl ⟨rfl, rfl⟩)
    have e4 := fun buffer image st => copyBufferToImage_ok env.copy buffer image (toUint32 w)
      (toUint32 h) st hB
    have e5 := fun image st => transitionImageLayout_ok env.toShaderRead image
      VK_FORMAT_R8G8B8A8_SRGB VK_IMAGE_LAYOUT_TRANSFER_DST_OPTIMAL
      VK_IMAGE_LAYOUT_SHADER_READ_ONLY_OPTIMAL st hC (Or.inr ⟨rfl, rfl⟩)
    have e6 := fun image st => createImageView_ok env.imageView image VK_FORMAT_R8G8B8A8_SRGB
      st hv1
    unfold loadImage
    rw [hdec]
    simp only [e1, e2, e3, e4, e5, e6, hv2, hsam, hid, Bool.true_eq_false, if_false,
      ne_eq, not_true_eq_false, not_false_eq_true]
    refine ⟨?_, ?_, ?_, ?_, ?_, ?_, ?_⟩
    · trivial
    · trivial
    · simp only [loadImage_out_registry, log_userTextureImages, createImageView_registry,
        transitionImageLayout_registry, copyBufferToImage_registry, createImage_registry,
        createBuffer_registry]
    · intro x hx; rw [hx]; rfl
    · intro y hy; rw [hy]; rfl
    · intro hx; rw [hx]; rfl
    · intro hy; rw [hy]; rfl

/-- C13 at a 2x2 image for which every step succeeds: the identifier 240 is returned, the
registry gains the one entry (210, 211, 220, 230) and both outputs read 2; and at a file
that cannot be decoded. -/
theorem loadImage_decode_failure_and_success_witness :
    (sampleLoadImageEnv.decoded = some (2, 2) ∧ sampleLoadImageEnv.laterStepsSucceed) ∧
    (loadImage sampleLoadImageEnv (some 0) (some 0) sampleHelper).result = 240 ∧
    (loadImage sampleLoadImageEnv (some 0) (some 0) sampleHelper).state.userTextureImages =
      [⟨210, 211, 220, 230⟩] ∧
    (loadImage sampleLoadImageEnv (some 0) (some 0) sampleHelper).width = some 2 ∧
    (loadImage sampleLoadImageEnv (some 0) (some 0) sampleHelper).height = some 2 ∧
    (loadImage undecodableEnv (some 0) (some 0) sampleHelper).result = 0 ∧
    (loadImage undecodableEnv (some 0) (some 0) sampleHelper).state = sampleHelper :=
  ⟨⟨rfl, by decide⟩,
    ((loadImage_decode_failure_and_success sampleLoadImageEnv (some 0) (some 0)
      sampleHelper).2 2 2 rfl (by decide)).1,
    ((loadImage_decode_failure_and_success sampleLoadImageEnv (some 0) (some 0)
      sampleHelper).2 2 2 rfl (by decide)).2.2.1,
    ((loadImage_decode_failure_and_success sampleLoadImageEnv (some 0) (some 0)
      sampleHelper).2 2 2 rfl (by decide)).2.2.2.1 0 rfl,
    ((loadImage_decode_failure_and_success sampleLoadImageEnv (some 0) (some 0)
      sampleHelper).2 2 2 rfl (by decide)).2.2.2.2.1 0 rfl,
    ((loadImage_decode_failure_and_success undecodableEnv (some 0) (some 0)
      sampleHelper).1 rfl).1,
    ((loadImage_decode_failure_and_success undecodableEnv (some 0) (some 0)
      sampleHelper).1 rfl).2.1⟩

/-! ## Session setup (C21, C22) -/

theorem runUntilFailure_true_iff (steps : List (ImguiVulkanHelper → Bool × ImguiVulkanHelper)) :
    ∀ s : ImguiVulkanHelper, (runUntilFailure steps s).1 = true ↔
      ∀ (k : Nat) (step : ImguiVulkanHelper → Bool × ImguiVulkanHelper),
        steps[k]? = some step → (step (runSteps (steps.take k) s)).1 = true := by
  induction steps with
  | nil =>
    intro s
    simp [runUntilFailure]
  | cons f rest ih =>
    intro s
    cases hf : (f s).1 with
    | false =>
      have hrun : runUntilFailure (f :: rest) s = (false, (f s).2) := by
        simp only [runUntilFailure, hf, if_true]
      rw [hrun]
      simp only [Bool.false_eq_true, false_iff, not_forall]
      refine ⟨0, f, List.getElem?_cons_zero, ?_⟩
      simp [runSteps, hf]
    | true =>
      have hrun : runUntilFailure (f :: rest) s = runUntilFailure rest (f s).2 := by
        simp only [runUntilFailure, hf, Bool.true_eq_false, if_false]
      rw [hrun, ih]
      constructor
      · intro h k step hk
        cases k with
        | zero =>
          simp only [List.getElem?_cons_zero, Option.some.injEq] at hk
          subst hk
          simpa [runSteps] using hf
        | succ k =>
          simpa [runSteps] using h k step (by simpa using hk)
      · intro h k step hk
        simpa [runSteps] using h (k + 1) step (by simpa using hk)

theorem runUntilFailure_first_failure
    (steps : List (ImguiVulkanHelper → Bool × ImguiVulkanHelper)) :
    ∀ (s : ImguiVulkanHelper) (k : Nat) (step : ImguiVulkanHelper → Bool × ImguiVulkanHelper),
      steps[k]? = some step →
      (∀ (j : Nat) (earlier : ImguiVulkanHelper → Bool × ImguiVulkanHelper), j < k →
        steps[j]? = some earlier → (earlier (runSteps (steps.take j) s)).1 = true) →
      (step (runSteps (steps.take k) s)).1 = false →
      runUntilFailure steps s = (false, runSteps (steps.take (k + 1)) s) := by
  induction steps with
  | nil =>
    intro s k step hk
    simp at hk
  | cons f rest ih =>
    intro s k step hk hearlier hfail
    cases k with
    | zero =>
      simp only [List.getElem?_cons_zero, Option.some.injEq] at hk
      subst hk
      have hf : (f s).1 = false := by simpa [runSteps] using hfail
      simp [runUntilFailure, hf, runSteps]
    | succ k =>
      have hf : (f s).1 = true := by
        have := hearlier 0 f (Nat.succ_pos k) List.getElem?_cons_zero
        simpa [runSteps] using this
      have hrun : runUntilFailure (f :: rest) s = runUntilFailure rest (f s).2 := by
        simp only [runUntilFailure, hf, Bool.true_eq_false, if_false]
      rw [hrun]
      simp only [List.take_succ_cons, runSteps]
      refine ih (f s).2 k step (by simpa using hk) ?_ (by simpa [runSteps] using hfail)
      intro j earlier hj hje
      simpa [runSteps] using hearlier (j + 1) earlier (Nat.succ_lt_succ hj) (by simpa using hje)

theorem runUntilFailure_true_state
    (steps : List (ImguiVulkanHelper → Bool × ImguiVulkanHelper)) :
    ∀ s : ImguiVulkanHelper, (runUntilFailure steps s).1 = true →
      (runUntilFailure steps s).2 = runSteps steps s := by
  induction steps with
  | nil => intro s _; rfl
  | cons f rest ih =>
    intro s h
    cases hf : (f s).1 with
    | false => simp [runUntilFailure, hf] at h
    | true =>
      have hrun : runUntilFailure (f :: rest) s = runUntilFailure rest (f s).2 := by
        simp only [runUntilFailure, hf, Bool.true_eq_false, if_false]
      rw [hrun] at h ⊢
      exact ih _ h

/-- C21: for every combination of outcomes of the ten creation steps, `initVulkan` runs the
steps instance, device, swapchain, image views, render pass, framebuffers, command pool,
descriptor pool, command buffers, sync objects in that order until the first one that fails:
it returns true if and only if each of the ten steps, run on the state left by the steps
before it, returns true; and when step `k` is the first that fails, it returns false in the
state that the steps up to and including step `k`, and no later step, have produced. -/
theorem initVulkan_runs_steps_until_failure (env : InitEnv) (s : ImguiVulkanHelper) :
    initVulkan env s = runUntilFailure (initVulkan.steps env) s ∧
    (initVulkan.steps env).length = 10 ∧
    ((initVulkan env s).1 = true ↔
      ∀ (k : Nat) (step : ImguiVulkanHelper → Bool × ImguiVulkanHelper),
        (initVulkan.steps env)[k]? = some step →
        (step (runSteps ((initVulkan.steps env).take k) s)).1 = true) ∧
    ((initVulkan env s).1 = true →
      (initVulkan env s).2 = runSteps (initVulkan.steps env) s) ∧
    (∀ (k : Nat) (step : ImguiVulkanHelper → Bool × ImguiVulkanHelper),
      (initVulkan.steps env)[k]? = some step →
      (∀ (j : Nat) (earlier : ImguiVulkanHelper → Bool × ImguiVulkanHelper), j < k →
        (initVulkan.steps env)[j]? = some earlier →
        (earlier (runSteps ((initVulkan.steps env).take j) s)).1 = true) →
      (step (runSteps ((initVulkan.steps env).take k) s)).1 = false →
      initVulkan env s = (false, runSteps ((initVulkan.steps env).take (k + 1)) s)) := by
  have href : initVulkan env s = runUntilFailure (initVulkan.steps env) s := rfl
  refine ⟨href, rfl, ?_, ?_, ?_⟩
  · rw [href]
    exact runUntilFailure_true_iff _ s
  · rw [href]
    exact runUntilFailure_true_state _ s
  · rw [href]
    exact runUntilFailure_first_failure _ s

/-- C21 evaluated: a setup in which every step succeeds returns true after the calls of the
ten steps; when `vkCreateRenderPass` fails, `initVulkan` returns false, the render pass
creation is the last call made and no framebuffer, pool, command buffer or sync object is
created. -/
theorem initVulkan_examples :
    (initVulkan sampleInitEnv windowOnlyHelper).1 = true ∧
    (initVulkan renderPassFailsInitEnv windowOnlyHelper).1 = false ∧
    (callsDuring windowOnlyHelper
      (initVulkan renderPassFailsInitEnv windowOnlyHelper).2).getLast? =
        some (.vkCreateRenderPass VK_FORMAT_B8G8R8A8_SRGB (-1) 0) ∧
    (callsDuring windowOnlyHelper (initVulkan renderPassFailsInitEnv windowOnlyHelper).2).length =
      12 ∧
    (callsDuring windowOnlyHelper (initVulkan sampleInitEnv windowOnlyHelper).2).length = 23 := by
  decide

/-- With validation disabled the `vkCreateInstance` call of `createInstance` enables no
layer and no extension besides those GLFW requires, and chains no debug messenger
info. -/
theorem createInstance_release_enables_nothing (env : InstanceEnv)
    (s : ImguiVulkanHelper) (hrelease : validationLayersRequired env.DEBUG = []) :
    (callsDuring s (createInstance env s).2).head? =
      some (.vkCreateInstance env.glfwExtensions [] false env.createRet env.instance_) := by
  have hcalls : ∃ rest, (createInstance env s).2.calls =
      s.calls ++ (.vkCreateInstance env.glfwExtensions [] false env.createRet
        env.instance_ :: rest) := by
    unfold createInstance
    simp only [hrelease, List.length_nil, gt_iff_lt, lt_self_iff_false, false_and, if_false,
      decide_False]
    split
    · exact ⟨[], rfl⟩
    · split
      · split
        · exact ⟨_, by simp [ImguiVulkanHelper.log]; rfl⟩
        · exact ⟨_, by simp [ImguiVulkanHelper.log]; rfl⟩
      · exact ⟨_, by simp [ImguiVulkanHelper.log]; rfl⟩
  obtain ⟨rest, h⟩ := hcalls
  rw [callsDuring_of_append h]
  rfl

/-- The result of `createInstance` with validation disabled: true if and only if
`vkCreateInstance` succeeds, the entry point `vkCreateDebugUtilsMessengerEXT` is found and the
creation of the debug messenger succeeds. -/
theorem createInstance_release_result (env : InstanceEnv) (s : ImguiVulkanHelper)
    (hrelease : validationLayersRequired env.DEBUG = []) :
    (createInstance env s).1 = true ↔
      env.createRet = VK_SUCCESS ∧ env.messengerEntryPoint = true ∧
        env.messengerRet = VK_SUCCESS := by
  unfold createInstance
  simp only [hrelease, List.length_nil, gt_iff_lt, lt_self_iff_false, false_and, if_false]
  by_cases h1 : env.createRet = VK_SUCCESS <;> by_cases h2 : env.messengerEntryPoint = true <;>
    by_cases h3 : env.messengerRet = VK_SUCCESS <;> simp [h1, h2, h3]

/-- C22, at the failing input: a release build (the required validation-layer list is
empty) in which `vkCreateInstance` succeeds and `vkGetInstanceProcAddr` finds no
`vkCreateDebugUtilsMessengerEXT`.  `createInstance` returns false although instance creation
succeeded.  At a second input, where the entry point is found, `createInstance` creates a
debug messenger (99) in the release build. -/
theorem createInstance_release_depends_on_messenger :
    validationLayersRequired noMessengerEntryPointEnv.DEBUG = [] ∧
    noMessengerEntryPointEnv.createRet = VK_SUCCESS ∧
    (createInstance noMessengerEntryPointEnv windowOnlyHelper).1 = false ∧
    callsDuring windowOnlyHelper (createInstance noMessengerEntryPointEnv windowOnlyHelper).2 =
      [.vkCreateInstance ["VK_KHR_surface", "VK_KHR_xcb_surface"] [] false VK_SUCCESS 2,
        .vkGetInstanceProcAddr 2 "vkCreateDebugUtilsMessengerEXT" false] ∧
    validationLayersRequired sampleInitEnv.instance_.DEBUG = [] ∧
    (createInstance sampleInitEnv.instance_ windowOnlyHelper).1 = true ∧
    callsDuring windowOnlyHelper (createInstance sampleInitEnv.instance_ windowOnlyHelper).2 =
      [.vkCreateInstance ["VK_KHR_surface", "VK_KHR_xcb_surface"] [] false VK_SUCCESS 2,
        .vkGetInstanceProcAddr 2 "vkCreateDebugUtilsMessengerEXT" true,
        .vkCreateDebugUtilsMessengerEXT 2 VK_SUCCESS 99] ∧
    (createInstance sampleInitEnv.instance_ windowOnlyHelper).2.debugMessenger = 99 := by
  decide

/-! ## Teardown (C25) -/

theorem foldl_log_eq (f : Handle → Call) :
    ∀ (l : List Handle) (s : ImguiVulkanHelper),
      l.foldl (fun st h => st.log (f h)) s = { s with calls := s.calls ++ l.map f } := by
  intro l
  induction l with
  | nil => intro s; simp
  | cons h rest ih =>
    intro s
    rw [List.foldl_cons, ih]
    simp [ImguiVulkanHelper.log]

theorem cleanupSwapChain_eq (s : ImguiVulkanHelper) :
    cleanupSwapChain s = { s with calls := s.calls ++ swapChainDestroyCalls s } := by
  unfold cleanupSwapChain swapChainDestroyCalls
  simp only [foldl_log_eq]
  simp [ImguiVulkanHelper.log]

theorem foldl_destroyTexture_eq :
    ∀ (l : List UserTextureImage) (s : ImguiVulkanHelper),
      l.foldl cleanup.destroyTexture s =
        { s with calls := s.calls ++ l.flatMap textureDestroyCalls } := by
  intro l
  induction l with
  | nil => intro s; simp
  | cons uti rest ih =>
    intro s
    rw [List.foldl_cons, ih]
    simp [cleanup.destroyTexture, textureDestroyCalls, ImguiVulkanHelper.log]

theorem foldl_destroySync_eq :
    ∀ (l : List Nat) (s : ImguiVulkanHelper),
      l.foldl cleanup.destroySync s =
        { s with calls := s.calls ++ l.flatMap (fun i =>
            [Call.vkDestroySemaphore (at_ s.renderFinishedSemaphores i),
              Call.vkDestroySemaphore (at_ s.imageAvailableSemaphores i),
              Call.vkDestroyFence (at_ s.swapChainImageFences i)]) } := by
  intro l
  induction l with
  | nil => intro s; simp
  | cons i rest ih =>
    intro s
    rw [List.foldl_cons, ih]
    simp [cleanup.destroySync, ImguiVulkanHelper.log]

theorem flatMap_textureDestroyCalls (l : List UserTextureImage) :
    (l.flatMap textureDestroyCalls).flatMap Call.destroyedSamplers = l.map (fun uti => uti.sampler) ∧
    (l.flatMap textureDestroyCalls).flatMap Call.destroyedImageViews =
      l.map (fun uti => uti.imageView) ∧
    (l.flatMap textureDestroyCalls).flatMap Call.destroyedImages = l.map (fun uti => uti.image) ∧
    (l.flatMap textureDestroyCalls).flatMap Call.freedMemory =
      l.map (fun uti => uti.imageMemory) := by
  induction l with
  | nil => simp
  | cons uti rest ih =>
    obtain ⟨h1, h2, h3, h4⟩ := ih
    simp only [List.flatMap_cons, List.flatMap_append, h1, h2, h3, h4, List.map_cons]
    simp [textureDestroyCalls, Call.destroyedSamplers, Call.destroyedImageViews,
      Call.destroyedImages, Call.freedMemory]

theorem flatMap_const_nil {α β : Type} (l : List α) : (l.flatMap fun _ => ([] : List β)) = [] := by
  induction l with
  | nil => rfl
  | cons a rest ih => simp [ih]

theorem flatMap_syncCalls (g : Call → List Handle) (a b c : Nat → Handle) (l : List Nat)
    (hs : ∀ h, g (.vkDestroySemaphore h) = []) (hf : ∀ h, g (.vkDestroyFence h) = []) :
    (l.flatMap fun i => [Call.vkDestroySemaphore (a i), Call.vkDestroySemaphore (b i),
      Call.vkDestroyFence (c i)]).flatMap g = [] := by
  induction l with
  | nil => rfl
  | cons i rest ih => simp [hs, hf, ih]

/-- The calls that the first `cleanup` of a session makes, in the order of the source. -/
theorem cleanup_calls (env : CleanupEnv) (s : ImguiVulkanHelper) (h : s.terminated = false) :
    ∃ tail : List Call,
      (cleanup env s).calls =
        s.calls ++ (swapChainDestroyCalls s ++ (s.userTextureImages.flatMap textureDestroyCalls ++
          ([.vkDestroyRenderPass s.renderPass, .vkDestroyDescriptorPool s.descriptorPool] ++
            tail))) ∧
      tail.flatMap Call.destroyedSamplers = [] ∧ tail.flatMap Call.destroyedImageViews = [] ∧
      tail.flatMap Call.destroyedImages = [] ∧ tail.flatMap Call.freedMemory = [] := by
  refine ⟨(List.range s.imageCount).flatMap (fun i =>
      [Call.vkDestroySemaphore (at_ s.renderFinishedSemaphores i),
        Call.vkDestroySemaphore (at_ s.imageAvailableSemaphores i),
        Call.vkDestroyFence (at_ s.swapChainImageFences i)]) ++
    ([.vkDestroyCommandPool s.commandPool, .vkDestroyDevice s.device,
        .vkDestroySurfaceKHR s.instance_ s.surface] ++
      ((if (validationLayersRequired env.DEBUG).length > 0 then
          Call.vkGetInstanceProcAddr s.instance_ "vkDestroyDebugUtilsMessengerEXT"
              env.messengerEntryPoint ::
            (if env.messengerEntryPoint then
              [Call.vkDestroyDebugUtilsMessengerEXT s.instance_ s.debugMessenger] else [])
        else []) ++
        (Call.vkDestroyInstance s.instance_ ::
          ((if s.window ≠ 0 then [Call.glfwDestroyWindow s.window] else []) ++
            [Call.glfwTerminate])))), ?_, ?_, ?_, ?_, ?_⟩
  · unfold cleanup
    rw [if_neg (by simp [h])]
    simp only [cleanupSwapChain_eq, foldl_destroyTexture_eq, foldl_destroySync_eq]
    by_cases h1 : (validationLayersRequired env.DEBUG).length > 0 <;>
      by_cases h2 : env.messengerEntryPoint = true <;>
      by_cases h3 : s.window = 0 <;>
      simp [ImguiVulkanHelper.log, h1, h2, h3]
  all_goals
    rw [List.flatMap_append, flatMap_syncCalls _ _ _ _ _ (fun _ => rfl) (fun _ => rfl)]
    split_ifs <;>
      simp [Call.destroyedSamplers, Call.destroyedImageViews, Call.destroyedImages,
        Call.freedMemory]

/-- C25: for every session, a second `cleanup` (the call made by the destructor after an
earlier cleanup included) leaves the state as the first cleanup left it and makes no call, so
it destroys nothing: cleanup followed by cleanup has the effect of one cleanup.  On a session
that has not been cleaned up yet, the first cleanup marks the session terminated, empties
the texture registry and destroys the sampler, the view, the image and the memory of every
registered texture, each once (the only other views destroyed are those of the swapchain). -/
theorem cleanup_idempotent (env env2 : CleanupEnv) (s : ImguiVulkanHelper) :
    cleanup env2 (cleanup env s) = cleanup env s ∧
    callsDuring (cleanup env s) (cleanup env2 (cleanup env s)) = [] ∧
    (s.terminated = false →
      (cleanup env s).terminated = true ∧
      (cleanup env s).userTextureImages = [] ∧
      (callsDuring s (cleanup env s)).flatMap Call.destroyedSamplers =
        s.userTextureImages.map (fun uti => uti.sampler) ∧
      (callsDuring s (cleanup env s)).flatMap Call.destroyedImageViews =
        s.swapChainImageViews ++ s.userTextureImages.map (fun uti => uti.imageView) ∧
      (callsDuring s (cleanup env s)).flatMap Call.destroyedImages =
        s.userTextureImages.map (fun uti => uti.image) ∧
      (callsDuring s (cleanup env s)).flatMap Call.freedMemory =
        s.userTextureImages.map (fun uti => uti.imageMemory)) := by
  have hterm : (cleanup env s).terminated = true := by
    unfold cleanup
    split
    · assumption
    · rfl
  have hidem : cleanup env2 (cleanup env s) = cleanup env s := by
    generalize cleanup env s = t at hterm
    unfold cleanup
    rw [if_pos hterm]
  refine ⟨hidem, ?_, ?_⟩
  · rw [hidem]
    simp [callsDuring]
  · intro h
    refine ⟨hterm, ?_, ?_⟩
    · unfold cleanup
      rw [if_neg (by simp [h])]
      simp only [foldl_destroySync_eq]
      split_ifs <;> rfl
    · obtain ⟨tail, hcalls, t1, t2, t3, t4⟩ := cleanup_calls env s h
      rw [callsDuring_of_append hcalls]
      obtain ⟨u1, u2, u3, u4⟩ := flatMap_textureDestroyCalls s.userTextureImages
      simp only [List.flatMap_append, t1, t2, t3, t4, u1, u2, u3, u4, List.append_nil]
      simp [swapChainDestroyCalls, Call.destroyedSamplers, Call.destroyedImageViews,
        Call.destroyedImages, Call.freedMemory, List.flatMap_map, flatMap_const_nil]

/-- C25 at a session with two registered textures: the first cleanup destroys the samplers
230 and 330, the texture views 220 and 320 (after the swapchain views 20 and 21), the images
210 and 310 and the memory 211 and 311, and empties the registry; the second changes
nothing. -/
theorem cleanup_idempotent_witness :
    texturedHelper.terminated = false ∧
    cleanup ⟨false, false⟩ (cleanup ⟨false, false⟩ texturedHelper) =
      cleanup ⟨false, false⟩ texturedHelper ∧
    (cleanup ⟨false, false⟩ texturedHelper).userTextureImages = [] ∧
    (callsDuring texturedHelper (cleanup ⟨false, false⟩ texturedHelper)).flatMap
      Call.destroyedSamplers = [230, 330] ∧
    (callsDuring texturedHelper (cleanup ⟨false, false⟩ texturedHelper)).flatMap
      Call.destroyedImageViews = [20, 21, 220, 320] :=
  ⟨rfl, (cleanup_idempotent ⟨false, false⟩ ⟨false, false⟩ texturedHelper).1,
    ((cleanup_idempotent ⟨false, false⟩ ⟨false, false⟩ texturedHelper).2.2 rfl).2.1,
    ((cleanup_idempotent ⟨false, false⟩ ⟨false, false⟩ texturedHelper).2.2 rfl).2.2.1,
    ((cleanup_idempotent ⟨false, false⟩ ⟨false, false⟩ texturedHelper).2.2 rfl).2.2.2.1⟩

/-! ## What a swapchain rebuild touches (C23) -/

theorem keeps_refl (s : ImguiVulkanHelper) : Keeps s s :=
  ⟨rfl, [], by simp, by simp⟩

theorem keeps_trans {a b c : ImguiVulkanHelper} (hab : Keeps a b) (hbc : Keeps b c) :
    Keeps a c := by
  obtain ⟨h1, n1, hn1, hp1⟩ := hab
  obtain ⟨k1, n2, hn2, hp2⟩ := hbc
  refine ⟨k1.trans h1, n1 ++ n2, ?_, ?_⟩
  · rw [hn2, hn1, List.append_assoc]
  · intro c hc
    rcases List.mem_append.1 hc with h | h
    · exact hp1 c h
    · exact hp2 c h

theorem keeps_log (s : ImguiVulkanHelper) (c : Call) (hc : c.isDestroy = false) :
    Keeps s (s.log c) :=
  ⟨rfl, [c], rfl, by simpa using hc⟩

theorem createSwapChain_keeps (env : SwapChainEnv) (s : ImguiVulkanHelper) :
    Keeps s (createSwapChain env s).2 := by
  unfold createSwapChain
  simp only
  split
  · exact keeps_log _ _ (by rfl)
  · exact ⟨rfl, [.vkCreateSwapchainKHR (createSwapChain.createInfo env s) env.createRet
        env.swapChain, .vkGetSwapchainImagesKHR env.swapChain env.images],
      by simp [ImguiVulkanHelper.log], by simp [Call.isDestroy]⟩

theorem createImageViews_loop_keeps (ans : Nat → VkResult × Handle) :
    ∀ (n i : Nat) (s : ImguiVulkanHelper), Keeps s (createImageViews.loop ans n i s).2 := by
  intro n
  induction n with
  | zero => intro i s; exact keeps_refl s
  | succ n ih =>
    intro i s
    have hstep : Keeps s
        { (createImageView (ans i) (at_ s.swapChainImages i) s.swapChainImageFormat s).2 with
          swapChainImageViews :=
            (createImageView (ans i) (at_ s.swapChainImages i)
              s.swapChainImageFormat s).2.swapChainImageViews.set i
              (createImageView (ans i) (at_ s.swapChainImages i) s.swapChainImageFormat s).1 } := by
      unfold createImageView
      by_cases h : (ans i).1 ≠ VK_SUCCESS
      · simp only [if_pos h]
        exact ⟨rfl, [_], rfl, by simp [Call.isDestroy]⟩
      · simp only [if_neg h]
        exact ⟨rfl, [_], rfl, by simp [Call.isDestroy]⟩
    unfold createImageViews.loop
    simp only
    split
    · exact hstep
    · exact keeps_trans hstep (ih _ _)

theorem createImageViews_keeps (ans : Nat → VkResult × Handle) (s : ImguiVulkanHelper) :
    Keeps s (createImageViews ans s).2 := by
  unfold createImageViews
  exact keeps_trans ⟨rfl, [], by simp, by simp⟩ (createImageViews_loop_keeps ans _ _ _)

theorem createFramebuffers_loop_keeps (ans : Nat → VkResult × Handle) :
    ∀ (n i : Nat) (s : ImguiVulkanHelper), Keeps s (createFramebuffers.loop ans n i s).2 := by
  intro n
  induction n with
  | zero => intro i s; exact keeps_refl s
  | succ n ih =>
    intro i s
    unfold createFramebuffers.loop
    simp only
    split
    · exact keeps_log _ _ (by rfl)
    · refine keeps_trans ?_ (ih _ _)
      exact ⟨rfl, [_], rfl, by simp [Call.isDestroy]⟩

theorem createFramebuffers_keeps (ans : Nat → VkResult × Handle) (s : ImguiVulkanHelper) :
    Keeps s (createFramebuffers ans s).2 := by
  unfold createFramebuffers
  exact keeps_trans ⟨rfl, [], by simp, by simp⟩ (createFramebuffers_loop_keeps ans _ _ _)

theorem createCommandBuffers_keeps (ans : VkResult × (Nat → Handle)) (s : ImguiVulkanHelper) :
    Keeps s (createCommandBuffers ans s).2 := by
  unfold createCommandBuffers
  simp only
  split
  · exact ⟨rfl, [_], rfl, by simp [Call.isDestroy]⟩
  · exact ⟨rfl, [_], rfl, by simp [Call.isDestroy]⟩

theorem swapChainDestroyCalls_filter (s : ImguiVulkanHelper) :
    (swapChainDestroyCalls s).filter Call.isDestroy = swapChainDestroyCalls s := by
  rw [List.filter_eq_self]
  intro c hc
  simp only [swapChainDestroyCalls, List.mem_append, List.mem_map, List.mem_singleton] at hc
  rcases hc with ((⟨_, _, rfl⟩ | rfl) | ⟨_, _, rfl⟩) | rfl <;> rfl

/-- The calls of one `recreateSwapChain`: the device wait, the destroy calls of the
swapchain-derived objects of the state at the call, then calls that destroy nothing; and
the members outside the swapchain are kept. -/
theorem recreateSwapChain_calls_no_wait (env : RecreateEnv) (s : ImguiVulkanHelper)
    (hw : env.waitRounds = []) :
    sessionMembers (recreateSwapChain env s) = sessionMembers s ∧
    ∃ new, (recreateSwapChain env s).calls =
        s.calls ++ (Call.vkDeviceWaitIdle s.device :: (swapChainDestroyCalls s ++ new)) ∧
      ∀ c ∈ new, c.isDestroy = false := by
  have h1 : Keeps (cleanupSwapChain (s.log (.vkDeviceWaitIdle s.device)))
      (recreateSwapChain env s) := by
    unfold recreateSwapChain
    rw [hw]
    dsimp only [recreateSwapChain.wait]
    refine keeps_trans ?_ (createCommandBuffers_keeps _ _)
    refine keeps_trans ?_ (createFramebuffers_keeps _ _)
    refine keeps_trans ?_ (createImageViews_keeps _ _)
    exact createSwapChain_keeps _ _
  obtain ⟨hm, new, hn, hp⟩ := h1
  rw [cleanupSwapChain_eq] at hm hn
  refine ⟨hm, new, ?_, hp⟩
  rw [hn]
  simp [ImguiVulkanHelper.log, swapChainDestroyCalls]

/-- The calls of one `recreateSwapChain`, whatever its wait: the wait logs nothing and
changes none of the members the rebuild reads. -/
theorem recreateSwapChain_calls (env : RecreateEnv) (s : ImguiVulkanHelper) :
    sessionMembers (recreateSwapChain env s) = sessionMembers s ∧
    ∃ new, (recreateSwapChain env s).calls =
        s.calls ++ (Call.vkDeviceWaitIdle s.device :: (swapChainDestroyCalls s ++ new)) ∧
      ∀ c ∈ new, c.isDestroy = false := by
  rw [recreateSwapChain_after_wait]
  exact recreateSwapChain_calls_no_wait _ _ rfl

/-- C23: for every state and every outcome of the creation calls, `recreateSwapChain`
destroys only the framebuffers, the per-image command buffers, the image views and the
swapchain of the state at the call (its destroy calls are exactly those, in that order), and
leaves unchanged the instance, the surface, the physical and the logical device, both
queues, the render pass, the descriptor pool, the command pool, the semaphores and fences, and
the texture registry (and also the window, the debug messenger and the terminated flag). -/
theorem recreateSwapChain_destroys_only_swapchain_objects (env : RecreateEnv)
    (s : ImguiVulkanHelper) :
    (callsDuring s (recreateSwapChain env s)).filter Call.isDestroy =
      s.swapChainFramebuffers.map (fun fb => Call.vkDestroyFramebuffer fb) ++
      [.vkFreeCommandBuffers s.commandPool
        (s.commandBuffers.take (s.commandBuffers.length % 2 ^ 32))] ++
      s.swapChainImageViews.map (fun imageView => Call.vkDestroyImageView imageView) ++
      [.vkDestroySwapchainKHR s.swapChain] ∧
    (s.commandBuffers.length < 2 ^ 32 →
      s.commandBuffers.take (s.commandBuffers.length % 2 ^ 32) = s.commandBuffers) ∧
    (recreateSwapChain env s).instance_ = s.instance_ ∧
    (recreateSwapChain env s).surface = s.surface ∧
    (recreateSwapChain env s).physicalDevice = s.physicalDevice ∧
    (recreateSwapChain env s).device = s.device ∧
    (recreateSwapChain env s).graphicsQueue = s.graphicsQueue ∧
    (recreateSwapChain env s).presentQueue = s.presentQueue ∧
    (recreateSwapChain env s).renderPass = s.renderPass ∧
    (recreateSwapChain env s).descriptorPool = s.descriptorPool ∧
    (recreateSwapChain env s).commandPool = s.commandPool ∧
    (recreateSwapChain env s).imageAvailableSemaphores = s.imageAvailableSemaphores ∧
    (recreateSwapChain env s).renderFinishedSemaphores = s.renderFinishedSemaphores ∧
    (recreateSwapChain env s).swapChainImageFences = s.swapChainImageFences ∧
    (recreateSwapChain env s).userTextureImages = s.userTextureImages ∧
    (recreateSwapChain env s).window = s.window ∧
    (recreateSwapChain env s).debugMessenger = s.debugMessenger ∧
    (recreateSwapChain env s).terminated = s.terminated := by
  obtain ⟨hm, new, hn, hp⟩ := recreateSwapChain_calls env s
  have hfilter : new.filter Call.isDestroy = [] := by
    rw [List.filter_eq_nil_iff]
    intro c hc
    simp [hp c hc]
  simp only [sessionMembers, Prod.mk.injEq] at hm
  obtain ⟨m1, m2, m3, m4, m5, m6, m7, m8, m9, m10, m11, m12, m13, m14, m15, m16⟩ := hm
  refine ⟨?_, ?_, m3, m5, m6, m7, m8, m9, m10, m11, m12, m13, m14, m15, m16, m2, m4, m1⟩
  · rw [callsDuring_of_append hn, List.filter_cons_of_neg (by simp [Call.isDestroy]),
      List.filter_append, swapChainDestroyCalls_filter, hfilter, List.append_nil]
    rfl
  · intro h
    rw [Nat.mod_eq_of_lt h, List.take_length]

/-- C23 evaluated at a session with two images whose swapchain is rebuilt with three: the
destroy calls are those of the framebuffers 30 and 31, the command buffers 40 and 41, the
views 20 and 21 and the swapchain 7. -/
theorem recreateSwapChain_destroys_only_swapchain_objects_examples :
    (callsDuring sampleHelper (recreateSwapChain sampleRecreateEnv sampleHelper)).filter
        Call.isDestroy =
      [.vkDestroyFramebuffer 30, .vkDestroyFramebuffer 31, .vkFreeCommandBuffers 9 [40, 41],
        .vkDestroyImageView 20, .vkDestroyImageView 21, .vkDestroySwapchainKHR 7] ∧
    (recreateSwapChain sampleRecreateEnv sampleHelper).swapChainFramebuffers =
      [130, 131, 132] := by
  decide

/-! ## Fence discipline of one frame (C26) -/

/-- The calls of one `drawFrame`: the first `k` calls of a full frame, then (when the
swapchain is recreated) rebuild calls only; `k` is 1, 3, 7, 9 or 10, and recording has ended
with success when `k` is 9 or 10. -/
theorem drawFrame_calls_shape (env : DrawFrameEnv) (s : ImguiVulkanHelper) :
    ∃ (k : Nat) (new : List Call),
      callsDuring s (drawFrame env s) = (frameCalls env s).take k ++ new ∧
      (∀ c ∈ new, c.isSwapChainRebuild = true) ∧
      (k = 1 ∨ k = 3 ∨ k = 7 ∨ (k = 9 ∧ env.endRet = VK_SUCCESS) ∨
        (k = 10 ∧ env.endRet = VK_SUCCESS)) := by
  obtain ⟨p, hp⟩ := drawFrame_path env s
  cases p with
  | acquireOutOfDate =>
    obtain ⟨_, _, _, _, new, hn, hr, _⟩ := hp
    exact ⟨1, new, hn, hr, Or.inl rfl⟩
  | acquireError =>
    obtain ⟨_, _, _, _, _, _, hn⟩ := hp
    exact ⟨1, [], by rw [hn, List.append_nil], by simp, Or.inl rfl⟩
  | beginFailed =>
    obtain ⟨_, _, _, _, _, hn⟩ := hp
    exact ⟨3, [], by rw [hn, List.append_nil], by simp, Or.inr (Or.inl rfl)⟩
  | endFailed =>
    obtain ⟨_, _, _, _, _, _, hn⟩ := hp
    exact ⟨7, [], by rw [hn, List.append_nil], by simp, Or.inr (Or.inr (Or.inl rfl))⟩
  | submitFailed =>
    obtain ⟨_, _, he, _, _, _, _, hn⟩ := hp
    exact ⟨9, [], by rw [hn, List.append_nil], by simp,
      Or.inr (Or.inr (Or.inr (Or.inl ⟨rfl, he⟩)))⟩
  | presentRecreate =>
    obtain ⟨_, _, he, _, _, _, _, _, new, hn, hr, _⟩ := hp
    refine ⟨10, new, ?_, hr, Or.inr (Or.inr (Or.inr (Or.inr ⟨rfl, he⟩)))⟩
    rw [hn]
    rfl
  | presented =>
    obtain ⟨_, _, he, _, _, _, _, _, _, _, hn⟩ := hp
    refine ⟨10, [], ?_, by simp, Or.inr (Or.inr (Or.inr (Or.inr ⟨rfl, he⟩)))⟩
    rw [hn, List.append_nil]
    rfl

theorem getElem?_append_of_not_rebuild (front new : List Call)
    (hnew : ∀ c ∈ new, c.isSwapChainRebuild = true) (i : Nat) (c : Call)
    (h : (front ++ new)[i]? = some c) (hc : c.isSwapChainRebuild = false) :
    i < front.length := by
  by_contra hlt
  rw [List.getElem?_append_right (Nat.le_of_not_lt hlt)] at h
  have := hnew c (List.getElem?_mem h)
  rw [hc] at this
  exact Bool.false_ne_true this

/-- C26: in every `drawFrame` call, a `vkBeginCommandBuffer` is a begin of the command buffer
of slot `c = currentFrame` and the call just before it is the wait on the fence of slot `c`
(which has returned, calls being made one after the other); a `vkResetFences` is a reset of
the fence of slot `c`, the call just before it is the `vkEndCommandBuffer` of command buffer
`c` that returned `VK_SUCCESS`, and the call just after it is the `vkQueueSubmit` that is
given that fence; and a call that makes no queue submit resets no fence. -/
theorem drawFrame_fence_order (env : DrawFrameEnv) (s : ImguiVulkanHelper) :
    (∀ (i : Nat) (cb : Handle) (ret : VkResult),
      (callsDuring s (drawFrame env s))[i]? = some (.vkBeginCommandBuffer cb ret) →
      cb = at_ s.commandBuffers s.currentFrame ∧ 0 < i ∧
      (callsDuring s (drawFrame env s))[i - 1]? =
        some (.vkWaitForFences (at_ s.swapChainImageFences s.currentFrame))) ∧
    (∀ (j : Nat) (fence : Handle),
      (callsDuring s (drawFrame env s))[j]? = some (.vkResetFences fence) →
      fence = at_ s.swapChainImageFences s.currentFrame ∧ 0 < j ∧
      (callsDuring s (drawFrame env s))[j - 1]? =
        some (.vkEndCommandBuffer (at_ s.commandBuffers s.currentFrame) VK_SUCCESS) ∧
      (callsDuring s (drawFrame env s))[j + 1]? =
        some (.vkQueueSubmit s.graphicsQueue [at_ s.imageAvailableSemaphores s.currentFrame]
          [at_ s.commandBuffers s.currentFrame]
          [at_ s.renderFinishedSemaphores s.currentFrame]
          (at_ s.swapChainImageFences s.currentFrame) env.submitRet)) ∧
    ((callsDuring s (drawFrame env s)).any Call.isSubmit = false →
      (callsDuring s (drawFrame env s)).any Call.isFenceReset = false) := by
  obtain ⟨k, new, hL, hnew, hk⟩ := drawFrame_calls_shape env s
  have hreset : new.any Call.isFenceReset = false := by
    apply any_eq_false_of_rebuild new _ hnew
    intro c
    cases c <;> intro hc <;> first | rfl | cases hc
  rw [hL]
  clear hL
  refine ⟨?_, ?_, ?_⟩
  · intro i cb ret h
    have hi := getElem?_append_of_not_rebuild _ new hnew i _ h rfl
    rcases hk with rfl | rfl | rfl | ⟨rfl, he⟩ | ⟨rfl, he⟩ <;>
      simp only [frameCalls, List.take_succ_cons, List.take_zero, List.length_cons,
        List.length_nil, List.cons_append, List.nil_append] at hi h ⊢ <;>
      interval_cases i <;> simp_all
  · intro j fence h
    have hj := getElem?_append_of_not_rebuild _ new hnew j _ h rfl
    rcases hk with rfl | rfl | rfl | ⟨rfl, he⟩ | ⟨rfl, he⟩ <;>
      simp only [frameCalls, List.take_succ_cons, List.take_zero, List.length_cons,
        List.length_nil, List.cons_append, List.nil_append] at hj h ⊢ <;>
      interval_cases j <;> simp_all
  · intro h
    rw [List.any_append, hreset, Bool.or_false]
    rw [List.any_append] at h
    rcases hk with rfl | rfl | rfl | ⟨rfl, he⟩ | ⟨rfl, he⟩ <;>
      simp only [frameCalls, List.take_succ_cons, List.take_zero, List.any_cons, List.any_nil,
        Call.isSubmit, Call.isFenceReset] at h ⊢ <;>
      simp at h ⊢

/-- C26 at a frame of `sampleHelper` in which every call succeeds: the begin of command
buffer 40 is call 2 and follows the wait on fence 70; the reset of fence 70 is call 7, between
the successful end of command buffer 40 and the submit that is given fence 70. -/
theorem drawFrame_fence_order_witness :
    (callsDuring sampleHelper (drawFrame sampleFrameEnv sampleHelper))[2]? =
      some (.vkBeginCommandBuffer 40 VK_SUCCESS) ∧
    (callsDuring sampleHelper (drawFrame sampleFrameEnv sampleHelper))[2 - 1]? =
      some (.vkWaitForFences 70) ∧
    (callsDuring sampleHelper (drawFrame sampleFrameEnv sampleHelper))[7]? =
      some (.vkResetFences 70) ∧
    (callsDuring sampleHelper (drawFrame sampleFrameEnv sampleHelper))[7 - 1]? =
      some (.vkEndCommandBuffer 40 VK_SUCCESS) ∧
    (callsDuring sampleHelper (drawFrame sampleFrameEnv sampleHelper))[7 + 1]? =
      some (.vkQueueSubmit 6 [50] [40] [60] 70 VK_SUCCESS) :=
  ⟨by decide,
    ((drawFrame_fence_order sampleFrameEnv sampleHelper).1 2 40 VK_SUCCESS (by decide)).2.2,
    by decide,
    ((drawFrame_fence_order sampleFrameEnv sampleHelper).2.1 7 70 (by decide)).2.2.1,
    ((drawFrame_fence_order sampleFrameEnv sampleHelper).2.1 7 70 (by decide)).2.2.2⟩

/-! ## Framebuffer and presented image (C28) -/

/-- In every `drawFrame` call, a render pass is begun on the framebuffer at index
`currentFrame`, and a present passes the image index that the acquire returned. -/
theorem drawFrame_framebuffer_is_slot (env : DrawFrameEnv) (s : ImguiVulkanHelper) :
    (∀ fb ∈ (callsDuring s (drawFrame env s)).flatMap Call.renderTargets,
      fb = at_ s.swapChainFramebuffers s.currentFrame) ∧
    (∀ i ∈ (callsDuring s (drawFrame env s)).flatMap Call.presentedIndices,
      i = env.imageIndex) := by
  obtain ⟨k, new, hL, hnew, hk⟩ := drawFrame_calls_shape env s
  have h1 : new.flatMap Call.renderTargets = [] := by
    rw [List.flatMap_eq_nil_iff]
    intro c hc
    have hr := hnew c hc
    revert hr
    cases c <;> intro hr <;> first | rfl | cases hr
  have h2 : new.flatMap Call.presentedIndices = [] := by
    rw [List.flatMap_eq_nil_iff]
    intro c hc
    have hr := hnew c hc
    revert hr
    cases c <;> intro hr <;> first | rfl | cases hr
  rw [hL, List.flatMap_append, List.flatMap_append, h1, h2]
  clear hL
  rcases hk with rfl | rfl | rfl | ⟨rfl, he⟩ | ⟨rfl, he⟩ <;>
    simp [frameCalls, Call.renderTargets, Call.presentedIndices]

/-- C28, at the failing input: a session set up by `initVulkan` with two images, at frame
slot 0, draws a frame in which every call succeeds and the acquire returns image index 1
(below `imageCount`).  The render pass is recorded against framebuffer 30, the framebuffer
at index 0, built from view 20 of image 10, and the present passes image index 1, whose
image 11 has the view 21 and the framebuffer 31. -/
theorem drawFrame_framebuffer_not_of_presented_image :
    initialisedHelper.currentFrame = 0 ∧ initialisedHelper.imageCount = 2 ∧
    secondImageFrameEnv.imageIndex = 1 ∧
    initialisedHelper.swapChainImages = [10, 11] ∧
    initialisedHelper.calls.flatMap Call.createdViewsOfImages = [(20, 10), (21, 11)] ∧
    initialisedHelper.calls.flatMap Call.createdFramebuffers = [(30, 20), (31, 21)] ∧
    initialisedHelper.swapChainFramebuffers = [30, 31] ∧
    (callsDuring initialisedHelper (drawFrame secondImageFrameEnv initialisedHelper)).flatMap
      Call.renderTargets = [30] ∧
    (callsDuring initialisedHelper (drawFrame secondImageFrameEnv initialisedHelper)).flatMap
      Call.presentedIndices = [1] := by
  decide

/-! ## Sync objects after a rebuild (C27) -/

theorem createSyncObjects_loop_shape (env : SyncEnv) :
    ∀ (n i : Nat) (s : ImguiVulkanHelper),
      syncShape (createSyncObjects.loop env n i s).2 = syncShape s := by
  intro n
  induction n with
  | zero => intro i s; rfl
  | succ n ih =>
    intro i s
    unfold createSyncObjects.loop
    simp only
    split
    · rfl
    · split
      · simp [syncShape, ImguiVulkanHelper.log]
      · split
        · simp [syncShape, ImguiVulkanHelper.log]
        · rw [ih]
          simp [syncShape, ImguiVulkanHelper.log]

theorem resize_length (v : List Handle) (n : Nat) : (resize v n).length = n := by
  simp only [resize, List.length_append, List.length_take, List.length_replicate]
  omega

/-- After `createSyncObjects`, whatever it returns, the three vectors of sync objects have
the length `imageCount`. -/
theorem createSyncObjects_lengths (env : SyncEnv) (s : ImguiVulkanHelper) :
    syncShape (createSyncObjects env s).2 =
      (s.imageCount, s.imageCount, s.imageCount, s.imageCount) := by
  unfold createSyncObjects
  dsimp only
  rw [createSyncObjects_loop_shape]
  simp only [syncShape, resize_length]

/-- C27, at the failing input: the session set up by `initVulkan` with two images (two
semaphores of each kind, two fences) draws a frame whose acquire reports an out-of-date
swapchain, and the recreated swapchain has three images.  Afterwards `imageCount` is 3 while
the three vectors of sync objects still have length 2; two frames later `currentFrame` is 2,
below `imageCount`, and index 2 is out of bounds for the three vectors, which `drawFrame`
and the loop of `cleanup` read at that index. -/
theorem sync_objects_not_resized_by_recreation :
    (initVulkan sampleInitEnv windowOnlyHelper).1 = true ∧
    syncShape initialisedHelper = (2, 2, 2, 2) ∧
    outOfDateFrameEnv.recreate.swapChain.images.length = 3 ∧
    syncShape (drawFrame outOfDateFrameEnv initialisedHelper) = (2, 2, 2, 3) ∧
    (drawFrames [⟨false, outOfDateFrameEnv⟩, ⟨false, sampleFrameEnv⟩, ⟨false, sampleFrameEnv⟩]
      initialisedHelper).currentFrame = 2 ∧
    syncShape (drawFrames [⟨false, outOfDateFrameEnv⟩, ⟨false, sampleFrameEnv⟩,
      ⟨false, sampleFrameEnv⟩] initialisedHelper) = (2, 2, 2, 3) ∧
    (drawFrames [⟨false, outOfDateFrameEnv⟩, ⟨false, sampleFrameEnv⟩,
      ⟨false, sampleFrameEnv⟩] initialisedHelper).imageAvailableSemaphores[2]? = none ∧
    (drawFrames [⟨false, outOfDateFrameEnv⟩, ⟨false, sampleFrameEnv⟩,
      ⟨false, sampleFrameEnv⟩] initialisedHelper).swapChainImageFences[2]? = none := by
  decide

/-! ## A fence that nothing signals (C29) -/

/-- C29, at the failing input: the session set up by `initVulkan` with two images (both
fences created signaled) draws a frame at slot 0 whose queue submit fails, then a frame at
slot 1 in which every call succeeds.  At the start of the third `drawFrame` call
`currentFrame` is 0 again and the fence of slot 0 (70) is unsignaled with nothing pending: the
first call reset it and its submit failed.  The third call waits on that fence. -/
theorem drawFrame_waits_on_fence_nothing_signals :
    (initVulkan sampleInitEnv windowOnlyHelper).1 = true ∧
    fenceStatus initialisedHelper.calls 70 = some .signaled ∧
    fenceStatus initialisedHelper.calls 71 = some .signaled ∧
    (drawFrame submitFailedFrameEnv initialisedHelper).currentFrame = 1 ∧
    fenceStatus (drawFrame submitFailedFrameEnv initialisedHelper).calls 70 =
      some .unsignaled ∧
    (drawFrames [⟨false, submitFailedFrameEnv⟩, ⟨false, sampleFrameEnv⟩]
      initialisedHelper).currentFrame = 0 ∧
    at_ (drawFrames [⟨false, submitFailedFrameEnv⟩, ⟨false, sampleFrameEnv⟩]
      initialisedHelper).swapChainImageFences 0 = 70 ∧
    fenceStatus (drawFrames [⟨false, submitFailedFrameEnv⟩, ⟨false, sampleFrameEnv⟩]
      initialisedHelper).calls 70 = some .unsignaled ∧
    (callsDuring
      (drawFrames [⟨false, submitFailedFrameEnv⟩, ⟨false, sampleFrameEnv⟩] initialisedHelper)
      (drawFrame sampleFrameEnv
        (drawFrames [⟨false, submitFailedFrameEnv⟩, ⟨false, sampleFrameEnv⟩]
          initialisedHelper)))[1]? = some (.vkWaitForFences 70) := by
  decide

/-! ## The byte size of a loaded image (C30) -/

/-- C30 as stated fails: for a decoded image of 32768x32768 pixels (positive 32-bit signed
width and height) `texWidth * texHeight * 4` leaves the range of `int`; the byte size that
`loadImage` passes to `createBuffer` is 0, not 4 * 32768 * 32768. -/
theorem loadImage_imageSize_wraps_counterexample :
    hugeImageEnv.decoded = some (32768, 32768) ∧
    (0 : Int) < 32768 ∧ (32768 : Int) < 2 ^ 31 ∧
    loadImage.imageSize 32768 32768 = 0 ∧
    (loadImage.imageSize 32768 32768 : Int) ≠ 4 * 32768 * 32768 ∧
    (callsDuring sampleHelper (loadImage hugeImageEnv none none sampleHelper).state).head? =
      some (.vkCreateBuffer 0 VK_BUFFER_USAGE_TRANSFER_SRC_BIT VK_SUCCESS 200) := by
  decide

theorem toInt32_of_fits (i : Int) (h0 : 0 ≤ i) (h1 : i < 2 ^ 31) : toInt32 i = i := by
  unfold toInt32 Int.bmod
  have h2 : i % ((2 ^ 32 : Nat) : Int) = i := Int.emod_eq_of_lt h0 (by norm_num; omega)
  rw [h2]
  norm_num
  omega

theorem loadImage_imageSize_of_fits (w h : Int) (hw : 0 < w) (hh : 0 < h)
    (hfit : 4 * w * h < 2 ^ 31) : (loadImage.imageSize w h : Int) = 4 * w * h := by
  have hp : 0 < w * h := mul_pos hw hh
  have hq : 4 * (w * h) < 2 ^ 31 := by rw [← mul_assoc]; exact hfit
  unfold loadImage.imageSize
  rw [toInt32_of_fits (w * h) (le_of_lt hp) (by omega),
    toInt32_of_fits (w * h * 4) (by omega) (by omega)]
  unfold toUint64
  rw [Int.emod_eq_of_lt (by omega) (by omega), Int.toNat_of_nonneg (by omega)]
  ring

theorem sizeless_refl (s : ImguiVulkanHelper) : Sizeless s s :=
  ⟨[], by simp, rfl⟩

theorem sizeless_trans {a b c : ImguiVulkanHelper} (hab : Sizeless a b) (hbc : Sizeless b c) :
    Sizeless a c := by
  obtain ⟨n1, hn1, hp1⟩ := hab
  obtain ⟨n2, hn2, hp2⟩ := hbc
  refine ⟨n1 ++ n2, ?_, ?_⟩
  · rw [hn2, hn1, List.append_assoc]
  · rw [List.flatMap_append, hp1, hp2]
    rfl

theorem sizeless_log {s t : ImguiVulkanHelper} (c : Call) (hc : c.byteSizes = [])
    (h : Sizeless s t) : Sizeless s (t.log c) :=
  sizeless_trans h ⟨[c], rfl, by simp [hc]⟩

theorem sizeless_ite_log {s t : ImguiVulkanHelper} (p : Prop) [Decidable p] (c : Call)
    (hc : c.byteSizes = []) (h : Sizeless s t) : Sizeless s (if p then t.log c else t) := by
  split
  · exact sizeless_log c hc h
  · exact h

theorem sizeless_registry {s t : ImguiVulkanHelper} (l : List UserTextureImage)
    (h : Sizeless s t) : Sizeless s { t with userTextureImages := l } :=
  h

theorem createImage_sizeless (env : CreateEnv)
    (width height format tiling usage properties : Nat) (image imageMemory : Handle)
    (s : ImguiVulkanHelper) :
    Sizeless s (createImage env width height format tiling usage properties image imageMemory
      s).state := by
  unfold createImage
  dsimp only
  split
  · exact sizeless_log _ (by rfl) (sizeless_refl s)
  · split
    · exact sizeless_log _ (by rfl) (sizeless_refl s)
    · split
      · exact sizeless_log _ (by rfl) (sizeless_log _ (by rfl)
          (sizeless_log _ (by rfl) (sizeless_refl s)))
      · exact sizeless_log _ (by rfl) (sizeless_log _ (by rfl)
          (sizeless_log _ (by rfl) (sizeless_refl s)))

theorem beginSingleTimeCommands_sizeless (env : OneShotEnv) (s : ImguiVulkanHelper) :
    Sizeless s (beginSingleTimeCommands env s).2 := by
  unfold beginSingleTimeCommands
  dsimp only
  split
  · exact sizeless_log _ (by rfl) (sizeless_refl s)
  · split
    · exact sizeless_log _ (by rfl) (sizeless_log _ (by rfl)
        (sizeless_log _ (by rfl) (sizeless_refl s)))
    · exact sizeless_log _ (by rfl) (sizeless_log _ (by rfl) (sizeless_refl s))

theorem endSingleTimeCommands_sizeless (env : OneShotEnv) (commandBuffer : Handle)
    (s : ImguiVulkanHelper) : Sizeless s (endSingleTimeCommands env commandBuffer s).2 := by
  unfold endSingleTimeCommands
  dsimp only
  split
  · exact sizeless_log _ (by rfl) (sizeless_log _ (by rfl) (sizeless_refl s))
  · split
    · exact sizeless_log _ (by rfl) (sizeless_log _ (by rfl)
        (sizeless_log _ (by rfl) (sizeless_refl s)))
    · split
      · exact sizeless_log _ (by rfl) (sizeless_log _ (by rfl) (sizeless_log _ (by rfl)
          (sizeless_log _ (by rfl) (sizeless_refl s))))
      · exact sizeless_log _ (by rfl) (sizeless_log _ (by rfl) (sizeless_log _ (by rfl)
          (sizeless_log _ (by rfl) (sizeless_refl s))))

theorem transitionImageLayout_sizeless (env : OneShotEnv) (image : Handle)
    (format oldLayout newLayout : Nat) (s : ImguiVulkanHelper) :
    Sizeless s (transitionImageLayout env image format oldLayout newLayout s).2 := by
  unfold transitionImageLayout
  dsimp only
  split
  · exact sizeless_log _ (by rfl) (beginSingleTimeCommands_sizeless env s)
  · split
    · exact sizeless_trans (sizeless_log _ (by rfl) (beginSingleTimeCommands_sizeless env s))
        (endSingleTimeCommands_sizeless _ _ _)
    · split
      · exact sizeless_trans (sizeless_log _ (by rfl) (beginSingleTimeCommands_sizeless env s))
          (endSingleTimeCommands_sizeless _ _ _)
      · exact sizeless_log _ (by rfl) (beginSingleTimeCommands_sizeless env s)

theorem copyBufferToImage_sizeless (env : OneShotEnv) (buffer image : Handle)
    (width height : Nat) (s : ImguiVulkanHelper) :
    Sizeless s (copyBufferToImage env buffer image width height s).2 := by
  unfold copyBufferToImage
  dsimp only
  split
  · exact sizeless_log _ (by rfl) (beginSingleTimeCommands_sizeless env s)
  · exact sizeless_trans (sizeless_log _ (by rfl) (beginSingleTimeCommands_sizeless env s))
      (endSingleTimeCommands_sizeless _ _ _)

theorem createImageView_sizeless (ans : VkResult × Handle) (image : Handle) (format : Nat)
    (s : ImguiVulkanHelper) : Sizeless s (createImageView ans image format s).2 := by
  unfold createImageView
  dsimp only
  split
  · exact sizeless_log _ (by rfl) (sizeless_refl s)
  · exact sizeless_log _ (by rfl) (sizeless_refl s)

theorem loadImage_out_sizeless (result stagingBuffer stagingBufferMemory textureImageView
    textureImage textureImageMemory textureSampler : Handle) {s t : ImguiVulkanHelper}
    (h : Sizeless s t) :
    Sizeless s (loadImage.out result stagingBuffer stagingBufferMemory textureImageView
      textureImage textureImageMemory textureSampler t) := by
  unfold loadImage.out
  dsimp only
  exact sizeless_ite_log _ _ (by rfl) (sizeless_ite_log _ _ (by rfl)
    (sizeless_ite_log _ _ (by rfl) (sizeless_ite_log _ _ (by rfl)
      (sizeless_log _ (by rfl) (sizeless_log _ (by rfl) h)))))

theorem createBuffer_byteSizes (env : CreateEnv) (size usage properties : Nat)
    (buffer bufferMemory : Handle) (s : ImguiVulkanHelper) :
    ∃ new, (createBuffer env size usage properties buffer bufferMemory s).state.calls =
        s.calls ++ new ∧ new.flatMap Call.byteSizes = [size] := by
  unfold createBuffer
  dsimp only
  split
  · exact ⟨[.vkCreateBuffer size usage env.createRet env.object], rfl, rfl⟩
  · split
    · exact ⟨[.vkCreateBuffer size usage env.createRet env.object], rfl, rfl⟩
    · split
      · exact ⟨[.vkCreateBuffer size usage env.createRet env.object,
          .vkAllocateMemory env.memRequirements.size
            (findMemoryType env.memoryTypes env.memRequirements.memoryTypeBits properties)
            env.allocateRet env.memory,
          .vkDestroyBuffer env.object], by simp [ImguiVulkanHelper.log], rfl⟩
      · exact ⟨[.vkCreateBuffer size usage env.createRet env.object,
          .vkAllocateMemory env.memRequirements.size
            (findMemoryType env.memoryTypes env.memRequirements.memoryTypeBits properties)
            env.allocateRet env.memory,
          .vkBindBufferMemory env.object env.memory], by simp [ImguiVulkanHelper.log], rfl⟩

/-- The calls of `loadImage` after the pixels are copied to the staging buffer pass no byte
size. -/
theorem loadImage_byteSizes (env : LoadImageEnv) (width height : Option Int)
    (s : ImguiVulkanHelper) (w h : Int) (hdec : env.decoded = some (w, h)) :
    (callsDuring s (loadImage env width height s).state).flatMap Call.byteSizes =
      if (createBuffer env.staging (loadImage.imageSize w h) VK_BUFFER_USAGE_TRANSFER_SRC_BIT
          (VK_MEMORY_PROPERTY_HOST_VISIBLE_BIT ||| VK_MEMORY_PROPERTY_HOST_COHERENT_BIT)
          env.stagingBuffer0 env.stagingBufferMemory0 s).ok = true then
        [loadImage.imageSize w h, loadImage.imageSize w h, loadImage.imageSize w h]
      else [loadImage.imageSize w h] := by
  obtain ⟨new, hnew, hsizes⟩ := createBuffer_byteSizes env.staging (loadImage.imageSize w h)
    VK_BUFFER_USAGE_TRANSFER_SRC_BIT
    (VK_MEMORY_PROPERTY_HOST_VISIBLE_BIT ||| VK_MEMORY_PROPERTY_HOST_COHERENT_BIT)
    env.stagingBuffer0 env.stagingBufferMemory0 s
  cases hok : (createBuffer env.staging (loadImage.imageSize w h)
      VK_BUFFER_USAGE_TRANSFER_SRC_BIT
      (VK_MEMORY_PROPERTY_HOST_VISIBLE_BIT ||| VK_MEMORY_PROPERTY_HOST_COHERENT_BIT)
      env.stagingBuffer0 env.stagingBufferMemory0 s).ok with
  | false =>
    have hstate : (loadImage env width height s).state =
        (createBuffer env.staging (loadImage.imageSize w h) VK_BUFFER_USAGE_TRANSFER_SRC_BIT
          (VK_MEMORY_PROPERTY_HOST_VISIBLE_BIT ||| VK_MEMORY_PROPERTY_HOST_COHERENT_BIT)
          env.stagingBuffer0 env.stagingBufferMemory0 s).state := by
      unfold loadImage
      rw [hdec]
      simp only [hok, if_true]
    rw [hstate, callsDuring_of_append hnew, hsizes]
    rfl
  | true =>
    let staging := createBuffer env.staging (loadImage.imageSize w h)
      VK_BUFFER_USAGE_TRANSFER_SRC_BIT
      (VK_MEMORY_PROPERTY_HOST_VISIBLE_BIT ||| VK_MEMORY_PROPERTY_HOST_COHERENT_BIT)
      env.stagingBuffer0 env.stagingBufferMemory0 s
    let s2 := (staging.state.log (.vkMapMemory staging.memory (loadImage.imageSize w h))).log
      (.memcpy (loadImage.imageSize w h))
    let created := createImage env.image (toUint32 w) (toUint32 h)
      VK_FORMAT_R8G8B8A8_SRGB VK_IMAGE_TILING_OPTIMAL
      (VK_IMAGE_USAGE_TRANSFER_DST_BIT ||| VK_IMAGE_USAGE_SAMPLED_BIT)
      VK_MEMORY_PROPERTY_DEVICE_LOCAL_BIT env.textureImage0 env.textureImageMemory0
      (s2.log (.vkUnmapMemory staging.memory))
    let t1 := transitionImageLayout env.toTransferDst created.object VK_FORMAT_R8G8B8A8_SRGB
      VK_IMAGE_LAYOUT_UNDEFINED VK_IMAGE_LAYOUT_TRANSFER_DST_OPTIMAL created.state
    let c := copyBufferToImage env.copy staging.object created.object (toUint32 w)
      (toUint32 h) t1.2
    let t2 := transitionImageLayout env.toShaderRead created.object VK_FORMAT_R8G8B8A8_SRGB
      VK_IMAGE_LAYOUT_TRANSFER_DST_OPTIMAL VK_IMAGE_LAYOUT_SHADER_READ_ONLY_OPTIMAL c.2
    let v := createImageView env.imageView created.object VK_FORMAT_R8G8B8A8_SRGB t2.2
    have h3 : Sizeless s2 (s2.log (.vkUnmapMemory staging.memory)) :=
      sizeless_log _ (by rfl) (sizeless_refl _)
    have hc : Sizeless s2 created.state := sizeless_trans h3 (createImage_sizeless _ _ _ _ _ _ _ _ _ _)
    have ht1 : Sizeless s2 t1.2 := sizeless_trans hc (transitionImageLayout_sizeless _ _ _ _ _ _)
    have hcp : Sizeless s2 c.2 := sizeless_trans ht1 (copyBufferToImage_sizeless _ _ _ _ _ _)
    have ht2 : Sizeless s2 t2.2 := sizeless_trans hcp (transitionImageLayout_sizeless _ _ _ _ _ _)
    have hv : Sizeless s2 v.2 := sizeless_trans ht2 (createImageView_sizeless _ _ _ _)
    have hs4 : Sizeless s2 (v.2.log (.vkCreateSampler env.samplerRet env.sampler)) :=
      sizeless_log _ (by rfl) hv
    have hs5 : Sizeless s2 ((v.2.log (.vkCreateSampler env.samplerRet env.sampler)).log
        (.ImGui_ImplVulkan_AddTexture env.sampler v.1 env.textureId)) :=
      sizeless_log _ (by rfl) hs4
    have hrest : Sizeless s2 (loadImage env width height s).state := by
      unfold loadImage
      rw [hdec]
      simp only [hok, Bool.true_eq_false, if_false]
      split
      · exact loadImage_out_sizeless _ _ _ _ _ _ _ hc
      · split
        · exact loadImage_out_sizeless _ _ _ _ _ _ _ ht1
        · split
          · exact loadImage_out_sizeless _ _ _ _ _ _ _ hcp
          · split
            · exact loadImage_out_sizeless _ _ _ _ _ _ _ ht2
            · split
              · exact loadImage_out_sizeless _ _ _ _ _ _ _ hv
              · split
                · exact loadImage_out_sizeless _ _ _ _ _ _ _ hs4
                · split
                  · exact loadImage_out_sizeless _ _ _ _ _ _ _ hs5
                  · exact loadImage_out_sizeless _ _ _ _ _ _ _ (sizeless_registry _ hs5)
    obtain ⟨rest, hrest1, hrest2⟩ := hrest
    have hall : (loadImage env width height s).state.calls =
        s.calls ++ (new ++ ([.vkMapMemory staging.memory (loadImage.imageSize w h),
          .memcpy (loadImage.imageSize w h)] ++ rest)) := by
      rw [hrest1]
      show (staging.state.calls ++ _ ++ _) ++ rest = _
      rw [hnew]
      simp
    rw [callsDuring_of_append hall]
    simp only [List.flatMap_append, hsizes, hrest2, List.append_nil]
    rfl

/-- C30, amended: for every decoded image with positive width `w` and height `h` such that
`4 * w * h` is representable in `int` (below `2 ^ 31`), the byte size `loadImage` computes
equals the exact integer `4 * w * h`, and it is the size passed for the staging buffer and,
when the staging buffer is created, for the memory mapping and for the pixel copy; no other
call of `loadImage` passes a byte size. -/
theorem loadImage_byte_size_exact (env : LoadImageEnv) (width height : Option Int)
    (s : ImguiVulkanHelper) (w h : Int) (hdec : env.decoded = some (w, h))
    (hw : 0 < w) (hh : 0 < h) (hfit : 4 * w * h < 2 ^ 31) :
    (loadImage.imageSize w h : Int) = 4 * w * h ∧
    (∀ size ∈ (callsDuring s (loadImage env width height s).state).flatMap Call.byteSizes,
      (size : Int) = 4 * w * h) ∧
    ((createBuffer env.staging (loadImage.imageSize w h) VK_BUFFER_USAGE_TRANSFER_SRC_BIT
        (VK_MEMORY_PROPERTY_HOST_VISIBLE_BIT ||| VK_MEMORY_PROPERTY_HOST_COHERENT_BIT)
        env.stagingBuffer0 env.stagingBufferMemory0 s).ok = true →
      (callsDuring s (loadImage env width height s).state).flatMap Call.byteSizes =
        [loadImage.imageSize w h, loadImage.imageSize w h, loadImage.imageSize w h]) ∧
    ((createBuffer env.staging (loadImage.imageSize w h) VK_BUFFER_USAGE_TRANSFER_SRC_BIT
        (VK_MEMORY_PROPERTY_HOST_VISIBLE_BIT ||| VK_MEMORY_PROPERTY_HOST_COHERENT_BIT)
        env.stagingBuffer0 env.stagingBufferMemory0 s).ok = false →
      (callsDuring s (loadImage env width height s).state).flatMap Call.byteSizes =
        [loadImage.imageSize w h]) := by
  have hsize := loadImage_imageSize_of_fits w h hw hh hfit
  have hlog := loadImage_byteSizes env width height s w h hdec
  refine ⟨hsize, ?_, ?_, ?_⟩
  · intro size hmem
    rw [hlog] at hmem
    split at hmem
    · simp only [List.mem_cons, List.mem_singleton, List.mem_nil_iff, or_false, or_self]
        at hmem
      rw [hmem]
      exact hsize
    · simp only [List.mem_singleton] at hmem
      rw [hmem]
      exact hsize
  · intro hok
    rw [hlog, if_pos hok]
  · intro hok
    rw [hlog, if_neg (by simp [hok])]

/-- C30 amended, at the 2x2 image of `sampleLoadImageEnv`: the byte size is 16 and the staging
buffer, the mapping and the copy are given 16 bytes. -/
theorem loadImage_byte_size_exact_witness :
    (sampleLoadImageEnv.decoded = some (2, 2) ∧ (0 : Int) < 2 ∧ (4 : Int) * 2 * 2 < 2 ^ 31) ∧
    (loadImage.imageSize 2 2 : Int) = 4 * 2 * 2 ∧
    (callsDuring sampleHelper
      (loadImage sampleLoadImageEnv none none sampleHelper).state).flatMap Call.byteSizes =
      [loadImage.imageSize 2 2, loadImage.imageSize 2 2, loadImage.imageSize 2 2] :=
  ⟨⟨rfl, by decide, by decide⟩,
    (loadImage_byte_size_exact sampleLoadImageEnv none none sampleHelper 2 2 rfl (by decide)
      (by decide) (by decide)).1,
    (loadImage_byte_size_exact sampleLoadImageEnv none none sampleHelper 2 2 rfl (by decide)
      (by decide) (by decide)).2.2.1 (by decide)⟩

/-! ## Two rebuilds in a row (C24) -/

/-- C24, at the failing input: the session set up by `initVulkan` (views 20 and 21) is
rebuilt twice in a row, and in the first rebuild the first `vkCreateImageView` fails.
`createImageViews` returns false at index 0, the result is ignored, and the view vector
keeps the stale handle 21 that `cleanupSwapChain` has just destroyed: the first rebuild
destroys the views 20 and 21 and creates none, builds framebuffer 131 from the destroyed
view 21, and the second rebuild destroys view 21 a second time. -/
theorem recreateSwapChain_twice_destroys_stale_view :
    (callsDuring initialisedHelper
      (recreateSwapChain viewFailsRecreateEnv initialisedHelper)).flatMap
        Call.destroyedImageViews = [20, 21] ∧
    (callsDuring initialisedHelper
      (recreateSwapChain viewFailsRecreateEnv initialisedHelper)).flatMap
        Call.createdImageViews = [] ∧
    (recreateSwapChain viewFailsRecreateEnv initialisedHelper).imageCount = 3 ∧
    (recreateSwapChain viewFailsRecreateEnv initialisedHelper).swapChainImageViews =
      [0, 21, 0] ∧
    (callsDuring initialisedHelper
      (recreateSwapChain viewFailsRecreateEnv initialisedHelper)).flatMap
        Call.createdFramebuffers = [(130, 0), (131, 21), (132, 0)] ∧
    (callsDuring (recreateSwapChain viewFailsRecreateEnv initialisedHelper)
      (recreateSwapChain secondRecreateEnv
        (recreateSwapChain viewFailsRecreateEnv initialisedHelper))).flatMap
        Call.destroyedImageViews = [0, 21, 0] := by
  decide

theorem take_succ_set (v : Handle) :
    ∀ (l : List Handle) (i : Nat), i < l.length → (l.set i v).take (i + 1) = l.take i ++ [v] := by
  intro l
  induction l with
  | nil => intro i h; simp at h
  | cons a rest ih =>
    intro i h
    cases i with
    | zero => simp
    | succ i =>
      simp only [List.set_cons_succ, List.take_succ_cons, List.cons_append, List.cons.injEq,
        true_and]
      exact ih i (by simpa using h)

theorem createImageViews_loop_success (ans : Nat → VkResult × Handle) :
    ∀ (n i : Nat) (s : ImguiVulkanHelper),
      (∀ j, i ≤ j → j < i + n → (ans j).1 = VK_SUCCESS ∧ (ans j).2 ≠ VK_NULL_HANDLE) →
      s.swapChainImageViews.length = i + n →
      createImageViews.loop ans n i s =
        (true, { s with
          swapChainImageViews :=
            s.swapChainImageViews.take i ++ (List.range' i n).map (fun j => (ans j).2)
          calls := s.calls ++ (List.range' i n).map (fun j =>
            Call.vkCreateImageView (at_ s.swapChainImages j) s.swapChainImageFormat (ans j).1
              (ans j).2) }) := by
  intro n
  induction n with
  | zero =>
    intro i s _ hlen
    have ht : s.swapChainImageViews.take i = s.swapChainImageViews :=
      List.take_of_length_le (by omega)
    simp only [createImageViews.loop, List.range'_zero, List.map_nil, List.append_nil, ht]
  | succ n ih =>
    intro i s hans hlen
    obtain ⟨h1, h2⟩ := hans i (Nat.le_refl i) (by omega)
    unfold createImageViews.loop
    simp only [createImageView, h1, ne_eq, not_true_eq_false, if_false, h2]
    rw [ih (i + 1) _ (fun j hj hj2 => hans j (by omega) (by omega))
      (by simp [ImguiVulkanHelper.log, hlen]; omega)]
    simp only [ImguiVulkanHelper.log,
      take_succ_set (ans i).2 s.swapChainImageViews i (by omega), List.range'_succ,
      List.map_cons, List.append_assoc, List.singleton_append]
    simp [List.range'_succ, h1]

theorem createFramebuffers_loop_success (ans : Nat → VkResult × Handle) :
    ∀ (n i : Nat) (s : ImguiVulkanHelper),
      (∀ j, i ≤ j → j < i + n → (ans j).1 = VK_SUCCESS) →
      s.swapChainFramebuffers.length = i + n →
      createFramebuffers.loop ans n i s =
        (true, { s with
          swapChainFramebuffers :=
            s.swapChainFramebuffers.take i ++ (List.range' i n).map (fun j => (ans j).2)
          calls := s.calls ++ (List.range' i n).map (fun j =>
            Call.vkCreateFramebuffer s.renderPass (at_ s.swapChainImageViews j)
              s.swapChainExtent (ans j).1 (ans j).2) }) := by
  intro n
  induction n with
  | zero =>
    intro i s _ hlen
    have ht : s.swapChainFramebuffers.take i = s.swapChainFramebuffers :=
      List.take_of_length_le (by omega)
    simp only [createFramebuffers.loop, List.range'_zero, List.map_nil, List.append_nil, ht]
  | succ n ih =>
    intro i s hans hlen
    have h1 := hans i (Nat.le_refl i) (by omega)
    unfold createFramebuffers.loop
    simp only [h1, ne_eq, not_true_eq_false, if_false]
    rw [ih (i + 1) _ (fun j hj hj2 => hans j (by omega) (by omega))
      (by simp [ImguiVulkanHelper.log, hlen]; omega)]
    simp only [ImguiVulkanHelper.log,
      take_succ_set (ans i).2 s.swapChainFramebuffers i (by omega), List.range'_succ,
      List.map_cons, List.append_assoc, List.singleton_append]
    simp [List.range'_succ, h1]

theorem createSwapChain_success (env : SwapChainEnv) (s : ImguiVulkanHelper)
    (h : env.createRet = VK_SUCCESS) :
    (createSwapChain env s).2 =
      { s with
        swapChain := env.swapChain
        swapChainImages := env.images
        swapChainImageFormat := (createSwapChain.createInfo env s).imageFormat
        swapChainExtent := (createSwapChain.createInfo env s).imageExtent
        imageCount := env.images.length
        calls := s.calls ++
          [.vkCreateSwapchainKHR (createSwapChain.createInfo env s) env.createRet env.swapChain,
            .vkGetSwapchainImagesKHR env.swapChain env.images] } := by
  unfold createSwapChain
  simp [h, ImguiVulkanHelper.log]

theorem createImageViews_success (ans : Nat → VkResult × Handle) (s : ImguiVulkanHelper)
    (h : ∀ j, j < s.imageCount → (ans j).1 = VK_SUCCESS ∧ (ans j).2 ≠ VK_NULL_HANDLE) :
    (createImageViews ans s).2 =
      { s with
        swapChainImageViews := (List.range' 0 s.imageCount).map (fun j => (ans j).2)
        calls := s.calls ++ (List.range' 0 s.imageCount).map (fun j =>
          Call.vkCreateImageView (at_ s.swapChainImages j) s.swapChainImageFormat (ans j).1
            (ans j).2) } := by
  unfold createImageViews
  dsimp only
  rw [createImageViews_loop_success ans s.imageCount 0 _
    (fun j _ hj => h j (by simpa using hj)) (by simp [resize_length])]
  simp

theorem createFramebuffers_success (ans : Nat → VkResult × Handle) (s : ImguiVulkanHelper)
    (h : ∀ j, j < s.imageCount → (ans j).1 = VK_SUCCESS) :
    (createFramebuffers ans s).2 =
      { s with
        swapChainFramebuffers := (List.range' 0 s.imageCount).map (fun j => (ans j).2)
        calls := s.calls ++ (List.range' 0 s.imageCount).map (fun j =>
          Call.vkCreateFramebuffer s.renderPass (at_ s.swapChainImageViews j)
            s.swapChainExtent (ans j).1 (ans j).2) } := by
  unfold createFramebuffers
  dsimp only
  rw [createFramebuffers_loop_success ans s.imageCount 0 _
    (fun j _ hj => h j (by simpa using hj)) (by simp [resize_length])]
  simp

theorem createCommandBuffers_success (ans : VkResult × (Nat → Handle)) (s : ImguiVulkanHelper)
    (h : ans.1 = VK_SUCCESS) (hlen : s.swapChainFramebuffers.length < 2 ^ 32) :
    (createCommandBuffers ans s).2 =
      { s with
        commandBuffers := (List.range s.swapChainFramebuffers.length).map ans.2
        calls := s.calls ++
          [.vkAllocateCommandBuffers s.commandPool s.swapChainFramebuffers.length ans.1
            ((List.range s.swapChainFramebuffers.length).map ans.2)] } := by
  unfold createCommandBuffers
  simp only [resize_length, Nat.mod_eq_of_lt hlen, h, ne_eq, not_true_eq_false, if_false,
    ImguiVulkanHelper.log]
  rw [List.drop_of_length_le (by simp [resize_length])]
  simp

/-- The state after a `recreateSwapChain` in which every creation call succeeds, and the
calls it makes. -/
theorem recreateSwapChain_success (env : RecreateEnv) (s : ImguiVulkanHelper)
    (h : env.succeeds) :
    recreateSwapChain env s =
      { s with
        framebufferResized := s.framebufferResized || env.resizedWhileWaiting
        swapChain := env.swapChain.swapChain
        swapChainImages := env.swapChain.images
        swapChainImageFormat := (createSwapChain.createInfo env.swapChain s).imageFormat
        swapChainExtent := (createSwapChain.createInfo env.swapChain s).imageExtent
        imageCount := env.swapChain.images.length
        swapChainImageViews :=
          (List.range' 0 env.swapChain.images.length).map (fun j => (env.imageViews j).2)
        swapChainFramebuffers :=
          (List.range' 0 env.swapChain.images.length).map (fun j => (env.framebuffers j).2)
        commandBuffers := (List.range env.swapChain.images.length).map env.commandBuffers.2
        calls := s.calls ++ (Call.vkDeviceWaitIdle s.device :: (swapChainDestroyCalls s ++
          ([.vkCreateSwapchainKHR (createSwapChain.createInfo env.swapChain s)
              env.swapChain.createRet env.swapChain.swapChain,
            .vkGetSwapchainImagesKHR env.swapChain.swapChain env.swapChain.images] ++
          ((List.range' 0 env.swapChain.images.length).map (fun j =>
              Call.vkCreateImageView (at_ env.swapChain.images j)
                (createSwapChain.createInfo env.swapChain s).imageFormat (env.imageViews j).1
                (env.imageViews j).2) ++
          ((List.range' 0 env.swapChain.images.length).map (fun j =>
              Call.vkCreateFramebuffer s.renderPass
                (at_ ((List.range' 0 env.swapChain.images.length).map
                  (fun j => (env.imageViews j).2)) j)
                (createSwapChain.createInfo env.swapChain s).imageExtent (env.framebuffers j).1
                (env.framebuffers j).2) ++
          [.vkAllocateCommandBuffers s.commandPool env.swapChain.images.length
            env.commandBuffers.1
            ((List.range env.swapChain.images.length).map env.commandBuffers.2)]))))) } := by
  obtain ⟨hc, hN, hv, hf, hcb⟩ := h
  unfold recreateSwapChain
  dsimp only
  rw [recreateSwapChain_wait_eq, cleanupSwapChain_eq, createSwapChain_success _ _ hc,
    createImageViews_success _ _ (by simpa using hv),
    createFramebuffers_success _ _ (by simpa using hf),
    createCommandBuffers_success _ _ hcb (by simpa using hN)]
  simp [ImguiVulkanHelper.log, swapChainDestroyCalls, createSwapChain.createInfo,
    RecreateEnv.resizedWhileWaiting]

theorem flatMap_singleton_eq_map {α β : Type} (k : α → β) (l : List α) :
    (l.flatMap fun a => [k a]) = l.map k := by
  induction l with
  | nil => rfl
  | cons a rest ih => simp [ih]

theorem map_at_range' (l : List Handle) : (List.range' 0 l.length).map (at_ l) = l := by
  apply List.ext_getElem
  · simp
  · intro i h1 h2
    simp [at_, List.getD_eq_getElem?_getD, List.getElem?_eq_getElem h2]

theorem at_map_range' (f : Nat → Handle) (n j : Nat) (h : j < n) :
    at_ ((List.range' 0 n).map f) j = f j := by
  simp [at_, List.getD_eq_getElem?_getD, List.getElem?_map, List.getElem?_range' , h]

/-- The calls of a `recreateSwapChain` in which every creation call succeeds. -/
theorem recreateSwapChain_success_calls (env : RecreateEnv) (s : ImguiVulkanHelper)
    (h : env.succeeds) :
    callsDuring s (recreateSwapChain env s) =
      Call.vkDeviceWaitIdle s.device :: (swapChainDestroyCalls s ++
        ([.vkCreateSwapchainKHR (createSwapChain.createInfo env.swapChain s) VK_SUCCESS
            env.swapChain.swapChain,
          .vkGetSwapchainImagesKHR env.swapChain.swapChain env.swapChain.images] ++
        ((List.range' 0 env.swapChain.images.length).map (fun j =>
            Call.vkCreateImageView (at_ env.swapChain.images j)
              (createSwapChain.createInfo env.swapChain s).imageFormat VK_SUCCESS
              (env.imageViews j).2) ++
        ((List.range' 0 env.swapChain.images.length).map (fun j =>
            Call.vkCreateFramebuffer s.renderPass (env.imageViews j).2
              (createSwapChain.createInfo env.swapChain s).imageExtent VK_SUCCESS
              (env.framebuffers j).2) ++
        [.vkAllocateCommandBuffers s.commandPool env.swapChain.images.length VK_SUCCESS
          ((List.range env.swapChain.images.length).map env.commandBuffers.2)])))) := by
  have hcalls := congrArg ImguiVulkanHelper.calls (recreateSwapChain_success env s h)
  obtain ⟨hc, hN, hv, hf, hcb⟩ := h
  dsimp only at hcalls
  rw [callsDuring_of_append hcalls, hc, hcb]
  have e1 : (List.range' 0 env.swapChain.images.length).map (fun j =>
      Call.vkCreateImageView (at_ env.swapChain.images j)
        (createSwapChain.createInfo env.swapChain s).imageFormat (env.imageViews j).1
        (env.imageViews j).2) =
      (List.range' 0 env.swapChain.images.length).map (fun j =>
        Call.vkCreateImageView (at_ env.swapChain.images j)
          (createSwapChain.createInfo env.swapChain s).imageFormat VK_SUCCESS
          (env.imageViews j).2) := by
    apply List.map_congr_left
    intro j hj
    rw [(hv j (by simpa using hj)).1]
  have e2 : (List.range' 0 env.swapChain.images.length).map (fun j =>
      Call.vkCreateFramebuffer s.renderPass
        (at_ ((List.range' 0 env.swapChain.images.length).map
          (fun j => (env.imageViews j).2)) j)
        (createSwapChain.createInfo env.swapChain s).imageExtent (env.framebuffers j).1
        (env.framebuffers j).2) =
      (List.range' 0 env.swapChain.images.length).map (fun j =>
        Call.vkCreateFramebuffer s.renderPass (env.imageViews j).2
          (createSwapChain.createInfo env.swapChain s).imageExtent VK_SUCCESS
          (env.framebuffers j).2) := by
    apply List.map_congr_left
    intro j hj
    have hj' : j < env.swapChain.images.length := by simpa using hj
    rw [hf j hj', at_map_range' _ _ _ hj']
  rw [e1, e2]

/-- What one `recreateSwapChain` in which every creation call succeeds leaves: the image,
view, framebuffer and command-buffer vectors have the length of the new image count; the
framebuffers created are, index by index, built from the views of the view vector, and the
views from the images of the image vector; the objects created are those of the vectors. -/
theorem recreateSwapChain_success_aligned (env : RecreateEnv) (s : ImguiVulkanHelper)
    (h : env.succeeds) :
    (recreateSwapChain env s).imageCount = env.swapChain.images.length ∧
    (recreateSwapChain env s).swapChainImages.length = (recreateSwapChain env s).imageCount ∧
    (recreateSwapChain env s).swapChainImageViews.length =
      (recreateSwapChain env s).imageCount ∧
    (recreateSwapChain env s).swapChainFramebuffers.length =
      (recreateSwapChain env s).imageCount ∧
    (recreateSwapChain env s).commandBuffers.length = (recreateSwapChain env s).imageCount ∧
    (callsDuring s (recreateSwapChain env s)).flatMap Call.createdFramebuffers =
      List.zip (recreateSwapChain env s).swapChainFramebuffers
        (recreateSwapChain env s).swapChainImageViews ∧
    (callsDuring s (recreateSwapChain env s)).flatMap Call.createdViewsOfImages =
      List.zip (recreateSwapChain env s).swapChainImageViews
        (recreateSwapChain env s).swapChainImages ∧
    (callsDuring s (recreateSwapChain env s)).flatMap Call.createdImageViews =
      (recreateSwapChain env s).swapChainImageViews ∧
    (callsDuring s (recreateSwapChain env s)).flatMap Call.allocatedCommandBuffers =
      (recreateSwapChain env s).commandBuffers ∧
    (callsDuring s (recreateSwapChain env s)).flatMap Call.createdSwapchains =
      [(recreateSwapChain env s).swapChain] := by
  rw [recreateSwapChain_success_calls env s h, recreateSwapChain_success env s h]
  dsimp only
  refine ⟨rfl, rfl, by simp, by simp, by simp, ?_, ?_, ?_, ?_, ?_⟩
  · simp [swapChainDestroyCalls, List.flatMap_map, Call.createdFramebuffers, flatMap_const_nil,
      flatMap_singleton_eq_map, List.zip_map']
  · conv_rhs => rw [← map_at_range' env.swapChain.images]
    simp [swapChainDestroyCalls, List.flatMap_map, Call.createdViewsOfImages, flatMap_const_nil,
      flatMap_singleton_eq_map, List.zip_map']
  · simp [swapChainDestroyCalls, List.flatMap_map, Call.createdImageViews, flatMap_const_nil,
      flatMap_singleton_eq_map]
  · simp [swapChainDestroyCalls, List.flatMap_map, Call.allocatedCommandBuffers,
      flatMap_const_nil]
  · simp [swapChainDestroyCalls, List.flatMap_map, Call.createdSwapchains, flatMap_const_nil]

theorem destroyed_of_not_destroy (c : Call) (h : c.isDestroy = false) :
    c.destroyedFramebuffers = [] ∧ c.destroyedImageViews = [] ∧ c.freedCommandBuffers = [] ∧
    c.destroyedSwapchains = [] := by
  revert h
  cases c <;> intro h <;> first | exact ⟨rfl, rfl, rfl, rfl⟩ | cases h

theorem flatMap_of_not_destroy (new : List Call) (h : ∀ c ∈ new, c.isDestroy = false) :
    new.flatMap Call.destroyedFramebuffers = [] ∧ new.flatMap Call.destroyedImageViews = [] ∧
    new.flatMap Call.freedCommandBuffers = [] ∧ new.flatMap Call.destroyedSwapchains = [] := by
  simp only [List.flatMap_eq_nil_iff]
  exact ⟨fun c hc => (destroyed_of_not_destroy c (h c hc)).1,
    fun c hc => (destroyed_of_not_destroy c (h c hc)).2.1,
    fun c hc => (destroyed_of_not_destroy c (h c hc)).2.2.1,
    fun c hc => (destroyed_of_not_destroy c (h c hc)).2.2.2⟩

/-- The objects that one `recreateSwapChain` destroys, whatever its creation calls return:
the framebuffers, the views, the command buffers and the swapchain of the state at the
call. -/
theorem recreateSwapChain_destroyed (env : RecreateEnv) (s : ImguiVulkanHelper) :
    (callsDuring s (recreateSwapChain env s)).flatMap Call.destroyedFramebuffers =
      s.swapChainFramebuffers ∧
    (callsDuring s (recreateSwapChain env s)).flatMap Call.destroyedImageViews =
      s.swapChainImageViews ∧
    (callsDuring s (recreateSwapChain env s)).flatMap Call.freedCommandBuffers =
      s.commandBuffers.take (s.commandBuffers.length % 2 ^ 32) ∧
    (callsDuring s (recreateSwapChain env s)).flatMap Call.destroyedSwapchains =
      [s.swapChain] := by
  obtain ⟨_, new, hn, hp⟩ := recreateSwapChain_calls env s
  obtain ⟨n1, n2, n3, n4⟩ := flatMap_of_not_destroy new hp
  rw [callsDuring_of_append hn]
  simp only [List.flatMap_cons, List.flatMap_append, n1, n2, n3, n4, List.append_nil]
  simp [swapChainDestroyCalls, List.flatMap_map, Call.destroyedFramebuffers,
    Call.destroyedImageViews, Call.freedCommandBuffers, Call.destroyedSwapchains,
    flatMap_const_nil, flatMap_singleton_eq_map]

/-- The statement of C24 where every creation call of the two rebuilds succeeds: after the
first and again after the second `recreateSwapChain` the image, view, framebuffer and
command-buffer vectors have the length `imageCount`, the framebuffers created are built
index by index from the views of the view vector and the views from the images of the image
vector, and the second rebuild destroys exactly the framebuffers, views, command buffers
and swapchain that the first created, each once. -/
theorem recreateSwapChain_twice_of_success (env1 env2 : RecreateEnv) (s : ImguiVulkanHelper)
    (h1 : env1.succeeds) (h2 : env2.succeeds) :
    ((recreateSwapChain env1 s).swapChainImages.length = (recreateSwapChain env1 s).imageCount ∧
      (recreateSwapChain env1 s).swapChainImageViews.length =
        (recreateSwapChain env1 s).imageCount ∧
      (recreateSwapChain env1 s).swapChainFramebuffers.length =
        (recreateSwapChain env1 s).imageCount ∧
      (recreateSwapChain env1 s).commandBuffers.length =
        (recreateSwapChain env1 s).imageCount) ∧
    ((recreateSwapChain env2 (recreateSwapChain env1 s)).swapChainImages.length =
        (recreateSwapChain env2 (recreateSwapChain env1 s)).imageCount ∧
      (recreateSwapChain env2 (recreateSwapChain env1 s)).swapChainImageViews.length =
        (recreateSwapChain env2 (recreateSwapChain env1 s)).imageCount ∧
      (recreateSwapChain env2 (recreateSwapChain env1 s)).swapChainFramebuffers.length =
        (recreateSwapChain env2 (recreateSwapChain env1 s)).imageCount ∧
      (recreateSwapChain env2 (recreateSwapChain env1 s)).commandBuffers.length =
        (recreateSwapChain env2 (recreateSwapChain env1 s)).imageCount) ∧
    ((callsDuring s (recreateSwapChain env1 s)).flatMap Call.createdFramebuffers =
        List.zip (recreateSwapChain env1 s).swapChainFramebuffers
          (recreateSwapChain env1 s).swapChainImageViews ∧
      (callsDuring s (recreateSwapChain env1 s)).flatMap Call.createdViewsOfImages =
        List.zip (recreateSwapChain env1 s).swapChainImageViews
          (recreateSwapChain env1 s).swapChainImages) ∧
    ((callsDuring (recreateSwapChain env1 s)
        (recreateSwapChain env2 (recreateSwapChain env1 s))).flatMap Call.createdFramebuffers =
        List.zip (recreateSwapChain env2 (recreateSwapChain env1 s)).swapChainFramebuffers
          (recreateSwapChain env2 (recreateSwapChain env1 s)).swapChainImageViews ∧
      (callsDuring (recreateSwapChain env1 s)
        (recreateSwapChain env2 (recreateSwapChain env1 s))).flatMap
          Call.createdViewsOfImages =
        List.zip (recreateSwapChain env2 (recreateSwapChain env1 s)).swapChainImageViews
          (recreateSwapChain env2 (recreateSwapChain env1 s)).swapChainImages) ∧
    (callsDuring (recreateSwapChain env1 s)
      (recreateSwapChain env2 (recreateSwapChain env1 s))).flatMap Call.destroyedFramebuffers =
      ((callsDuring s (recreateSwapChain env1 s)).flatMap Call.createdFramebuffers).map
        Prod.fst ∧
    (callsDuring (recreateSwapChain env1 s)
      (recreateSwapChain env2 (recreateSwapChain env1 s))).flatMap Call.destroyedImageViews =
      (callsDuring s (recreateSwapChain env1 s)).flatMap Call.createdImageViews ∧
    (callsDuring (recreateSwapChain env1 s)
      (recreateSwapChain env2 (recreateSwapChain env1 s))).flatMap Call.freedCommandBuffers =
      (callsDuring s (recreateSwapChain env1 s)).flatMap Call.allocatedCommandBuffers ∧
    (callsDuring (recreateSwapChain env1 s)
      (recreateSwapChain env2 (recreateSwapChain env1 s))).flatMap Call.destroyedSwapchains =
      (callsDuring s (recreateSwapChain env1 s)).flatMap Call.createdSwapchains := by
  obtain ⟨a0, a1, a2, a3, a4, a5, a6, a7, a8, a9⟩ := recreateSwapChain_success_aligned env1 s h1
  obtain ⟨b0, b1, b2, b3, b4, b5, b6, _, _, _⟩ :=
    recreateSwapChain_success_aligned env2 (recreateSwapChain env1 s) h2
  obtain ⟨d1, d2, d3, d4⟩ := recreateSwapChain_destroyed env2 (recreateSwapChain env1 s)
  refine ⟨⟨a1, a2, a3, a4⟩, ⟨b1, b2, b3, b4⟩, ⟨a5, a6⟩, ⟨b5, b6⟩, ?_, ?_, ?_, ?_⟩
  · rw [d1, a5, List.map_fst_zip]
    rw [a3, a2]
  · rw [d2, a7]
  · rw [d3, a8, Nat.mod_eq_of_lt (by rw [a4, a0]; exact h1.2.1), List.take_length]
  · rw [d4, a9]

/-- C24 where every creation call succeeds, at two rebuilds of `initialisedHelper`: the
first creates three views 120 to 122 and three framebuffers 130 to 132, the second destroys
them and leaves two of each. -/
theorem recreateSwapChain_twice_of_success_witness :
    (sampleRecreateEnv.succeeds ∧ secondRecreateEnv.succeeds) ∧
    (callsDuring (recreateSwapChain sampleRecreateEnv initialisedHelper)
      (recreateSwapChain secondRecreateEnv
        (recreateSwapChain sampleRecreateEnv initialisedHelper))).flatMap
        Call.destroyedImageViews =
      (callsDuring initialisedHelper
        (recreateSwapChain sampleRecreateEnv initialisedHelper)).flatMap
        Call.createdImageViews ∧
    (callsDuring initialisedHelper
      (recreateSwapChain sampleRecreateEnv initialisedHelper)).flatMap
        Call.createdImageViews = [120, 121, 122] ∧
    (recreateSwapChain secondRecreateEnv
      (recreateSwapChain sampleRecreateEnv initialisedHelper)).swapChainFramebuffers =
        [230, 231] :=
  ⟨⟨⟨rfl, by decide, fun i hi => ⟨rfl, Nat.ne_of_gt (Nat.lt_of_lt_of_le (by decide)
      (Nat.le_add_right 120 i))⟩, fun _ _ => rfl, rfl⟩,
    ⟨rfl, by decide, fun i hi => ⟨rfl, Nat.ne_of_gt (Nat.lt_of_lt_of_le (by decide)
      (Nat.le_add_right 220 i))⟩, fun _ _ => rfl, rfl⟩⟩,
    (recreateSwapChain_twice_of_success sampleRecreateEnv secondRecreateEnv initialisedHelper
      ⟨rfl, by decide, fun i hi => ⟨rfl, Nat.ne_of_gt (Nat.lt_of_lt_of_le (by decide)
        (Nat.le_add_right 120 i))⟩, fun _ _ => rfl, rfl⟩
      ⟨rfl, by decide, fun i hi => ⟨rfl, Nat.ne_of_gt (Nat.lt_of_lt_of_le (by decide)
        (Nat.le_add_right 220 i))⟩, fun _ _ => rfl, rfl⟩).2.2.2.2.2.1,
    by decide, by decide⟩

end Warbler
